import Mathlib

/-!
# DWIN SmartWard RemoteCare: the gateway application layer

A shallow embedding of the gateway sources under `Secondary/ESP32/main`: the
audio streaming engine (`audio_handler.c`), the serial ingress
(`uart_handler.c`) and the protocol router (`station_example_main.c`), with
the frame sender of the display node (`Secondary/T5L/Core/Src/Main.c`), and
theorems about them.

Conventions of the embedding

* A byte is a `Nat`; a buffer `(data, len)` reachable through a C pointer is the
  list of its `len` bytes, and a pointer that may be `NULL` is an `Option`.
* The file-level `static` variables of a C file are the fields of one structure.
* A FreeRTOS queue is the list of the items it holds, oldest first; the handle
  `audio_queue` is `NULL` exactly while the engine is not initialised and is
  then represented by the empty list.
* What the environment decides (does `malloc` succeed, what do the other tasks
  do while this one sleeps in `vTaskDelay`) is an explicit argument.
* Logging calls have no effect on the state and are left out.
* A call of one of the functions is taken as one step: calls made by different
  tasks are not interleaved with each other, except where a function is
  blocked and goes on to write shared state afterwards; what the other tasks
  do meanwhile is then given to the environment.  These places are the delays
  of `audio_stream_end`, the restart of the audio sink in `audio_stop`, and
  the `tcp_server_send` of the stream-data acknowledgement, after which
  `packet_count` is reset (the events of `stream_data_run`).
* The router's calls of `tcp_server_send` are its output: the list of the
  calls, each with its bytes and its target.
-/

namespace SmartWard

/-! ## ESP-IDF and FreeRTOS primitives used by the sources -/

/-- Type `esp_err_t` of ESP-IDF: a signed status code. -/
abbrev esp_err_t := Int

/-- Status `ESP_OK` of ESP-IDF. -/
def ESP_OK : esp_err_t := 0

/-- Status `ESP_FAIL` of ESP-IDF. -/
def ESP_FAIL : esp_err_t := -1

/-- FreeRTOS `xQueueSend` on a queue created with `uxLength` slots: the item is
appended when a slot is free (within the bounded wait), otherwise the call
reports failure and the queue is as before.  The Boolean is `pdPASS`. -/
def xQueueSend {α : Type} (q : List α) (uxLength : Nat) (item : α) : List α × Bool :=
  if q.length < uxLength then (q ++ [item], true) else (q, false)

/-- FreeRTOS `xQueueReset`: the queue is emptied. -/
def xQueueReset {α : Type} (_q : List α) : List α := []

/-- FreeRTOS `uxQueueMessagesWaiting`: number of items held. -/
def uxQueueMessagesWaiting {α : Type} (q : List α) : Nat := q.length

/-- FreeRTOS `xQueueReceive`: the oldest item and the rest of the queue, or
`none` when the queue is empty (the caller stays blocked). -/
def xQueueReceive {α : Type} (q : List α) : Option (α × List α) :=
  match q with
  | [] => none
  | item :: rest => some (item, rest)

/-! ## `uart_handler.c` -/

/-- Event kinds of the UART driver that `uart_event_task` distinguishes. -/
inductive uart_event_type_t
  | UART_DATA
  | UART_FIFO_OVF
  | UART_BUFFER_FULL
  | UART_EVENT_OTHER
  deriving DecidableEq, Repr

/-- Event record `uart_event_t` of the UART driver. -/
structure uart_event_t where
  type : uart_event_type_t
  size : Nat
  deriving DecidableEq, Repr

/-- Statics of `uart_handler.c` and the driver state they refer to:
`uart_paused`, the bytes waiting in the driver's input buffer and the event
queue `uart_queue` (`none` while it is `NULL`). -/
structure UartHandler where
  uart_paused : Bool
  rx_buffer : List Nat
  uart_queue : Option (List uart_event_t)
  deriving DecidableEq, Repr

/-- Function `uart_handler_pause` of `uart_handler.c`. -/
def uart_handler_pause (u : UartHandler) : UartHandler :=
  if !u.uart_paused then { u with uart_paused := true } else u

/-- Function `uart_handler_resume` of `uart_handler.c`: clears the flag, flushes
the input buffer and resets the event queue, all only when paused. -/
def uart_handler_resume (u : UartHandler) : UartHandler :=
  if u.uart_paused then
    { uart_paused := false
      rx_buffer := []
      uart_queue := u.uart_queue.map xQueueReset }
  else u

/-! ## `audio_handler.c` -/

/-- Enumeration `audio_state_t`. -/
inductive audio_state_t
  | AUDIO_STATE_IDLE
  | AUDIO_STATE_RECEIVING
  | AUDIO_STATE_PLAYING
  deriving DecidableEq, Repr

open audio_state_t

/-- Structure `audio_packet_t`: the owned buffer and its length. -/
structure audio_packet_t where
  data : List Nat
  len : Nat
  deriving DecidableEq, Repr

/-- Number of slots passed to `xQueueCreate` in `audio_handler_init`. -/
def AUDIO_QUEUE_LENGTH : Nat := 10

/-- Statics of `audio_handler.c`. -/
structure AudioHandler where
  current_state : audio_state_t
  audio_queue : List audio_packet_t
  audio_initialized : Bool
  deriving DecidableEq, Repr

/-- Program state seen by the audio streaming engine: its own statics and
those of the serial ingress it pauses and resumes. -/
structure State where
  audio : AudioHandler
  uart : UartHandler
  deriving DecidableEq, Repr

/-- Values of the statics before any function has run. -/
def boot : State where
  audio := { current_state := AUDIO_STATE_IDLE, audio_queue := [], audio_initialized := false }
  uart := { uart_paused := false, rx_buffer := [], uart_queue := none }

/-- Function `audio_handler_init`.  `queue_ok` and `task_ok` say whether
`xQueueCreate` and `xTaskCreate` succeed; `i2s` is the result of
`max98357_init`, or `none` when `CONFIG_USE_MAX98357` is not defined. -/
def audio_handler_init (queue_ok task_ok : Bool) (i2s : Option esp_err_t) (s : State) :
    State × esp_err_t :=
  if s.audio.audio_initialized then (s, ESP_OK)
  else
    let s0 : State := { s with audio := { s.audio with audio_queue := [] } }
    if !queue_ok then (s0, ESP_FAIL)
    else if !task_ok then (s0, ESP_FAIL)
    else
      match i2s with
      | some ret =>
        if ret ≠ ESP_OK then (s0, ret)
        else
          ({ s0 with audio := { s0.audio with audio_initialized := true,
                                              current_state := AUDIO_STATE_IDLE } }, ESP_OK)
      | none =>
        ({ s0 with audio := { s0.audio with audio_initialized := true,
                                            current_state := AUDIO_STATE_IDLE } }, ESP_OK)

/-- Function `audio_stream_start`. -/
def audio_stream_start (s : State) : State × esp_err_t :=
  if !s.audio.audio_initialized then (s, ESP_FAIL)
  else
    let uart := uart_handler_pause s.uart
    let audio := { s.audio with audio_queue := xQueueReset s.audio.audio_queue }
    ({ audio := { audio with current_state := AUDIO_STATE_RECEIVING }, uart := uart }, ESP_OK)

/-- Function `audio_stream_feed`.  The argument `data` is the caller's buffer
(`none` for a `NULL` pointer), its length is `len`; `malloc_ok` says whether
the allocation of the copy succeeds. -/
def audio_stream_feed (data : Option (List Nat)) (malloc_ok : Bool) (s : State) :
    State × esp_err_t :=
  if !s.audio.audio_initialized then (s, ESP_FAIL)
  else if s.audio.current_state ≠ AUDIO_STATE_RECEIVING ∧
      s.audio.current_state ≠ AUDIO_STATE_PLAYING then (s, ESP_FAIL)
  else
    match data with
    | none => (s, ESP_FAIL)
    | some bytes =>
      let len := bytes.length
      if len = 0 then (s, ESP_FAIL)
      else if !malloc_ok then (s, ESP_FAIL)
      else
        let packet : audio_packet_t := { data := bytes, len := len }
        let sent := xQueueSend s.audio.audio_queue AUDIO_QUEUE_LENGTH packet
        if !sent.2 then (s, ESP_FAIL)
        else
          let audio := { s.audio with audio_queue := sent.1 }
          if audio.current_state = AUDIO_STATE_RECEIVING then
            ({ s with audio := { audio with current_state := AUDIO_STATE_PLAYING } }, ESP_OK)
          else ({ s with audio := audio }, ESP_OK)

/-- One turn of the loop of `audio_play_task`: the packet taken from the queue
(played and then freed by the task), or `none` while the task is blocked on an
empty queue. -/
def audio_play_task (s : State) : State × Option audio_packet_t :=
  match xQueueReceive s.audio.audio_queue with
  | some (packet, rest) => ({ s with audio := { s.audio with audio_queue := rest } }, some packet)
  | none => (s, none)

/-- Result of the drain loop of `audio_stream_end`: the state, the final
`wait_count` (number of 10 ms delays) and the number of times the loop
condition called `uxQueueMessagesWaiting`. -/
structure DrainWait where
  state : State
  wait_count : Nat
  polls : Nat
  deriving DecidableEq, Repr

/-- Loop `while (uxQueueMessagesWaiting(audio_queue) > 0 && wait_count < 50)`
of `audio_stream_end`, run for at most `fuel` evaluations of its condition.
`env k` is what the other tasks do to the state during the delay that follows
`k` earlier delays of this call.  The left operand of `&&` is evaluated at
every test of the condition, so each test counts one poll. -/
def audio_stream_end_wait (env : Nat → State → State) :
    Nat → State → Nat → Nat → Option DrainWait
  | 0, _, _, _ => none
  | fuel + 1, s, wait_count, polls =>
    if uxQueueMessagesWaiting s.audio.audio_queue > 0 ∧ wait_count < 50 then
      audio_stream_end_wait env fuel (env wait_count s) (wait_count + 1) (polls + 1)
    else some { state := s, wait_count := wait_count, polls := polls + 1 }

/-- Result of `audio_stream_end`: state and status, with the counters of the
drain loop (both 0 when the call fails before the loop). -/
structure EndResult where
  state : State
  ret : esp_err_t
  wait_count : Nat
  polls : Nat
  deriving DecidableEq, Repr

/-- Function `audio_stream_end`, with `fuel` bounding the tests of the drain
loop condition; `none` only if the fuel runs out.  After the loop the task
sleeps once more (200 ms), then sets the state and resumes the UART. -/
def audio_stream_end (env : Nat → State → State) (fuel : Nat) (s : State) : Option EndResult :=
  if !s.audio.audio_initialized then
    some { state := s, ret := ESP_FAIL, wait_count := 0, polls := 0 }
  else
    match audio_stream_end_wait env fuel s 0 0 with
    | none => none
    | some w =>
      let s1 := env w.wait_count w.state
      some { state := { audio := { s1.audio with current_state := AUDIO_STATE_IDLE },
                        uart := uart_handler_resume s1.uart }
             ret := ESP_OK
             wait_count := w.wait_count
             polls := w.polls }

/-- Function `audio_stop`.  After `xQueueReset` and before
`current_state = AUDIO_STATE_IDLE` the task is blocked in the restart of the
audio sink (`max98357_clear_buffer`, `max98357_stop`, `vTaskDelay` of 50 ms,
`max98357_restart`, compiled in with `CONFIG_USE_MAX98357`); `others` is what
the other tasks do to the state meanwhile, the identity when the option is
not defined or nothing else runs. -/
def audio_stop (others : State → State) (s : State) : State × esp_err_t :=
  if !s.audio.audio_initialized then (s, ESP_FAIL)
  else
    let s1 : State :=
      { s with audio := { s.audio with audio_queue := xQueueReset s.audio.audio_queue } }
    let s2 := others s1
    ({ audio := { s2.audio with current_state := AUDIO_STATE_IDLE },
       uart := uart_handler_resume s2.uart }, ESP_OK)

/-- Function `audio_is_playing`. -/
def audio_is_playing (s : State) : Bool :=
  s.audio.current_state = AUDIO_STATE_PLAYING || s.audio.current_state = AUDIO_STATE_RECEIVING

/-! ## Runs of the engine -/

/-- The consumer task `audio_play_task` taking up to `n` packets in a row. -/
def consumer_drain : Nat → State → State
  | 0, s => s
  | n + 1, s => consumer_drain n (audio_play_task s).1

/-- Number of tests of the drain loop condition that `audio_stream_end` is
given: the loop leaves at the latest when `wait_count` has reached 50. -/
def END_FUEL : Nat := 51

/-- A step inside one streaming session: a feed call or a consumer turn. -/
inductive SessionOp
  | feed (data : Option (List Nat)) (malloc_ok : Bool)
  | dequeue

/-- Record of a session: the state, the payloads of the feed calls that
returned `ESP_OK` (in call order) and the packets the consumer task received
(in order of receipt). -/
structure SessionLog where
  state : State
  fed : List (List Nat)
  received : List audio_packet_t
  deriving DecidableEq, Repr

/-- One session step, recorded. -/
def session_step (op : SessionOp) (l : SessionLog) : SessionLog :=
  match op with
  | SessionOp.feed data malloc_ok =>
    let r := audio_stream_feed data malloc_ok l.state
    match data with
    | some bytes =>
      if r.2 = ESP_OK then { l with state := r.1, fed := l.fed ++ [bytes] }
      else { l with state := r.1 }
    | none => { l with state := r.1 }
  | SessionOp.dequeue =>
    let r := audio_play_task l.state
    match r.2 with
    | some packet => { l with state := r.1, received := l.received ++ [packet] }
    | none => { l with state := r.1 }

/-- A sequence of session steps, recorded. -/
def session : List SessionOp → SessionLog → SessionLog
  | [], l => l
  | op :: ops, l => session ops (session_step op l)

/-- What the other tasks do to the state while `audio_stop` is blocked: the
feed calls of other connections and the turns of the consumer task, in order. -/
def during_stop (ops : List SessionOp) (s : State) : State :=
  (session ops { state := s, fed := [], received := [] }).state

/-- A step of the engine as seen from outside: a call of one of its public
functions, or one turn of the consumer task.  For `stream_end`, `drain k` is
the number of packets the consumer task takes during the delay that follows
`k` earlier delays of that call.  For `stop`, `during` are the feed calls of
other connections and the consumer turns that happen while the call is
blocked in the restart of the audio sink. -/
inductive Op
  | start
  | feed (data : Option (List Nat)) (malloc_ok : Bool)
  | stream_end (drain : Nat → Nat)
  | stop (during : List SessionOp)
  | dequeue

/-- State after one step; `none` only if `audio_stream_end` ran out of fuel. -/
def step : Op → State → Option State
  | Op.start, s => some (audio_stream_start s).1
  | Op.feed data malloc_ok, s => some (audio_stream_feed data malloc_ok s).1
  | Op.stream_end drain, s =>
    (audio_stream_end (fun k => consumer_drain (drain k)) END_FUEL s).map EndResult.state
  | Op.stop during, s => some (audio_stop (during_stop during) s).1
  | Op.dequeue, s => some (audio_play_task s).1

/-- State after a sequence of steps. -/
def run : List Op → State → Option State
  | [], s => some s
  | op :: ops, s => (step op s).bind (run ops)

/-- The packet that `audio_stream_feed` builds from a payload. -/
def packet_of (bytes : List Nat) : audio_packet_t := { data := bytes, len := bytes.length }

/-- Feeding the payloads one after the other with no consumer turn in between
and every allocation succeeding: the final state and the status of each call. -/
def feed_all : List (List Nat) → State → State × List esp_err_t
  | [], s => (s, [])
  | bytes :: rest, s =>
    let r := audio_stream_feed (some bytes) true s
    let t := feed_all rest r.1
    (t.1, r.2 :: t.2)


/-! ## Concrete states used in examples -/

/-- The engine after a successful `audio_handler_init` from boot. -/
def ready : State := (audio_handler_init true true none boot).1

/-- The engine after `audio_handler_init` and `audio_stream_start`. -/
def receiving : State := (audio_stream_start ready).1

/-- The engine after start and ten accepted one-byte packets: a full queue. -/
def full_queue : State :=
  (feed_all [[1], [2], [3], [4], [5], [6], [7], [8], [9], [10]] receiving).1

/-- A session: two feeds, a failed allocation, consumer turns in between and
one consumer turn on an empty queue. -/
def sample_session : List SessionOp :=
  [SessionOp.feed (some [1, 2]) true, SessionOp.feed (some [3]) false, SessionOp.dequeue,
   SessionOp.feed (some [4]) true, SessionOp.feed (some []) true, SessionOp.dequeue,
   SessionOp.dequeue, SessionOp.feed (some [5, 6, 7]) true]

/-- The engine after start and one accepted packet. -/
def one_queued : State := (audio_stream_feed (some [1]) true receiving).1

/-- Other tasks that leave the state alone during every delay: in particular
the consumer task takes no packet. -/
def stalled : Nat → State → State := fun _ s => s

/-! ## `esp32_main.h`: opcodes -/

/-- Opcode `CMD_TEMP_THRESHOLD1` (display node to gateway, UART). -/
def CMD_TEMP_THRESHOLD1 : Nat := 0xE1

/-- Opcode `CMD_TEMP_THRESHOLD2`. -/
def CMD_TEMP_THRESHOLD2 : Nat := 0xE2

/-- Opcode `CMD_TEMP_NORMAL`. -/
def CMD_TEMP_NORMAL : Nat := 0xE0

/-- Opcode `CMD_TEMP_UPDATE`. -/
def CMD_TEMP_UPDATE : Nat := 0xE3

/-- Opcode `CMD_PLAY_AUDIO` (client to gateway, TCP). -/
def CMD_PLAY_AUDIO : Nat := 0xA1

/-- Opcode `CMD_STOP_AUDIO`. -/
def CMD_STOP_AUDIO : Nat := 0xA0

/-- Opcode `CMD_QUERY_STATUS`. -/
def CMD_QUERY_STATUS : Nat := 0xA2

/-- Opcode `CMD_AUDIO_STREAM_START`. -/
def CMD_AUDIO_STREAM_START : Nat := 0xA3

/-- Opcode `CMD_AUDIO_STREAM_DATA`. -/
def CMD_AUDIO_STREAM_DATA : Nat := 0xA4

/-- Opcode `CMD_AUDIO_STREAM_END`. -/
def CMD_AUDIO_STREAM_END : Nat := 0xA5

/-- Opcode `CMD_DEVICE_DISCOVERY`. -/
def CMD_DEVICE_DISCOVERY : Nat := 0xA6

/-- Response `RESP_THRESHOLD1_REACHED` (gateway to client, TCP). -/
def RESP_THRESHOLD1_REACHED : Nat := 0xD1

/-- Response `RESP_THRESHOLD2_REACHED`. -/
def RESP_THRESHOLD2_REACHED : Nat := 0xD2

/-- Response `RESP_TEMP_NORMAL`. -/
def RESP_TEMP_NORMAL : Nat := 0xD0

/-- Response `RESP_TEMP_UPDATE`. -/
def RESP_TEMP_UPDATE : Nat := 0xD3

/-- Response `RESP_STATUS_OK`. -/
def RESP_STATUS_OK : Nat := 0xD4

/-- Response `RESP_AUDIO_ACK`. -/
def RESP_AUDIO_ACK : Nat := 0xD5

/-- Response `RESP_DEVICE_INFO`. -/
def RESP_DEVICE_INFO : Nat := 0xD6

/-- Response `RESP_ERROR`. -/
def RESP_ERROR : Nat := 0xDF

/-! ## `uart_handler.c`: the event task -/

/-- Loop `while (i < len)` of the `UART_DATA` case of `uart_event_task` on the
buffer `data` of `len = data.length` bytes, from index `i`, run for at most
`fuel` tests of its condition: the arguments of the calls of `g_callback`, in
order; `none` only if the fuel runs out.  `temp_value` is a `uint16_t` and
`cmd_with_temp` a `uint32_t`. -/
def uart_decode_loop (data : List Nat) : Nat → Nat → Option (List Nat)
  | 0, _ => none
  | fuel + 1, i =>
    if i < data.length then
      let cmd := data.getD i 0
      if 0xE0 ≤ cmd ∧ cmd ≤ 0xE3 then
        if i + 2 < data.length then
          let temp_value := ((data.getD (i + 1) 0 <<< 8) ||| data.getD (i + 2) 0) % 65536
          let cmd_with_temp := ((temp_value <<< 16) ||| cmd) % 4294967296
          (uart_decode_loop data fuel (i + 3)).map (fun calls => cmd_with_temp :: calls)
        else uart_decode_loop data fuel (i + 1)
      else uart_decode_loop data fuel (i + 1)
    else some []

/-- Case `UART_DATA` of `uart_event_task` once `uart_read_bytes` has filled the
buffer with `data`: the arguments of the calls of `g_callback`, in order.
`g_callback_set` says that `g_callback` is not `NULL`.  The counters
`ignored_bytes` and `last_log_time` only feed a log line and are left out. -/
def uart_event_data (g_callback_set paused : Bool) (data : List Nat) : Option (List Nat) :=
  if paused then some []
  else if data.length > 0 ∧ g_callback_set = true then
    uart_decode_loop data (data.length + 1) 0
  else some []

/-- One turn of the loop of `uart_event_task`: the next event is taken from
`uart_queue` and handled; the result is the new state and the arguments of
the calls of `g_callback`.  `uart_read_bytes` moves `event.size` bytes from
the driver's input buffer into the task's buffer.  With no event waiting the
task stays blocked. -/
def uart_event_task (g_callback_set : Bool) (u : UartHandler) :
    Option (UartHandler × List Nat) :=
  match u.uart_queue.bind xQueueReceive with
  | none => some (u, [])
  | some (event, rest) =>
    let u0 : UartHandler := { u with uart_queue := some rest }
    match event.type with
    | uart_event_type_t.UART_DATA =>
      let data := u0.rx_buffer.take event.size
      let u1 : UartHandler := { u0 with rx_buffer := u0.rx_buffer.drop event.size }
      (uart_event_data g_callback_set u1.uart_paused data).map (fun calls => (u1, calls))
    | uart_event_type_t.UART_FIFO_OVF =>
      some ({ u0 with rx_buffer := [], uart_queue := some (xQueueReset rest) }, [])
    | uart_event_type_t.UART_BUFFER_FULL =>
      some ({ u0 with rx_buffer := [], uart_queue := some (xQueueReset rest) }, [])
    | uart_event_type_t.UART_EVENT_OTHER => some (u0, [])

/-- Frames decoded from the bytes `data[i..len)` by the loop of
`uart_event_task`, written by recursion on those bytes: an opcode byte with
two bytes after it gives a call and the scan goes on after the three bytes,
any other byte is passed over. -/
def uart_frames : List Nat → List Nat
  | cmd :: hi :: lo :: rest =>
    if 0xE0 ≤ cmd ∧ cmd ≤ 0xE3 then
      (((((hi <<< 8) ||| lo) % 65536) <<< 16) ||| cmd) % 4294967296 :: uart_frames rest
    else uart_frames (hi :: lo :: rest)
  | _ :: rest => uart_frames rest
  | [] => []

/-! ## `T5L/Core/Src/Main.c`: the sender of the frames -/

/-- Function `Send_Command_To_ESP32_With_Temp(u8 cmd, u16 temp)` of the display
node: the three bytes it hands to `uart_send_str`. -/
def Send_Command_To_ESP32_With_Temp (cmd temp : Nat) : List Nat :=
  [cmd % 256, ((temp % 65536) >>> 8) % 256, ((temp % 65536) &&& 0xFF) % 256]

/-- The frames of a sequence of events `(cmd, temp)`, one after the other. -/
def send_frames : List (Nat × Nat) → List Nat
  | [] => []
  | e :: es => Send_Command_To_ESP32_With_Temp e.1 e.2 ++ send_frames es

/-! ## `station_example_main.c`: the protocol router -/

/-- A call `tcp_server_send(data, len, socket)`: the `len` bytes handed over
and the target, a socket or `-1` for every client. -/
structure SendCall where
  data : List Nat
  socket : Int
  deriving DecidableEq, Repr

/-- Function `uart_command_callback`: the calls of `tcp_server_send` it makes.
It reads the static `wifi_connected` and writes no static.  The argument is a
`uint32_t`, `cmd` a `uint8_t` and `temp_value` a `uint16_t`. -/
def uart_command_callback (wifi_connected : Bool) (cmd_with_temp : Nat) : List SendCall :=
  let cmd := (cmd_with_temp % 4294967296) &&& 0xFF
  let temp_value := ((cmd_with_temp % 4294967296) >>> 16) % 65536
  let response1 := (temp_value >>> 8) &&& 0xFF
  let response2 := temp_value &&& 0xFF
  if cmd = CMD_TEMP_THRESHOLD1 then
    if wifi_connected then
      [{ data := [RESP_THRESHOLD1_REACHED, response1, response2], socket := -1 }]
    else []
  else if cmd = CMD_TEMP_THRESHOLD2 then
    if wifi_connected then
      [{ data := [RESP_THRESHOLD2_REACHED, response1, response2], socket := -1 }]
    else []
  else if cmd = CMD_TEMP_NORMAL then
    if wifi_connected then
      [{ data := [RESP_TEMP_NORMAL, response1, response2], socket := -1 }]
    else []
  else if cmd = CMD_TEMP_UPDATE then
    if wifi_connected then
      [{ data := [RESP_TEMP_UPDATE, response1, response2], socket := -1 }]
    else []
  else []

/-- Statics of `station_example_main.c` that the two callbacks use:
`wifi_connected` and the counter `packet_count` declared inside
`tcp_data_callback`. -/
structure Station where
  wifi_connected : Bool
  packet_count : Int
  deriving DecidableEq, Repr

/-- State of the gateway seen by the router: the audio engine with the serial
ingress, and the router's own statics. -/
structure Gateway where
  engine : State
  station : Station
  deriving DecidableEq, Repr

/-- What the environment decides during one call of `tcp_data_callback`: does
the `malloc` in `audio_stream_feed` succeed, and what do the other tasks do
during the delays of `audio_stream_end` (`others k` for the delay that follows
`k` earlier ones) and while `audio_stop` is blocked (`others 0`). -/
structure CallEnv where
  malloc_ok : Bool
  others : Nat → State → State

/-- The bytes of the string `"ESP32-S3 Temp Monitor"` sent on device
discovery. -/
def device_name : List Nat :=
  [69, 83, 80, 51, 50, 45, 83, 51, 32, 84, 101, 109, 112, 32, 77, 111, 110, 105, 116, 111, 114]

/-- Function `tcp_data_callback(data, len, socket)` on the request `data` of
`len = data.length` bytes: the new state and the calls of `tcp_server_send`,
in order; `none` only if `audio_stream_end` ran out of fuel. -/
def tcp_data_callback (env : CallEnv) (data : List Nat) (socket : Int) (g : Gateway) :
    Option (Gateway × List SendCall) :=
  let len := data.length
  if len < 1 then some (g, [])
  else
    let cmd := data.getD 0 0
    if cmd = CMD_PLAY_AUDIO then
      if len > 1 then
        let r := audio_stream_feed (some (data.drop 1)) env.malloc_ok g.engine
        some ({ g with engine := r.1 }, [{ data := [RESP_AUDIO_ACK], socket := socket }])
      else some (g, [])
    else if cmd = CMD_AUDIO_STREAM_START then
      let r := audio_stream_start g.engine
      if r.2 = ESP_OK then
        some ({ g with engine := r.1 }, [{ data := [RESP_AUDIO_ACK], socket := socket }])
      else
        some ({ g with engine := r.1 }, [{ data := [RESP_ERROR], socket := socket }])
    else if cmd = CMD_AUDIO_STREAM_DATA then
      if len > 1 then
        let r := audio_stream_feed (some (data.drop 1)) env.malloc_ok g.engine
        if r.2 = ESP_OK then
          let packet_count := g.station.packet_count + 1
          if packet_count ≥ 10 then
            some ({ engine := r.1, station := { g.station with packet_count := 0 } },
              [{ data := [RESP_AUDIO_ACK], socket := socket }])
          else
            some ({ engine := r.1, station := { g.station with packet_count := packet_count } },
              [])
        else some ({ g with engine := r.1 }, [])
      else some (g, [])
    else if cmd = CMD_AUDIO_STREAM_END then
      match audio_stream_end env.others END_FUEL g.engine with
      | none => none
      | some r =>
        some ({ g with engine := r.state }, [{ data := [RESP_AUDIO_ACK], socket := socket }])
    else if cmd = CMD_STOP_AUDIO then
      let r := audio_stop (env.others 0) g.engine
      some ({ g with engine := r.1 }, [{ data := [RESP_AUDIO_ACK], socket := socket }])
    else if cmd = CMD_QUERY_STATUS then
      let is_playing := audio_is_playing g.engine
      some (g, [{ data := [RESP_STATUS_OK, if g.station.wifi_connected then 1 else 0,
                           if is_playing then 1 else 0],
                  socket := socket }])
    else if cmd = CMD_DEVICE_DISCOVERY then
      let name_len := if device_name.length > 60 then 60 else device_name.length
      some (g, [{ data := RESP_DEVICE_INFO :: device_name.take name_len, socket := socket }])
    else some (g, [{ data := [RESP_ERROR], socket := socket }])

/-! ## Runs of the router -/

/-- A stream-data request as it reaches `tcp_data_callback`: `others` is what
the other tasks (the consumer task, other connections) did to the engine
since the previous request, `payload` the bytes after the opcode byte. -/
structure DataRequest where
  others : State → State
  payload : List Nat
  socket : Int
  malloc_ok : Bool

/-- What a stream-data request led to: whether its payload was fed with
success, the connection it came from, and the calls of `tcp_server_send`. -/
structure DataOutcome where
  fed : Bool
  socket : Int
  sent : List SendCall
  deriving DecidableEq, Repr

/-- Result of the branch `case CMD_AUDIO_STREAM_DATA` of `tcp_data_callback`
up to its call of `tcp_server_send`: the state, whether the payload was fed
with success, and the call of `tcp_server_send` the task enters (none when
the branch ends without one). -/
structure DataBegin where
  gateway : Gateway
  fed : Bool
  sent : List SendCall
  deriving DecidableEq, Repr

/-- Branch `case CMD_AUDIO_STREAM_DATA` of `tcp_data_callback(data, len,
socket)` up to the point where the task enters `tcp_server_send`, or to the
end of the branch when nothing is sent: the feed, `++packet_count` (stored in
the static) and the test against 10. -/
def stream_data_begin (malloc_ok : Bool) (data : List Nat) (socket : Int) (g : Gateway) :
    DataBegin :=
  let len := data.length
  if len > 1 then
    let r := audio_stream_feed (some (data.drop 1)) malloc_ok g.engine
    if r.2 = ESP_OK then
      let packet_count := g.station.packet_count + 1
      let g1 : Gateway :=
        { engine := r.1, station := { g.station with packet_count := packet_count } }
      if packet_count ≥ 10 then
        { gateway := g1, fed := true, sent := [{ data := [RESP_AUDIO_ACK], socket := socket }] }
      else { gateway := g1, fed := true, sent := [] }
    else { gateway := { g with engine := r.1 }, fed := false, sent := [] }
  else { gateway := g, fed := false, sent := [] }

/-- Rest of the branch `case CMD_AUDIO_STREAM_DATA` once `tcp_server_send` has
returned: `packet_count = 0`. -/
def stream_data_finish (g : Gateway) : Gateway :=
  { g with station := { g.station with packet_count := 0 } }

/-- The gateway while the connection tasks serve stream-data requests:
`sending` lists the sockets of the tasks that are inside the
`tcp_server_send` of an acknowledgement and have not yet reset
`packet_count`. -/
structure Serving where
  gateway : Gateway
  sending : List Int
  deriving DecidableEq, Repr

/-- What a connection task does in one go while serving stream-data requests:
`request r`, the task of `r.socket` handles the request up to its call of
`tcp_server_send` (or to the end if it sends nothing); `sent socket`, the
`tcp_server_send` of the task of `socket` returns and the task resets
`packet_count`. -/
inductive StreamEvent
  | request (r : DataRequest)
  | sent (socket : Int)

/-- One event.  A request of a connection whose task is still inside
`tcp_server_send` is not read yet and a return for a task that is not
sending does not happen: such events leave the state as it is. -/
def stream_event_step : StreamEvent → Serving → Serving × List DataOutcome
  | StreamEvent.request r, v =>
    if r.socket ∈ v.sending then (v, [])
    else
      let g0 : Gateway := { v.gateway with engine := r.others v.gateway.engine }
      let b := stream_data_begin r.malloc_ok (CMD_AUDIO_STREAM_DATA :: r.payload) r.socket g0
      ({ gateway := b.gateway,
         sending := if b.sent.isEmpty then v.sending else v.sending ++ [r.socket] },
       [{ fed := b.fed, socket := r.socket, sent := b.sent }])
  | StreamEvent.sent socket, v =>
    if socket ∈ v.sending then
      ({ gateway := stream_data_finish v.gateway, sending := v.sending.erase socket }, [])
    else (v, [])

/-- The connection tasks serving stream-data requests, their steps in the
order `events`: the final state and the outcome of each request handled. -/
def stream_data_run : List StreamEvent → Serving → Serving × List DataOutcome
  | [], v => (v, [])
  | e :: es, v =>
    let r := stream_event_step e v
    let t := stream_data_run es r.1
    (t.1, r.2 ++ t.2)

/-- The events of requests handled one at a time: each request is handled to
the end, the return of its `tcp_server_send` included, before the next. -/
def one_at_a_time : List DataRequest → List StreamEvent
  | [] => []
  | r :: rs => StreamEvent.request r :: StreamEvent.sent r.socket :: one_at_a_time rs

/-- The calls of `tcp_server_send` made while the router handles the callback
arguments `args` one after the other. -/
def uart_command_run (wifi_connected : Bool) : List Nat → List SendCall
  | [] => []
  | arg :: args => uart_command_callback wifi_connected arg ++ uart_command_run wifi_connected args

/-! ## Concrete states of the gateway used in examples -/

/-- The gateway with the network available, the engine initialised and idle,
and the acknowledgement counter at zero. -/
def gateway_ready : Gateway :=
  { engine := ready, station := { wifi_connected := true, packet_count := 0 } }

/-- The gateway at boot: engine not initialised, network not available. -/
def gateway_boot : Gateway :=
  { engine := boot, station := { wifi_connected := false, packet_count := 0 } }

/-- An environment in which allocations succeed and the other tasks leave the
state alone. -/
def calm : CallEnv := { malloc_ok := true, others := stalled }

/-- The argument `(t << 16) | c` with which the decoder calls the router for
the opcode `c` and the value `t`. -/
def callback_arg (c t : Nat) : Nat := (t <<< 16) ||| c

/-- The response opcode that mirrors an ingress opcode: `0xE0` to `0xD0`,
`0xE1` to `0xD1`, `0xE2` to `0xD2`, `0xE3` to `0xD3`. -/
def mirror_opcode (c : Nat) : Nat :=
  if c = 0xE0 then 0xD0 else if c = 0xE1 then 0xD1 else if c = 0xE2 then 0xD2 else 0xD3

/-- The three bytes of the notification for the opcode `c` and the value `t`,
addressed to every client. -/
def notification (c t : Nat) : SendCall :=
  { data := [mirror_opcode c, t >>> 8, t &&& 0xFF], socket := -1 }

/-- Three events whose value bytes are themselves opcode bytes. -/
def sample_events : List (Nat × Nat) := [(0xE0, 253), (0xE1, 0xE1E2), (0xE3, 0xE3E0)]

/-- A buffer with one whole frame, stray bytes and an opcode byte with only
one byte after it. -/
def sample_buffer : List Nat := [0x00, 0xE0, 0x00, 0xFD, 0x41, 0xE1, 0x07]

/-- The serial ingress while paused, with a whole frame waiting in the driver
and its data event queued. -/
def paused_ingress : UartHandler :=
  { uart_paused := true
    rx_buffer := [0xE1, 0x01, 0x19, 0x55]
    uart_queue := some [{ type := uart_event_type_t.UART_DATA, size := 3 }] }

/-- Twelve stream-data requests from socket 3, the consumer task taking one
packet before each. -/
def twelve_requests : List DataRequest :=
  (List.range 12).map (fun i =>
    { others := fun s => (audio_play_task s).1, payload := [i], socket := 3, malloc_ok := true })

/-- The gateway in the receiving state with the counter at zero. -/
def gateway_receiving : Gateway :=
  { engine := receiving, station := { wifi_connected := true, packet_count := 0 } }

/-- Ten stream-data requests from socket 1 and, while the task of socket 1 is
inside the `tcp_server_send` of its acknowledgement, an eleventh from socket
2; then both sends return.  The consumer task takes a packet before each
request. -/
def overlapped_requests : List StreamEvent :=
  (List.range 10).map (fun i => StreamEvent.request
    { others := fun s => (audio_play_task s).1, payload := [i], socket := 1, malloc_ok := true })
  ++ [StreamEvent.request
        { others := fun s => (audio_play_task s).1, payload := [10], socket := 2,
          malloc_ok := true },
      StreamEvent.sent 1, StreamEvent.sent 2]

/-- A request as it reaches `tcp_data_callback`: `others` is what the other
tasks did to the engine since the previous request, `env` what the
environment decides during the call, `data` the bytes received and `socket`
the connection they came from. -/
structure Request where
  others : State → State
  env : CallEnv
  data : List Nat
  socket : Int

/-- What a request led to: whether it was a stream-data request whose payload
was fed with success, the connection it came from, the calls of
`tcp_server_send`, and `packet_count` before and after the call. -/
structure Outcome where
  fed : Bool
  socket : Int
  sent : List SendCall
  count_before : Int
  count_after : Int
  deriving DecidableEq, Repr

/-- Whether a request is a stream-data request with a payload that
`audio_stream_feed` accepts in the engine state `s`. -/
def stream_data_fed (env : CallEnv) (data : List Nat) (s : State) : Bool :=
  decide (data.getD 0 0 = CMD_AUDIO_STREAM_DATA ∧ data.length > 1 ∧
    (audio_stream_feed (some (data.drop 1)) env.malloc_ok s).2 = ESP_OK)

/-- A sequence of requests of any kind handled one after the other: the final
state and the outcome of each request. -/
def tcp_run : List Request → Gateway → Option (Gateway × List Outcome)
  | [], g => some (g, [])
  | r :: rs, g =>
    let g0 : Gateway := { g with engine := r.others g.engine }
    match tcp_data_callback r.env r.data r.socket g0 with
    | none => none
    | some (g1, sent) =>
      match tcp_run rs g1 with
      | none => none
      | some (g2, outcomes) =>
        some (g2, { fed := stream_data_fed r.env r.data g0.engine, socket := r.socket,
                    sent := sent, count_before := g0.station.packet_count,
                    count_after := g1.station.packet_count } :: outcomes)

/-- A request made while the other tasks leave the engine alone and
allocations succeed. -/
def request (data : List Nat) (socket : Int) : Request :=
  { others := fun s => s, env := calm, data := data, socket := socket }

/-- Two sessions from two connections: start and five packets from socket 1,
stop and start again, four packets from socket 1 and a fifth from socket 2. -/
def two_sessions : List Request :=
  [request [0xA3] 1, request [0xA4, 1] 1, request [0xA4, 2] 1, request [0xA4, 3] 1,
   request [0xA4, 4] 1, request [0xA4, 5] 1, request [0xA0] 1, request [0xA3] 1,
   request [0xA4, 6] 1, request [0xA4, 7] 1, request [0xA4, 8] 1, request [0xA4, 9] 1,
   request [0xA4, 10] 2]

/-! ## `tcp_server.c` -/

/-- Constant `MAX_CONNECTIONS` of `esp32_main.h`. -/
def MAX_CONNECTIONS : Nat := 5

/-- Structure `client_info_t`; the address `struct sockaddr_in` is a number. -/
structure client_info_t where
  socket : Int
  active : Bool
  addr : Nat
  deriving DecidableEq, Repr

/-- Entry `clients[i]` of the array `clients` of `MAX_CONNECTIONS` entries,
held as a list. -/
def client_at (clients : List client_info_t) (i : Nat) : client_info_t :=
  clients.getD i { socket := -1, active := false, addr := 0 }

/-- Loop `for (i = 0; i < MAX_CONNECTIONS; i++)` of `find_free_client_slot`
from index `i` with `n = MAX_CONNECTIONS - i` indices left. -/
def find_free_client_slot_from (clients : List client_info_t) : Nat → Nat → Int
  | 0, _ => -1
  | n + 1, i =>
    if !(client_at clients i).active then (i : Int)
    else find_free_client_slot_from clients n (i + 1)

/-- Function `find_free_client_slot`. -/
def find_free_client_slot (clients : List client_info_t) : Int :=
  find_free_client_slot_from clients MAX_CONNECTIONS 0

/-- Effect of one turn of the accept loop of `tcp_server_task`: the array
`clients` at the end of the turn, the assignment `clients[slot] = ...` made
for the new connection (slot and content) if any, the sockets passed to
`close`, and the slot for which a `client_handler_task` was created. -/
structure AcceptResult where
  clients : List client_info_t
  stored : Option (Nat × client_info_t)
  closed : List Int
  task : Option Nat
  deriving DecidableEq, Repr

/-- One turn of the loop `while (server_running)` of `tcp_server_task`, once
`accept` has returned `client_sock` and `client_addr`; `task_ok` says whether
`xTaskCreate` succeeds. -/
def tcp_server_accept (task_ok : Bool) (client_sock : Int) (client_addr : Nat)
    (clients : List client_info_t) : AcceptResult :=
  if client_sock < 0 then { clients := clients, stored := none, closed := [], task := none }
  else
    let slot := find_free_client_slot clients
    if slot < 0 then
      { clients := clients, stored := none, closed := [client_sock], task := none }
    else
      let connection : client_info_t :=
        { socket := client_sock, active := true, addr := client_addr }
      let stored := clients.set slot.toNat connection
      if task_ok then
        { clients := stored, stored := some (slot.toNat, connection), closed := [],
          task := some slot.toNat }
      else
        { clients := stored.set slot.toNat
            { client_at stored slot.toNat with active := false, socket := -1 }
          stored := some (slot.toNat, connection)
          closed := [client_sock]
          task := none }

/-- Broadcast loop of `tcp_server_send` from index `i` with `n` indices left
and the running `total_sent`: the calls `send(socket, data, len, 0)` made, in
order, and the final `total_sent`.  `send i` is the value that the call made
for slot `i` returns. -/
def tcp_server_send_loop (send : Nat → Int) (clients : List client_info_t) (data : List Nat) :
    Nat → Nat → Int → List (Int × List Nat) × Int
  | 0, _, total_sent => ([], total_sent)
  | n + 1, i, total_sent =>
    if (client_at clients i).active = true ∧ (client_at clients i).socket ≥ 0 then
      let ret := send i
      let r := tcp_server_send_loop send clients data n (i + 1)
        (if ret > 0 then total_sent + ret else total_sent)
      (((client_at clients i).socket, data) :: r.1, r.2)
    else tcp_server_send_loop send clients data n (i + 1) total_sent

/-- Function `tcp_server_send(data, len, socket)`: the calls of `send` it
makes and its return value.  `send i` is the result of the call made for slot
`i` in a broadcast, `send_one` the result of the call of a unicast. -/
def tcp_server_send (send : Nat → Int) (send_one : Int) (clients : List client_info_t)
    (data : List Nat) (socket : Int) : List (Int × List Nat) × Int :=
  if socket < 0 then
    let r := tcp_server_send_loop send clients data MAX_CONNECTIONS 0 0
    if r.2 = 0 then (r.1, -1) else (r.1, r.2)
  else ([(socket, data)], send_one)

/-- Five connected clients on the sockets 54 to 58. -/
def full_table : List client_info_t :=
  [{ socket := 54, active := true, addr := 101 }, { socket := 55, active := true, addr := 102 },
   { socket := 56, active := true, addr := 103 }, { socket := 57, active := true, addr := 104 },
   { socket := 58, active := true, addr := 105 }]

/-- Three connected clients; the slots 1 and 3 are free. -/
def partial_table : List client_info_t :=
  [{ socket := 54, active := true, addr := 101 }, { socket := -1, active := false, addr := 0 },
   { socket := 56, active := true, addr := 103 }, { socket := -1, active := false, addr := 0 },
   { socket := 58, active := true, addr := 105 }]

/-- Results of `send` in which the send for slot 2 fails and the others send
three bytes. -/
def one_send_fails : Nat → Int := fun i => if i = 2 then -1 else 3

/-! ## `T5L/Core/Src/Main.c`: the display node -/

/-- Threshold `TEMP_FAN_THRESHOLD`, 28.0 degrees in tenths. -/
def TEMP_FAN_THRESHOLD : Nat := 280

/-- Threshold `TEMP_BUZZER_THRESHOLD`, 35.0 degrees in tenths. -/
def TEMP_BUZZER_THRESHOLD : Nat := 350

/-- Threshold `TEMP_ESP32_THRESHOLD1`. -/
def TEMP_ESP32_THRESHOLD1 : Nat := 280

/-- Threshold `TEMP_ESP32_THRESHOLD2`. -/
def TEMP_ESP32_THRESHOLD2 : Nat := 350

/-- Command `CMD_BUZZER_ON` to the sensor node. -/
def CMD_BUZZER_ON : Nat := 0xB1

/-- Command `CMD_BUZZER_OFF` to the sensor node. -/
def CMD_BUZZER_OFF : Nat := 0xB0

/-- Globals of `Main.c` of the display node (`u8` status flags, the `u16`
counter) and the pin `FAN` (P2.0). -/
structure DisplayNode where
  fan_status : Nat
  buzzer_status : Nat
  esp32_status : Nat
  temp_update_counter : Nat
  FAN : Nat
  deriving DecidableEq, Repr

/-- The display node when `Main` makes its first call: the globals have their
initial value 0 and `Sys_Cpu_Init` has set P2.0 high (fan off). -/
def display_boot : DisplayNode :=
  { fan_status := 0, buzzer_status := 0, esp32_status := 0, temp_update_counter := 0, FAN := 1 }

/-- What one call of `Check_Temperature_And_Control_Devices` leaves: the
globals, the bytes sent on UART2 to the sensor node and the bytes sent on
UART5 to the gateway. -/
structure CheckResult where
  node : DisplayNode
  to_c51 : List Nat
  to_esp32 : List Nat
  deriving DecidableEq, Repr

/-- Function `read_dgus_vp(addr, buf, 1)` of `Sys.c` on an address that holds
`word`: the two bytes it puts into `buf`, high byte first. -/
def read_dgus_vp (word : Nat) : List Nat := [(word / 256) % 256, word % 256]

/-- Function `Control_Fan_Direct`: the pin is low while the fan runs. -/
def Control_Fan_Direct (state : Nat) (d : DisplayNode) : DisplayNode :=
  if state ≠ 0 then { d with FAN := 0 } else { d with FAN := 1 }

/-- Function `Send_Control_Command_To_C51`: the byte sent on UART2. -/
def Send_Control_Command_To_C51 (cmd : Nat) : List Nat := [cmd % 256]

/-- Section "read the temperature" of `Check_Temperature_And_Control_Devices`:
the value of `temp_total` computed from the words held at `ADDR_TEMP_INT` and
`ADDR_TEMP_DEC`; `temp_int`, `temp_dec` and `temp_total` are `u16`. -/
def read_temp_total (dgus_temp_int dgus_temp_dec : Nat) : Nat :=
  let temp_buf := read_dgus_vp dgus_temp_int
  let temp_int := ((temp_buf.getD 0 0 <<< 8) ||| temp_buf.getD 1 0) % 65536
  let temp_buf := read_dgus_vp dgus_temp_dec
  let temp_dec := ((temp_buf.getD 0 0 <<< 8) ||| temp_buf.getD 1 0) % 65536
  (temp_int * 10 + temp_dec) % 65536

/-- Section "fan" of `Check_Temperature_And_Control_Devices`. -/
def control_fan (temp_total : Nat) (d : DisplayNode) : DisplayNode :=
  let new_fan_status := if temp_total ≥ TEMP_FAN_THRESHOLD then 1 else 0
  if new_fan_status ≠ d.fan_status then
    Control_Fan_Direct new_fan_status { d with fan_status := new_fan_status }
  else d

/-- Section "buzzer" of `Check_Temperature_And_Control_Devices`: the globals
and the bytes sent to the sensor node. -/
def control_buzzer (temp_total : Nat) (d : DisplayNode) : DisplayNode × List Nat :=
  let new_buzzer_status := if temp_total ≥ TEMP_BUZZER_THRESHOLD then 1 else 0
  if new_buzzer_status ≠ d.buzzer_status then
    let d1 := { d with buzzer_status := new_buzzer_status }
    if d1.buzzer_status ≠ 0 then (d1, Send_Control_Command_To_C51 CMD_BUZZER_ON)
    else (d1, Send_Control_Command_To_C51 CMD_BUZZER_OFF)
  else (d, [])

/-- Section "ESP32 notification" of `Check_Temperature_And_Control_Devices`:
the globals and the bytes sent to the gateway. -/
def notify_esp32 (temp_total : Nat) (d : DisplayNode) : DisplayNode × List Nat :=
  let new_esp32_status :=
    if temp_total ≥ TEMP_ESP32_THRESHOLD2 then 2
    else if temp_total ≥ TEMP_ESP32_THRESHOLD1 then 1 else 0
  if new_esp32_status ≠ d.esp32_status then
    let d1 := { d with esp32_status := new_esp32_status }
    let frame :=
      if d1.esp32_status = 2 then Send_Command_To_ESP32_With_Temp CMD_TEMP_THRESHOLD2 temp_total
      else if d1.esp32_status = 1 then
        Send_Command_To_ESP32_With_Temp CMD_TEMP_THRESHOLD1 temp_total
      else Send_Command_To_ESP32_With_Temp CMD_TEMP_NORMAL temp_total
    ({ d1 with temp_update_counter := 0 }, frame)
  else
    let counter := (d.temp_update_counter + 1) % 65536
    if counter ≥ 10 then
      ({ d with temp_update_counter := 0 },
        Send_Command_To_ESP32_With_Temp CMD_TEMP_UPDATE temp_total)
    else ({ d with temp_update_counter := counter }, [])

/-- Function `Check_Temperature_And_Control_Devices`: its four sections in
order.  The arguments are the words held at `ADDR_TEMP_INT` and
`ADDR_TEMP_DEC`. -/
def Check_Temperature_And_Control_Devices (dgus_temp_int dgus_temp_dec : Nat)
    (d : DisplayNode) : CheckResult :=
  let temp_total := read_temp_total dgus_temp_int dgus_temp_dec
  let d1 := control_fan temp_total d
  let r2 := control_buzzer temp_total d1
  let r3 := notify_esp32 temp_total r2.1
  { node := r3.1, to_c51 := r2.2, to_esp32 := r3.2 }

/-- The value `temp_total` that a call computes from the two words. -/
def temp_total_of (dgus_temp_int dgus_temp_dec : Nat) : Nat :=
  ((dgus_temp_int % 65536) * 10 + dgus_temp_dec % 65536) % 65536

/-- The status that a call derives from `temp_total`: 2 from 35.0 degrees, 1
from 28.0 degrees, else 0. -/
def esp32_status_of (temp_total : Nat) : Nat :=
  if temp_total ≥ 350 then 2 else if temp_total ≥ 280 then 1 else 0

/-- Calls of `Check_Temperature_And_Control_Devices` one after the other on
the readings `(word at ADDR_TEMP_INT, word at ADDR_TEMP_DEC)`: the final
globals and what each call sent to the gateway. -/
def check_run : List (Nat × Nat) → DisplayNode → DisplayNode × List (List Nat)
  | [], d => (d, [])
  | r :: rs, d =>
    let c := Check_Temperature_And_Control_Devices r.1 r.2 d
    let t := check_run rs c.node
    (t.1, c.to_esp32 :: t.2)

/-! ## `C51/src`: the sensor node -/

/-- Function `Send_DWIN_Int16(vp, value)` of `dwin.c`: the eight bytes of the
write frame; both arguments are 16-bit. -/
def Send_DWIN_Int16 (vp value : Nat) : List Nat :=
  [0x5A, 0xA5, 0x05, 0x82, ((vp % 65536) >>> 8) &&& 0xFF, (vp % 65536) &&& 0xFF,
   ((value % 65536) >>> 8) &&& 0xFF, (value % 65536) &&& 0xFF]

/-- Conversion of a 16-bit `int` to the `u16` parameter of `Send_DWIN_Int16`. -/
def int_to_u16 (x : Int) : Nat := (x % 65536).toNat

/-- The two frames that one turn of the loop of `main` of the sensor node
sends for the reading `temp_value` (an `int`, tenths of a degree):
`Send_DWIN_Int16(0x5000, temp_value / 10)` and
`Send_DWIN_Int16(0x5001, temp_value % 10)`, the division truncating. -/
def sensor_frames (temp_value : Int) : List Nat × List Nat :=
  (Send_DWIN_Int16 0x5000 (int_to_u16 (temp_value.tdiv 10)),
   Send_DWIN_Int16 0x5001 (int_to_u16 (temp_value.tmod 10)))

/-- The word that a DWIN write frame (`5A A5 05 82 addr value`) puts at its
address in the variable store of the display. -/
def dwin_frame_word (frame : List Nat) : Nat := frame.getD 6 0 * 256 + frame.getD 7 0

/-- The display node's call on the words that the sensor node sent for the
reading `temp_value`. -/
def check_reading (temp_value : Int) (d : DisplayNode) : CheckResult :=
  Check_Temperature_And_Control_Devices (dwin_frame_word (sensor_frames temp_value).1)
    (dwin_frame_word (sensor_frames temp_value).2) d

/-- Ten calls with the reading 25.3 degrees. -/
def ten_readings : List (Nat × Nat) := List.replicate 10 (25, 3)

/-! ## `audio_handler.c` with the buffers of the packets tracked -/

/-- A packet together with the allocation its `data` pointer comes from: the
buffers returned by `malloc` in `audio_stream_feed` are numbered 0, 1, 2, ...
in the order of allocation. -/
structure OwnedPacket where
  buffer : Nat
  packet : audio_packet_t
  deriving DecidableEq, Repr

/-- The statics of `audio_handler.c` with the queue holding tracked packets,
the local `packet` of `audio_play_task` between `xQueueReceive` and `free`
(`held`), the number of buffers allocated so far and the buffers passed to
`free`, in order. -/
structure Owned where
  current_state : audio_state_t
  audio_queue : List OwnedPacket
  audio_initialized : Bool
  held : Option OwnedPacket
  allocated : Nat
  freed : List Nat
  deriving DecidableEq, Repr

/-- The statics of `audio_handler.c` that a tracked state stands for. -/
def Owned.erase (o : Owned) : AudioHandler :=
  { current_state := o.current_state
    audio_queue := o.audio_queue.map OwnedPacket.packet
    audio_initialized := o.audio_initialized }

/-- Function `audio_stream_start` on the tracked state: `xQueueReset` empties
the queue; no call of `free` is made. -/
def owned_start (o : Owned) : Owned × esp_err_t :=
  if !o.audio_initialized then (o, ESP_FAIL)
  else
    ({ o with audio_queue := xQueueReset o.audio_queue,
              current_state := AUDIO_STATE_RECEIVING }, ESP_OK)

/-- Function `audio_stream_feed` on the tracked state: `malloc`, `memcpy`,
`xQueueSend`, and `free(buffer)` when the queue is full. -/
def owned_feed (data : Option (List Nat)) (malloc_ok : Bool) (o : Owned) : Owned × esp_err_t :=
  if !o.audio_initialized then (o, ESP_FAIL)
  else if o.current_state ≠ AUDIO_STATE_RECEIVING ∧
      o.current_state ≠ AUDIO_STATE_PLAYING then (o, ESP_FAIL)
  else
    match data with
    | none => (o, ESP_FAIL)
    | some bytes =>
      let len := bytes.length
      if len = 0 then (o, ESP_FAIL)
      else if !malloc_ok then (o, ESP_FAIL)
      else
        let buffer := o.allocated
        let o1 := { o with allocated := o.allocated + 1 }
        let packet : OwnedPacket := { buffer := buffer, packet := { data := bytes, len := len } }
        let sent := xQueueSend o1.audio_queue AUDIO_QUEUE_LENGTH packet
        if !sent.2 then ({ o1 with freed := o1.freed ++ [buffer] }, ESP_FAIL)
        else
          let o2 := { o1 with audio_queue := sent.1 }
          if o2.current_state = AUDIO_STATE_RECEIVING then
            ({ o2 with current_state := AUDIO_STATE_PLAYING }, ESP_OK)
          else (o2, ESP_OK)

/-- Function `audio_stream_end` on the tracked state, after its waits: it
touches no packet and sets the state to idle. -/
def owned_end (o : Owned) : Owned × esp_err_t :=
  if !o.audio_initialized then (o, ESP_FAIL)
  else ({ o with current_state := AUDIO_STATE_IDLE }, ESP_OK)

/-- Function `audio_stop` on the tracked state: `xQueueReset` empties the
queue; no call of `free` is made. -/
def owned_stop (o : Owned) : Owned × esp_err_t :=
  if !o.audio_initialized then (o, ESP_FAIL)
  else
    ({ o with audio_queue := xQueueReset o.audio_queue,
              current_state := AUDIO_STATE_IDLE }, ESP_OK)

/-- Loop of `audio_play_task`, first half: `xQueueReceive` hands the oldest
packet to the task (which then plays it). -/
def owned_receive (o : Owned) : Owned :=
  match o.held with
  | some _ => o
  | none =>
    match xQueueReceive o.audio_queue with
    | some (packet, rest) => { o with audio_queue := rest, held := some packet }
    | none => o

/-- Loop of `audio_play_task`, second half: after playing, `free(packet.data)`
for a packet with `len > 0`. -/
def owned_release (o : Owned) : Owned :=
  match o.held with
  | none => o
  | some p =>
    if p.packet.len > 0 then { o with held := none, freed := o.freed ++ [p.buffer] }
    else { o with held := none }

/-- A step of the engine or of the consumer task on the tracked state. -/
inductive OwnedOp
  | start
  | feed (data : Option (List Nat)) (malloc_ok : Bool)
  | stream_end
  | stop
  | receive
  | release

/-- The tracked state after one step. -/
def owned_step : OwnedOp → Owned → Owned
  | OwnedOp.start, o => (owned_start o).1
  | OwnedOp.feed data malloc_ok, o => (owned_feed data malloc_ok o).1
  | OwnedOp.stream_end, o => (owned_end o).1
  | OwnedOp.stop, o => (owned_stop o).1
  | OwnedOp.receive, o => owned_receive o
  | OwnedOp.release, o => owned_release o

/-- The tracked state after a sequence of steps. -/
def owned_run : List OwnedOp → Owned → Owned
  | [], o => o
  | op :: ops, o => owned_run ops (owned_step op o)

/-- The buffers that were allocated, were never passed to `free`, and are
neither in the queue nor held by the consumer task: nothing in the program
points to them any more. -/
def leaked (o : Owned) : List Nat :=
  (List.range o.allocated).filter (fun b =>
    decide (b ∉ o.freed) && decide (b ∉ o.audio_queue.map OwnedPacket.buffer) &&
    decide (o.held.map OwnedPacket.buffer ≠ some b))

/-- The tracked engine right after `audio_handler_init`: nothing allocated. -/
def owned_ready : Owned :=
  { current_state := AUDIO_STATE_IDLE, audio_queue := [], audio_initialized := true,
    held := none, allocated := 0, freed := [] }

/-! ## Facts about single calls -/

/-- Pausing sets the flag, whatever it was. -/
theorem uart_handler_pause_paused (u : UartHandler) :
    (uart_handler_pause u).uart_paused = true := by
  unfold uart_handler_pause
  cases h : u.uart_paused <;> simp [h]

/-- Resuming clears the flag, whatever it was. -/
theorem uart_handler_resume_paused (u : UartHandler) :
    (uart_handler_resume u).uart_paused = false := by
  unfold uart_handler_resume
  cases h : u.uart_paused <;> simp [h]

/-- Pausing twice is pausing once. -/
theorem uart_handler_pause_twice (u : UartHandler) :
    uart_handler_pause (uart_handler_pause u) = uart_handler_pause u := by
  unfold uart_handler_pause
  cases h : u.uart_paused <;> simp [h]

/-- A feed returns `ESP_OK` or `ESP_FAIL`; on `ESP_FAIL` the state is the one
before the call, on `ESP_OK` exactly one packet, the copy of the payload, has
been appended to a queue that had a free slot. -/
theorem audio_stream_feed_cases (data : Option (List Nat)) (malloc_ok : Bool) (s : State) :
    audio_stream_feed data malloc_ok s = (s, ESP_FAIL) ∨
    (∃ bytes, data = some bytes ∧ bytes ≠ [] ∧
      s.audio.audio_queue.length < AUDIO_QUEUE_LENGTH ∧
      s.audio.audio_initialized = true ∧
      (s.audio.current_state = AUDIO_STATE_RECEIVING ∨
        s.audio.current_state = AUDIO_STATE_PLAYING) ∧
      audio_stream_feed data malloc_ok s =
        ({ s with audio := { s.audio with
                               audio_queue := s.audio.audio_queue ++ [packet_of bytes],
                               current_state := AUDIO_STATE_PLAYING } }, ESP_OK)) := by
  unfold audio_stream_feed
  by_cases hi : s.audio.audio_initialized = true
  swap
  · left; simp [hi]
  by_cases hst : s.audio.current_state ≠ AUDIO_STATE_RECEIVING ∧
      s.audio.current_state ≠ AUDIO_STATE_PLAYING
  · left; simp [hi, hst]
  cases data with
  | none => left; simp [hi, hst]
  | some bytes =>
    by_cases hlen : bytes.length = 0
    · left; simp [hi, hst, hlen]
    cases malloc_ok with
    | false => left; simp [hi, hst, hlen]
    | true =>
      by_cases hq : s.audio.audio_queue.length < AUDIO_QUEUE_LENGTH
      swap
      · left; simp [hi, hst, hlen, xQueueSend, hq]
      right
      refine ⟨bytes, rfl, ?_, hq, hi, ?_, ?_⟩
      · intro hb; exact hlen (by simp [hb])
      · by_cases hr : s.audio.current_state = AUDIO_STATE_RECEIVING
        · exact Or.inl hr
        · by_cases hp : s.audio.current_state = AUDIO_STATE_PLAYING
          · exact Or.inr hp
          · exact absurd ⟨hr, hp⟩ hst
      · by_cases hr : s.audio.current_state = AUDIO_STATE_RECEIVING
        · simp [hi, hst, hlen, xQueueSend, hq, hr, packet_of]
        · have hp : s.audio.current_state = AUDIO_STATE_PLAYING := by
            by_cases hp : s.audio.current_state = AUDIO_STATE_PLAYING
            · exact hp
            · exact absurd ⟨hr, hp⟩ hst
          simp [hi, hlen, xQueueSend, hq, hp, packet_of]

/-- The two status codes differ. -/
theorem ESP_OK_ne_ESP_FAIL : ESP_OK ≠ ESP_FAIL := by decide

/-! ## C1: rejected feeds -/

/-- C1: `audio_stream_feed` on an engine that is not initialised, or whose
state is `AUDIO_STATE_IDLE`, or with a `NULL` or empty payload, returns
`ESP_FAIL` and leaves the whole state (so `current_state`, the queue and its
length) as it was, whether or not the allocation would have succeeded. -/
theorem audio_stream_feed_rejected (s : State) (data : Option (List Nat)) (malloc_ok : Bool)
    (h : s.audio.audio_initialized = false ∨ s.audio.current_state = AUDIO_STATE_IDLE ∨
      data = none ∨ data = some []) :
    audio_stream_feed data malloc_ok s = (s, ESP_FAIL) ∧
    (audio_stream_feed data malloc_ok s).2 ≠ ESP_OK ∧
    (audio_stream_feed data malloc_ok s).1.audio.current_state = s.audio.current_state ∧
    (audio_stream_feed data malloc_ok s).1.audio.audio_queue = s.audio.audio_queue ∧
    uxQueueMessagesWaiting (audio_stream_feed data malloc_ok s).1.audio.audio_queue =
      uxQueueMessagesWaiting s.audio.audio_queue := by
  have key : audio_stream_feed data malloc_ok s = (s, ESP_FAIL) := by
    rcases audio_stream_feed_cases data malloc_ok s with hf | ⟨bytes, hd, hne, _, hi, hst, _⟩
    · exact hf
    · rcases h with h | h | h | h
      · rw [hi] at h; cases h
      · rcases hst with hst | hst <;> rw [h] at hst <;> cases hst
      · rw [h] at hd; cases hd
      · rw [h] at hd; cases hd; exact absurd rfl hne
  rw [key]
  exact ⟨rfl, fun h => ESP_OK_ne_ESP_FAIL h.symm, rfl, rfl, rfl⟩

/-- C1 at a concrete input: an initialised, idle engine is fed two bytes. -/
theorem audio_stream_feed_rejected_witness :
    (ready.audio.audio_initialized = false ∨ ready.audio.current_state = AUDIO_STATE_IDLE ∨
      some [1, 2] = (none : Option (List Nat)) ∨ some [1, 2] = some []) ∧
    audio_stream_feed (some [1, 2]) true ready = (ready, ESP_FAIL) :=
  ⟨Or.inr (Or.inl rfl),
    (audio_stream_feed_rejected ready (some [1, 2]) true (Or.inr (Or.inl rfl))).1⟩

/-! ## C2: the queue never holds more than its capacity -/

/-- The drain loop of `audio_stream_end` leaves through its exit branch when it
is given more than `50 - wait_count` tests: it returns a result, has made at
most 50 delays, one poll per delay and a last one, and keeps every property
of the state that the other tasks keep. -/
theorem audio_stream_end_wait_spec (env : Nat → State → State) (P : State → Prop)
    (hP : ∀ k s, P s → P (env k s)) :
    ∀ (fuel : Nat) (s : State) (wait_count polls : Nat),
      50 < fuel + wait_count → wait_count ≤ 50 → P s →
      ∃ w, audio_stream_end_wait env fuel s wait_count polls = some w ∧ P w.state ∧
        wait_count ≤ w.wait_count ∧ w.wait_count ≤ 50 ∧
        w.polls = polls + (w.wait_count - wait_count) + 1 := by
  intro fuel
  induction fuel with
  | zero => intro s wait_count polls h1 h2; omega
  | succ n ih =>
    intro s wait_count polls h1 h2 hs
    unfold audio_stream_end_wait
    by_cases hc : uxQueueMessagesWaiting s.audio.audio_queue > 0 ∧ wait_count < 50
    · rw [if_pos hc]
      obtain ⟨w, hw, hPw, hle, h50, hpolls⟩ :=
        ih (env wait_count s) (wait_count + 1) (polls + 1) (by omega) (by omega) (hP _ _ hs)
      exact ⟨w, hw, hPw, by omega, h50, by omega⟩
    · rw [if_neg hc]
      exact ⟨_, rfl, hs, le_refl _, h2, by simp⟩

/-- On an engine that is not initialised `audio_stream_end` fails at once. -/
theorem audio_stream_end_uninit (env : Nat → State → State) (fuel : Nat) (s : State)
    (h : s.audio.audio_initialized = false) :
    audio_stream_end env fuel s =
      some { state := s, ret := ESP_FAIL, wait_count := 0, polls := 0 } := by
  simp [audio_stream_end, h]

/-- On an initialised engine `audio_stream_end` continues from the result of
its drain loop: one more delay, then idle and resume. -/
theorem audio_stream_end_init (env : Nat → State → State) (fuel : Nat) (s : State)
    (w : DrainWait) (h : s.audio.audio_initialized = true)
    (hw : audio_stream_end_wait env fuel s 0 0 = some w) :
    audio_stream_end env fuel s =
      some { state := { audio := { (env w.wait_count w.state).audio with
                                     current_state := AUDIO_STATE_IDLE },
                        uart := uart_handler_resume (env w.wait_count w.state).uart }
             ret := ESP_OK
             wait_count := w.wait_count
             polls := w.polls } := by
  simp [audio_stream_end, h, hw]

/-- A consumer turn never lengthens the queue. -/
theorem audio_play_task_length (s : State) :
    (audio_play_task s).1.audio.audio_queue.length ≤ s.audio.audio_queue.length := by
  unfold audio_play_task xQueueReceive
  cases h : s.audio.audio_queue with
  | nil => simp [h]
  | cons a l => simp

/-- Consumer turns never lengthen the queue. -/
theorem consumer_drain_length (n : Nat) :
    ∀ s : State, (consumer_drain n s).audio.audio_queue.length ≤ s.audio.audio_queue.length := by
  induction n with
  | zero => intro s; exact le_refl _
  | succ n ih =>
    intro s
    unfold consumer_drain
    exact le_trans (ih _) (audio_play_task_length s)

/-- On an initialised engine `audio_stop` empties the queue, lets the other
tasks run, and then sets the state and resumes the serial ingress. -/
theorem audio_stop_init (others : State → State) (s : State)
    (h : s.audio.audio_initialized = true) :
    audio_stop others s =
      ({ audio := { (others { s with audio := { s.audio with audio_queue := [] } }).audio with
                    current_state := AUDIO_STATE_IDLE },
         uart := uart_handler_resume
           (others { s with audio := { s.audio with audio_queue := [] } }).uart }, ESP_OK) := by
  simp [audio_stop, h, xQueueReset]

/-- The state after a session step is the state after the call it stands for. -/
theorem session_step_state (op : SessionOp) (l : SessionLog) :
    (session_step op l).state =
      match op with
      | SessionOp.feed data malloc_ok => (audio_stream_feed data malloc_ok l.state).1
      | SessionOp.dequeue => (audio_play_task l.state).1 := by
  cases op with
  | feed data malloc_ok =>
    cases data with
    | none => rfl
    | some bytes =>
      simp only [session_step]
      split <;> rfl
  | dequeue =>
    simp only [session_step]
    split <;> rfl

/-- Feed calls and consumer turns keep the queue within its capacity. -/
theorem session_queue_bound (ops : List SessionOp) :
    ∀ l : SessionLog, l.state.audio.audio_queue.length ≤ AUDIO_QUEUE_LENGTH →
      (session ops l).state.audio.audio_queue.length ≤ AUDIO_QUEUE_LENGTH := by
  induction ops with
  | nil => intro l h; exact h
  | cons op ops ih =>
    intro l h
    apply ih
    rw [session_step_state]
    cases op with
    | feed data malloc_ok =>
      rcases audio_stream_feed_cases data malloc_ok l.state with hf | ⟨bytes, _, _, hq, _, _, hf⟩
      · simp only [hf]; exact h
      · simp only [hf]; simp; omega
    | dequeue => exact le_trans (audio_play_task_length l.state) h

/-- Every step keeps the queue within its capacity, and every step returns. -/
theorem step_queue_bound (op : Op) (s : State)
    (h : s.audio.audio_queue.length ≤ AUDIO_QUEUE_LENGTH) :
    ∃ t, step op s = some t ∧ t.audio.audio_queue.length ≤ AUDIO_QUEUE_LENGTH := by
  cases op with
  | start =>
    refine ⟨_, rfl, ?_⟩
    unfold audio_stream_start
    cases hi : s.audio.audio_initialized <;> simp [xQueueReset, h]
  | feed data malloc_ok =>
    refine ⟨_, rfl, ?_⟩
    rcases audio_stream_feed_cases data malloc_ok s with hf | ⟨bytes, _, _, hq, _, _, hf⟩
    · rw [hf]; exact h
    · rw [hf]; simp; omega
  | stream_end drain =>
    cases hi : s.audio.audio_initialized
    · exact ⟨s, by simp [step, audio_stream_end_uninit _ _ s hi], h⟩
    · obtain ⟨w, hw, hPw, _, _, _⟩ :=
        audio_stream_end_wait_spec (fun k => consumer_drain (drain k))
          (fun t => t.audio.audio_queue.length ≤ AUDIO_QUEUE_LENGTH)
          (fun k t ht => le_trans (consumer_drain_length (drain k) t) ht)
          END_FUEL s 0 0 (by decide) (by decide) h
      refine ⟨_, by rw [step, audio_stream_end_init _ _ s w hi hw]; rfl, ?_⟩
      exact le_trans (consumer_drain_length _ _) hPw
  | stop during =>
    refine ⟨_, rfl, ?_⟩
    cases hi : s.audio.audio_initialized
    · simp only [audio_stop, hi]
      exact h
    · rw [audio_stop_init _ s hi]
      exact session_queue_bound during _ (Nat.zero_le _)
  | dequeue =>
    exact ⟨_, rfl, le_trans (audio_play_task_length s) h⟩

/-- Every run from a state whose queue is within capacity returns a state whose
queue is within capacity. -/
theorem run_queue_bound (ops : List Op) :
    ∀ s : State, s.audio.audio_queue.length ≤ AUDIO_QUEUE_LENGTH →
      ∃ t, run ops s = some t ∧ t.audio.audio_queue.length ≤ AUDIO_QUEUE_LENGTH := by
  induction ops with
  | nil => intro s h; exact ⟨s, rfl, h⟩
  | cons op ops ih =>
    intro s h
    obtain ⟨t, ht, hle⟩ := step_queue_bound op s h
    obtain ⟨u, hu, hule⟩ := ih t hle
    exact ⟨u, by simp [run, ht, hu], hule⟩

/-- C2: whatever the outcome of `audio_handler_init` at boot, every sequence of
start, feed, end, stop and consumer steps run after it returns, and in the
state it reaches the audio queue holds at most `AUDIO_QUEUE_LENGTH` = 10
packets.  (Every reachable state is the end of such a sequence.) -/
theorem audio_queue_bounded (queue_ok task_ok : Bool) (i2s : Option esp_err_t)
    (ops : List Op) :
    AUDIO_QUEUE_LENGTH = 10 ∧
    ∃ t, run ops (audio_handler_init queue_ok task_ok i2s boot).1 = some t ∧
      uxQueueMessagesWaiting t.audio.audio_queue ≤ 10 := by
  refine ⟨rfl, ?_⟩
  have h0 : (audio_handler_init queue_ok task_ok i2s boot).1.audio.audio_queue.length
      ≤ AUDIO_QUEUE_LENGTH := by
    unfold audio_handler_init boot
    cases queue_ok <;> cases task_ok <;> cases i2s <;> simp
    split <;> simp
  exact run_queue_bound ops _ h0

/-! ## C3: packets are received in the order they were accepted -/

/-- One session step keeps the account: packets received so far followed by
the packets queued are the packets first queued followed by the accepted ones. -/
theorem session_step_account (q0 : List audio_packet_t) (op : SessionOp) (l : SessionLog)
    (h : l.received ++ l.state.audio.audio_queue = q0 ++ l.fed.map packet_of) :
    (session_step op l).received ++ (session_step op l).state.audio.audio_queue =
      q0 ++ (session_step op l).fed.map packet_of := by
  cases op with
  | feed data malloc_ok =>
    rcases audio_stream_feed_cases data malloc_ok l.state with hf | ⟨bytes, hd, _, _, _, _, hf⟩
    · cases data with
      | none => simp [session_step, hf, h]
      | some bytes =>
        simp [session_step, hf, h, ESP_OK_ne_ESP_FAIL.symm]
    · subst hd
      simp only [session_step, hf, if_true, List.map_append, List.map_cons, List.map_nil]
      rw [← List.append_assoc, h, List.append_assoc]
  | dequeue =>
    unfold session_step audio_play_task xQueueReceive
    cases hq : l.state.audio.audio_queue with
    | nil => simpa [hq] using h
    | cons a rest =>
      rw [hq] at h
      simpa using h

/-- A whole session keeps the account of `session_step_account`. -/
theorem session_account (q0 : List audio_packet_t) (ops : List SessionOp) :
    ∀ l : SessionLog, l.received ++ l.state.audio.audio_queue = q0 ++ l.fed.map packet_of →
      (session ops l).received ++ (session ops l).state.audio.audio_queue =
        q0 ++ (session ops l).fed.map packet_of := by
  induction ops with
  | nil => intro l h; exact h
  | cons op ops ih =>
    intro l h
    exact ih _ (session_step_account q0 op l h)

/-- C3: in a session that begins with an empty queue (as `audio_stream_start`
leaves it) and consists of feed calls and consumer turns in any order, the
packets the consumer task has received, followed by the packets still queued,
are exactly the copies `(bytes, length bytes)` of the payloads of the feed
calls that returned `ESP_OK`, in the order of those calls; so what the
consumer received is an initial part of them, and all of them once the queue
is empty. -/
theorem audio_session_fifo (ops : List SessionOp) (s : State)
    (h : s.audio.audio_queue = []) :
    (session ops { state := s, fed := [], received := [] }).received ++
        (session ops { state := s, fed := [], received := [] }).state.audio.audio_queue =
      (session ops { state := s, fed := [], received := [] }).fed.map
        (fun bytes => ({ data := bytes, len := bytes.length } : audio_packet_t)) ∧
    (session ops { state := s, fed := [], received := [] }).received <+:
      (session ops { state := s, fed := [], received := [] }).fed.map
        (fun bytes => ({ data := bytes, len := bytes.length } : audio_packet_t)) ∧
    ((session ops { state := s, fed := [], received := [] }).state.audio.audio_queue = [] →
      (session ops { state := s, fed := [], received := [] }).received.map audio_packet_t.data =
        (session ops { state := s, fed := [], received := [] }).fed) := by
  have key := session_account s.audio.audio_queue ops
    { state := s, fed := [], received := [] } (by simp)
  rw [h, List.nil_append] at key
  have hfun : (fun bytes => ({ data := bytes, len := bytes.length } : audio_packet_t))
      = packet_of := rfl
  rw [hfun]
  refine ⟨key, ⟨_, key⟩, ?_⟩
  intro hq
  rw [hq, List.append_nil] at key
  rw [key, List.map_map]
  have : audio_packet_t.data ∘ packet_of = id := rfl
  rw [this, List.map_id]

/-- C3 on a concrete session after start: the consumer received the copies of
`[1, 2]` and `[4]`, and the copy of `[5, 6, 7]` is still queued. -/
theorem audio_session_fifo_witness :
    receiving.audio.audio_queue = [] ∧
    (session sample_session { state := receiving, fed := [], received := [] }).fed =
      [[1, 2], [4], [5, 6, 7]] ∧
    (session sample_session { state := receiving, fed := [], received := [] }).received =
      [{ data := [1, 2], len := 2 }, { data := [4], len := 1 }] ∧
    (session sample_session { state := receiving, fed := [], received := [] }).received ++
        (session sample_session
          { state := receiving, fed := [], received := [] }).state.audio.audio_queue =
      (session sample_session { state := receiving, fed := [], received := [] }).fed.map
        (fun bytes => ({ data := bytes, len := bytes.length } : audio_packet_t)) :=
  ⟨rfl, by decide, by decide, (audio_session_fifo sample_session receiving rfl).1⟩

/-! ## C4: backpressure -/

/-- On an initialised engine `audio_stream_start` pauses the UART, empties the
queue and sets the state to receiving. -/
theorem audio_stream_start_init (s : State) (h : s.audio.audio_initialized = true) :
    audio_stream_start s =
      ({ audio := { s.audio with audio_queue := [], current_state := AUDIO_STATE_RECEIVING },
         uart := uart_handler_pause s.uart }, ESP_OK) := by
  simp [audio_stream_start, h, xQueueReset]

/-- C5, as stated, fails: after start and one accepted feed the queue holds the
packet `[1]`; a second start, with no end or stop in between, returns `ESP_OK`
and leaves the queue empty, so the packet is no longer queued. -/
theorem audio_stream_start_keeps_queue_counterexample :
    one_queued = (audio_stream_feed (some [1]) true (audio_stream_start ready).1).1 ∧
    one_queued.audio.audio_queue = [{ data := [1], len := 1 }] ∧
    (audio_stream_start one_queued).2 = ESP_OK ∧
    (audio_stream_start one_queued).1.audio.audio_queue = [] ∧
    (audio_stream_start one_queued).1.audio.audio_queue ≠ one_queued.audio.audio_queue := by
  decide

/-- C5, amended: a call of `audio_stream_start` on an initialised engine, also
a second one with no end or stop in between, returns `ESP_OK` and always
leaves the queue empty; the queue is as before exactly when it was empty
before, and a second call made directly after the first changes nothing. -/
theorem audio_stream_start_twice (s : State) (h : s.audio.audio_initialized = true) :
    (audio_stream_start s).2 = ESP_OK ∧
    (audio_stream_start s).1.audio.audio_queue = [] ∧
    ((audio_stream_start s).1.audio.audio_queue = s.audio.audio_queue ↔
      s.audio.audio_queue = []) ∧
    audio_stream_start (audio_stream_start s).1 = audio_stream_start s := by
  rw [audio_stream_start_init s h]
  refine ⟨rfl, rfl, ⟨fun h1 => h1.symm, fun h1 => h1.symm⟩, ?_⟩
  rw [audio_stream_start_init _ (by exact h)]
  simp [uart_handler_pause_twice]

/-- C5, amended, at a concrete input: the engine with one queued packet. -/
theorem audio_stream_start_twice_witness :
    one_queued.audio.audio_initialized = true ∧
    (audio_stream_start one_queued).2 = ESP_OK ∧
    (audio_stream_start one_queued).1.audio.audio_queue = [] ∧
    audio_stream_start (audio_stream_start one_queued).1 = audio_stream_start one_queued :=
  ⟨rfl, (audio_stream_start_twice one_queued rfl).1, (audio_stream_start_twice one_queued rfl).2.1,
    (audio_stream_start_twice one_queued rfl).2.2.2⟩

/-- C6, as stated, fails: on the initialised engine `full_queue`, whose state
is `AUDIO_STATE_PLAYING`, `audio_stream_start` returns `ESP_OK` and the state
is then `AUDIO_STATE_RECEIVING`, not `AUDIO_STATE_PLAYING`. -/
theorem audio_stream_start_noop_counterexample :
    full_queue.audio.audio_initialized = true ∧
    full_queue.audio.current_state = AUDIO_STATE_PLAYING ∧
    (audio_stream_start full_queue).2 = ESP_OK ∧
    (audio_stream_start full_queue).1.audio.current_state = AUDIO_STATE_RECEIVING ∧
    (audio_stream_start full_queue).1.audio.current_state ≠ full_queue.audio.current_state := by
  decide

/-- C6, amended: `audio_stream_start` on an initialised engine whose state is
`AUDIO_STATE_RECEIVING` or `AUDIO_STATE_PLAYING` returns `ESP_OK` and leaves
the state `AUDIO_STATE_RECEIVING`: receiving stays receiving, playing goes
back to receiving. -/
theorem audio_stream_start_restarts (s : State) (h : s.audio.audio_initialized = true)
    (hst : s.audio.current_state = AUDIO_STATE_RECEIVING ∨
      s.audio.current_state = AUDIO_STATE_PLAYING) :
    (audio_stream_start s).2 = ESP_OK ∧
    (audio_stream_start s).1.audio.current_state = AUDIO_STATE_RECEIVING ∧
    ((s.audio.current_state = AUDIO_STATE_RECEIVING ∧
        (audio_stream_start s).1.audio.current_state = s.audio.current_state) ∨
      (s.audio.current_state = AUDIO_STATE_PLAYING ∧
        (audio_stream_start s).1.audio.current_state ≠ s.audio.current_state)) := by
  rw [audio_stream_start_init s h]
  refine ⟨rfl, rfl, ?_⟩
  rcases hst with h1 | h1
  · exact Or.inl ⟨h1, h1.symm⟩
  · refine Or.inr ⟨h1, ?_⟩
    rw [h1]
    exact fun h2 => audio_state_t.noConfusion h2

/-- C6, amended, at concrete inputs: a receiving and a playing engine. -/
theorem audio_stream_start_restarts_witness :
    (receiving.audio.audio_initialized = true ∧
      receiving.audio.current_state = AUDIO_STATE_RECEIVING ∧
      one_queued.audio.audio_initialized = true ∧
      one_queued.audio.current_state = AUDIO_STATE_PLAYING) ∧
    ((audio_stream_start receiving).2 = ESP_OK ∧
      (audio_stream_start receiving).1.audio.current_state = AUDIO_STATE_RECEIVING) ∧
    ((audio_stream_start one_queued).2 = ESP_OK ∧
      (audio_stream_start one_queued).1.audio.current_state = AUDIO_STATE_RECEIVING) :=
  ⟨⟨rfl, rfl, rfl, rfl⟩,
    ⟨(audio_stream_start_restarts receiving rfl (Or.inl rfl)).1,
      (audio_stream_start_restarts receiving rfl (Or.inl rfl)).2.1⟩,
    ⟨(audio_stream_start_restarts one_queued rfl (Or.inr rfl)).1,
      (audio_stream_start_restarts one_queued rfl (Or.inr rfl)).2.1⟩⟩

/-- C7: on an initialised engine in `AUDIO_STATE_IDLE`, `audio_stream_start`
returns `ESP_OK` and afterwards `uart_paused` is set, the audio queue is empty
and the state is `AUDIO_STATE_RECEIVING`; on an engine that is not initialised
it returns `ESP_FAIL` and leaves the whole state, so the state variable, the
queue and the pause flag, as it was. -/
theorem audio_stream_start_contract (s t : State)
    (hs : s.audio.audio_initialized = true)
    (hidle : s.audio.current_state = AUDIO_STATE_IDLE)
    (ht : t.audio.audio_initialized = false) :
    ((audio_stream_start s).2 = ESP_OK ∧
      (audio_stream_start s).1.uart.uart_paused = true ∧
      (audio_stream_start s).1.audio.audio_queue = [] ∧
      uxQueueMessagesWaiting (audio_stream_start s).1.audio.audio_queue = 0 ∧
      (audio_stream_start s).1.audio.current_state = AUDIO_STATE_RECEIVING ∧
      (audio_stream_start s).1.audio.current_state ≠ s.audio.current_state) ∧
    (audio_stream_start t = (t, ESP_FAIL) ∧
      (audio_stream_start t).2 ≠ ESP_OK ∧
      (audio_stream_start t).1.audio.current_state = t.audio.current_state ∧
      (audio_stream_start t).1.audio.audio_queue = t.audio.audio_queue ∧
      (audio_stream_start t).1.uart.uart_paused = t.uart.uart_paused) := by
  constructor
  · rw [audio_stream_start_init s hs]
    refine ⟨rfl, uart_handler_pause_paused _, rfl, rfl, rfl, ?_⟩
    rw [hidle]
    exact fun h2 => audio_state_t.noConfusion h2
  · have key : audio_stream_start t = (t, ESP_FAIL) := by simp [audio_stream_start, ht]
    rw [key]
    exact ⟨rfl, fun h => ESP_OK_ne_ESP_FAIL h.symm, rfl, rfl, rfl⟩

/-- C7 at concrete inputs: the engine right after initialisation, and the
engine at boot. -/
theorem audio_stream_start_contract_witness :
    (ready.audio.audio_initialized = true ∧ ready.audio.current_state = AUDIO_STATE_IDLE ∧
      boot.audio.audio_initialized = false) ∧
    ((audio_stream_start ready).2 = ESP_OK ∧
      (audio_stream_start ready).1.uart.uart_paused = true ∧
      (audio_stream_start ready).1.audio.audio_queue = [] ∧
      (audio_stream_start ready).1.audio.current_state = AUDIO_STATE_RECEIVING) ∧
    audio_stream_start boot = (boot, ESP_FAIL) :=
  ⟨⟨rfl, rfl, rfl⟩,
    ⟨(audio_stream_start_contract ready boot rfl rfl rfl).1.1,
      (audio_stream_start_contract ready boot rfl rfl rfl).1.2.1,
      (audio_stream_start_contract ready boot rfl rfl rfl).1.2.2.1,
      (audio_stream_start_contract ready boot rfl rfl rfl).1.2.2.2.2.1⟩,
    (audio_stream_start_contract ready boot rfl rfl rfl).2.1⟩

/-! ## C8: state transitions of `audio_stream_feed` -/

/-- C9, as stated, fails in its bound on the polls: on the initialised engine
`one_queued`, with the consumer task stalled, `audio_stream_end` returns
`ESP_OK` after 50 delays and 51 calls of `uxQueueMessagesWaiting`; given only
50 tests of the loop condition the drain loop has not yet been left. -/
theorem audio_stream_end_polls_counterexample :
    one_queued.audio.audio_initialized = true ∧
    (audio_stream_end stalled 51 one_queued).map EndResult.ret = some ESP_OK ∧
    (audio_stream_end stalled 51 one_queued).map EndResult.wait_count = some 50 ∧
    (audio_stream_end stalled 51 one_queued).map EndResult.polls = some 51 ∧
    audio_stream_end stalled 50 one_queued = none ∧
    ¬ (∃ r, audio_stream_end stalled 51 one_queued = some r ∧ r.polls ≤ 50) := by
  refine ⟨by decide, by decide, by decide, by decide, by decide, ?_⟩
  rintro ⟨r, hr, hle⟩
  have h51 : (audio_stream_end stalled 51 one_queued).map EndResult.polls = some 51 := by
    decide
  rw [hr] at h51
  simp at h51
  omega

/-- C9, amended: for every initialised engine state, and whatever the other
tasks do during its delays, `audio_stream_end` returns; it returns `ESP_OK`,
leaves the state `AUDIO_STATE_IDLE` with `uart_paused` cleared (so
`audio_is_playing` is false), after at most 50 delays of its drain loop, that
is at most 51 polls of the queue length (one more poll than delays); in
particular after start, feed `p1`, feed `p2`. -/
theorem audio_stream_end_idle (env : Nat → State → State) (s : State)
    (h : s.audio.audio_initialized = true) :
    (∃ r, audio_stream_end env END_FUEL s = some r ∧ r.ret = ESP_OK ∧
      r.state.audio.current_state = AUDIO_STATE_IDLE ∧
      r.state.uart.uart_paused = false ∧
      audio_is_playing r.state = false ∧
      r.wait_count ≤ 50 ∧ r.polls = r.wait_count + 1 ∧ r.polls ≤ 51) ∧
    (∀ (p1 p2 : Option (List Nat)) (m1 m2 : Bool),
      ∃ r, audio_stream_end env END_FUEL
          (audio_stream_feed p2 m2 (audio_stream_feed p1 m1 (audio_stream_start s).1).1).1
          = some r ∧ r.ret = ESP_OK ∧
        r.state.audio.current_state = AUDIO_STATE_IDLE ∧
        r.state.uart.uart_paused = false ∧
        audio_is_playing r.state = false) := by
  have general : ∀ t : State, t.audio.audio_initialized = true →
      ∃ r, audio_stream_end env END_FUEL t = some r ∧ r.ret = ESP_OK ∧
        r.state.audio.current_state = AUDIO_STATE_IDLE ∧
        r.state.uart.uart_paused = false ∧
        audio_is_playing r.state = false ∧
        r.wait_count ≤ 50 ∧ r.polls = r.wait_count + 1 ∧ r.polls ≤ 51 := by
    intro t ht
    obtain ⟨w, hw, _, _, h50, hpolls⟩ :=
      audio_stream_end_wait_spec env (fun _ => True) (fun _ _ _ => trivial)
        END_FUEL t 0 0 (by decide) (by decide) trivial
    refine ⟨_, audio_stream_end_init env END_FUEL t w ht hw, rfl, rfl,
      uart_handler_resume_paused _, rfl, h50, ?_, ?_⟩
    · show w.polls = w.wait_count + 1
      omega
    · show w.polls ≤ 51
      omega
  have feed_init : ∀ (t : State) (p : Option (List Nat)) (m : Bool),
      t.audio.audio_initialized = true →
      (audio_stream_feed p m t).1.audio.audio_initialized = true := by
    intro t p m ht
    rcases audio_stream_feed_cases p m t with hf | ⟨_, _, _, _, _, _, hf⟩ <;> rw [hf] <;> exact ht
  refine ⟨general s h, fun p1 p2 m1 m2 => ?_⟩
  have hstart : (audio_stream_start s).1.audio.audio_initialized = true := by
    rw [audio_stream_start_init s h]; exact h
  obtain ⟨r, hr, h1, h2, h3, h4, _⟩ :=
    general _ (feed_init _ p2 m2 (feed_init _ p1 m1 hstart))
  exact ⟨r, hr, h1, h2, h3, h4⟩

/-- C9, amended, at a concrete input: start, two feeds and end with the
consumer stalled, from the engine right after initialisation. -/
theorem audio_stream_end_idle_witness :
    ready.audio.audio_initialized = true ∧
    ∃ r, audio_stream_end stalled END_FUEL
        (audio_stream_feed (some [2]) true
          (audio_stream_feed (some [1]) true (audio_stream_start ready).1).1).1 = some r ∧
      r.ret = ESP_OK ∧ r.state.audio.current_state = AUDIO_STATE_IDLE ∧
      r.state.uart.uart_paused = false ∧ audio_is_playing r.state = false :=
  ⟨rfl, (audio_stream_end_idle stalled ready rfl).2 (some [1]) (some [2]) true true⟩

/-! ## C10: `audio_stop` -/

/-- The low byte of a number, as a remainder. -/
theorem and_255_eq_mod (x : Nat) : x &&& 0xFF = x % 256 :=
  Nat.and_pow_two_sub_one_eq_mod x 8

/-- A byte placed above a byte, as a sum. -/
theorem shl8_or_eq_add (hi lo : Nat) (h : lo < 256) : (hi <<< 8) ||| lo = hi * 256 + lo := by
  have h2 : 2 ^ 8 * hi + lo = 2 ^ 8 * hi ||| lo := Nat.mul_add_lt_is_or (by simpa using h) hi
  rw [Nat.shiftLeft_eq, Nat.mul_comm hi (2 ^ 8), ← h2]

/-- A word placed above a 16-bit word, as a sum. -/
theorem shl16_or_eq_add (t c : Nat) (h : c < 65536) : (t <<< 16) ||| c = t * 65536 + c := by
  have h2 : 2 ^ 16 * t + c = 2 ^ 16 * t ||| c := Nat.mul_add_lt_is_or (by simpa using h) t
  rw [Nat.shiftLeft_eq, Nat.mul_comm t (2 ^ 16), ← h2]

/-- Shifting right by 8 is dividing by 256. -/
theorem shr8_eq_div (x : Nat) : x >>> 8 = x / 256 := Nat.shiftRight_eq_div_pow x 8

/-- Shifting right by 16 is dividing by 65536. -/
theorem shr16_eq_div (x : Nat) : x >>> 16 = x / 65536 := Nat.shiftRight_eq_div_pow x 16

/-! ## C11: unknown request opcodes -/

/-- C11: for every non-empty request whose first byte is none of the opcodes
`0xA0` to `0xA6` (for example `0xFF`), `tcp_data_callback` returns, makes
exactly one call of `tcp_server_send`, with the single byte `RESP_ERROR`
(`0xDF`) and the socket of the requesting connection as target, and leaves
the whole gateway state as it was: `current_state`, the audio queue,
`uart_paused` and the router's statics (the program keeps no threshold
status). -/
theorem tcp_unknown_opcode_error (env : CallEnv) (cmd : Nat) (rest : List Nat)
    (socket : Int) (g : Gateway)
    (h : ¬ (0xA0 ≤ cmd ∧ cmd ≤ 0xA6)) :
    tcp_data_callback env (cmd :: rest) socket g =
      some (g, [{ data := [0xDF], socket := socket }]) := by
  have h0 : cmd ≠ 0xA0 := fun e => h (by omega)
  have h1 : cmd ≠ 0xA1 := fun e => h (by omega)
  have h2 : cmd ≠ 0xA2 := fun e => h (by omega)
  have h3 : cmd ≠ 0xA3 := fun e => h (by omega)
  have h4 : cmd ≠ 0xA4 := fun e => h (by omega)
  have h5 : cmd ≠ 0xA5 := fun e => h (by omega)
  have h6 : cmd ≠ 0xA6 := fun e => h (by omega)
  simp [tcp_data_callback, CMD_PLAY_AUDIO, CMD_AUDIO_STREAM_START, CMD_AUDIO_STREAM_DATA,
    CMD_AUDIO_STREAM_END, CMD_STOP_AUDIO, CMD_QUERY_STATUS, CMD_DEVICE_DISCOVERY, RESP_ERROR,
    h0, h1, h2, h3, h4, h5, h6]

/-- C11 at a concrete input: the request `0xFF 0x01 0x02` from socket 7 on a
gateway that is in the middle of a stream. -/
theorem tcp_unknown_opcode_error_witness :
    ¬ (0xA0 ≤ 0xFF ∧ 0xFF ≤ 0xA6) ∧
    tcp_data_callback calm [0xFF, 1, 2] 7
        { engine := one_queued, station := { wifi_connected := true, packet_count := 4 } } =
      some ({ engine := one_queued, station := { wifi_connected := true, packet_count := 4 } },
        [{ data := [0xDF], socket := 7 }]) :=
  ⟨by decide, tcp_unknown_opcode_error calm 0xFF [1, 2] 7 _ (by decide)⟩

/-! ## C12, C13, C14: the upstream half of the router -/

/-- What `uart_command_callback` does with the argument built from an opcode
`c` in `0xE0..0xE3` and a 16-bit value `t`: with the network available one
call of `tcp_server_send`, the notification for `c` and `t`; otherwise none. -/
theorem uart_command_callback_arg (wifi_connected : Bool) (c t : Nat)
    (hc : 0xE0 ≤ c ∧ c ≤ 0xE3) (ht : t < 65536) :
    uart_command_callback wifi_connected (callback_arg c t) =
      if wifi_connected then [notification c t] else [] := by
  have hcmd : (callback_arg c t % 4294967296) &&& 0xFF = c := by
    rw [callback_arg, shl16_or_eq_add t c (by omega), and_255_eq_mod]; omega
  have htemp : ((callback_arg c t % 4294967296) >>> 16) % 65536 = t := by
    rw [callback_arg, shl16_or_eq_add t c (by omega), shr16_eq_div]; omega
  have hhi : (t >>> 8) &&& 0xFF = t >>> 8 := by
    rw [and_255_eq_mod, shr8_eq_div]; omega
  unfold uart_command_callback
  simp only [hcmd, htemp, hhi]
  have hcases : c = 0xE0 ∨ c = 0xE1 ∨ c = 0xE2 ∨ c = 0xE3 := by omega
  rcases hcases with h | h | h | h <;> subst h <;>
    simp [notification, mirror_opcode, CMD_TEMP_THRESHOLD1, CMD_TEMP_THRESHOLD2,
      CMD_TEMP_NORMAL, CMD_TEMP_UPDATE, RESP_THRESHOLD1_REACHED, RESP_THRESHOLD2_REACHED,
      RESP_TEMP_NORMAL, RESP_TEMP_UPDATE]

/-- C12, as stated, fails: with the network available, the router handling the
opcodes Normal, Normal, Threshold1 (with the values 253, 253, 281) makes three
calls of `tcp_server_send`, one per opcode, and the repeated Normal is
broadcast again. -/
theorem uart_threshold_dedup_counterexample :
    uart_command_run true
        [callback_arg 0xE0 253, callback_arg 0xE0 253, callback_arg 0xE1 281] =
      [{ data := [0xD0, 0, 253], socket := -1 }, { data := [0xD0, 0, 253], socket := -1 },
       { data := [0xD1, 1, 25], socket := -1 }] ∧
    (uart_command_run true
        [callback_arg 0xE0 253, callback_arg 0xE0 253, callback_arg 0xE1 281]).length ≠ 1 ∧
    uart_command_callback true (callback_arg 0xE0 253) ≠ [] := by
  decide

/-- C12, amended: the upstream router keeps no last-notified status and does
not de-duplicate.  With the network available, handling any sequence of
ingress events with opcodes in `0xE0..0xE3` broadcasts exactly one
notification per event, in order, each for the opcode and value of its
event; so Normal, Normal, Threshold1 broadcasts three. -/
theorem uart_command_run_every (events : List (Nat × Nat))
    (h : ∀ e ∈ events, (0xE0 ≤ e.1 ∧ e.1 ≤ 0xE3) ∧ e.2 < 65536) :
    uart_command_run true (events.map (fun e => callback_arg e.1 e.2)) =
      events.map (fun e => notification e.1 e.2) ∧
    (uart_command_run true (events.map (fun e => callback_arg e.1 e.2))).length =
      events.length := by
  have key : uart_command_run true (events.map (fun e => callback_arg e.1 e.2)) =
      events.map (fun e => notification e.1 e.2) := by
    induction events with
    | nil => rfl
    | cons e es ih =>
      have he := h e (List.mem_cons_self _ _)
      have hes := ih (fun x hx => h x (List.mem_cons_of_mem _ hx))
      simp only [List.map_cons, uart_command_run, uart_command_callback_arg true e.1 e.2 he.1 he.2,
        hes, if_true, List.singleton_append]
  rw [key]
  exact ⟨rfl, by simp⟩

/-- C12, amended, on the sequence Normal, Normal, Threshold1. -/
theorem uart_command_run_every_witness :
    (∀ e ∈ [((0xE0 : Nat), (253 : Nat)), (0xE0, 253), (0xE1, 281)],
      (0xE0 ≤ e.1 ∧ e.1 ≤ 0xE3) ∧ e.2 < 65536) ∧
    (uart_command_run true
      ([((0xE0 : Nat), (253 : Nat)), (0xE0, 253), (0xE1, 281)].map
        (fun e => callback_arg e.1 e.2))).length = 3 :=
  ⟨by decide, (uart_command_run_every [(0xE0, 253), (0xE0, 253), (0xE1, 281)] (by decide)).2⟩

/-- C13: for every ingress opcode `c` in `0xE0..0xE3` and every 16-bit value
`t`, every call of `tcp_server_send` that `uart_command_callback` makes for
the argument `(t << 16) | c` has target `-1` (all clients) and exactly the 3
bytes `[r, t >> 8, t & 0xFF]`, where `r` mirrors `c` (`0xE0` to `0xD0`, `0xE1`
to `0xD1`, `0xE2` to `0xD2`, `0xE3` to `0xD3`), and bytes 1 and 2 give back
`t` as `(high << 8) | low`; with the network available there is exactly one
such call. -/
theorem uart_notification_shape (wifi_connected : Bool) (c t : Nat)
    (hc : c = 0xE0 ∨ c = 0xE1 ∨ c = 0xE2 ∨ c = 0xE3) (ht : t < 65536) :
    (∀ call ∈ uart_command_callback wifi_connected ((t <<< 16) ||| c),
      call.socket = -1 ∧
      call.data =
        [if c = 0xE0 then 0xD0 else if c = 0xE1 then 0xD1 else if c = 0xE2 then 0xD2 else 0xD3,
          t >>> 8, t &&& 0xFF] ∧
      call.data.length = 3 ∧
      ((call.data.getD 1 0) <<< 8) ||| (call.data.getD 2 0) = t) ∧
    (wifi_connected = true →
      (uart_command_callback wifi_connected ((t <<< 16) ||| c)).length = 1) := by
  have hrange : 0xE0 ≤ c ∧ c ≤ 0xE3 := by omega
  have key := uart_command_callback_arg wifi_connected c t hrange ht
  rw [callback_arg] at key
  rw [key]
  have hreassemble : ((t >>> 8) <<< 8) ||| (t &&& 0xFF) = t := by
    rw [and_255_eq_mod, shl8_or_eq_add _ _ (Nat.mod_lt _ (by decide)), shr8_eq_div]
    omega
  cases wifi_connected with
  | false => simp
  | true =>
    refine ⟨?_, fun _ => rfl⟩
    intro call hcall
    simp only [if_true, List.mem_singleton] at hcall
    subst hcall
    exact ⟨rfl, rfl, rfl, hreassemble⟩

/-- C13 at a concrete input: threshold 2 at 35.0 degrees, network available. -/
theorem uart_notification_shape_witness :
    ((0xE2 : Nat) = 0xE0 ∨ (0xE2 : Nat) = 0xE1 ∨ (0xE2 : Nat) = 0xE2 ∨ (0xE2 : Nat) = 0xE3) ∧
    (350 : Nat) < 65536 ∧
    uart_command_callback true ((350 <<< 16) ||| 0xE2) =
      [{ data := [0xD2, 1, 94], socket := -1 }] ∧
    (uart_command_callback true ((350 <<< 16) ||| 0xE2)).length = 1 :=
  ⟨by decide, by decide, by decide,
    (uart_notification_shape true 0xE2 350 (by decide) (by decide)).2 rfl⟩

/-- C14, as stated, fails: while the network is not available,
`uart_command_callback` called with the opcode `0xE3` and the value 253 makes
no call of `tcp_server_send`. -/
theorem uart_update_unconditional_counterexample :
    (callback_arg 0xE3 253 % 4294967296) &&& 0xFF = CMD_TEMP_UPDATE ∧
    uart_command_callback false (callback_arg 0xE3 253) = [] ∧
    (uart_command_callback false (callback_arg 0xE3 253)).length ≠ 1 := by
  decide

/-- C14, amended: for the periodic-refresh opcode `0xE3`, every call of
`uart_command_callback` while the network is available (`wifi_connected`)
makes exactly one call of `tcp_server_send`, the 3-byte notification
`[0xD3, high, low]` to all clients, with no other condition (the router
keeps no threshold status and no cadence of its own); while the network is
not available it makes none. -/
theorem uart_update_when_connected (wifi_connected : Bool) (cmd_with_temp : Nat)
    (h : (cmd_with_temp % 4294967296) &&& 0xFF = 0xE3) :
    (wifi_connected = true →
      uart_command_callback wifi_connected cmd_with_temp =
        [{ data := [0xD3, ((((cmd_with_temp % 4294967296) >>> 16) % 65536) >>> 8) &&& 0xFF,
                    (((cmd_with_temp % 4294967296) >>> 16) % 65536) &&& 0xFF],
           socket := -1 }] ∧
      (uart_command_callback wifi_connected cmd_with_temp).length = 1) ∧
    (wifi_connected = false → uart_command_callback wifi_connected cmd_with_temp = []) := by
  unfold uart_command_callback
  simp only [h]
  cases wifi_connected <;>
    simp [CMD_TEMP_THRESHOLD1, CMD_TEMP_THRESHOLD2, CMD_TEMP_NORMAL, CMD_TEMP_UPDATE,
      RESP_TEMP_UPDATE]

/-- C14, amended, at a concrete input: a refresh at 25.3 degrees. -/
theorem uart_update_when_connected_witness :
    (callback_arg 0xE3 253 % 4294967296) &&& 0xFF = 0xE3 ∧
    uart_command_callback true (callback_arg 0xE3 253) =
      [{ data := [0xD3, 0, 253], socket := -1 }] ∧
    uart_command_callback false (callback_arg 0xE3 253) = [] :=
  ⟨by decide,
    ((uart_update_when_connected true (callback_arg 0xE3 253) (by decide)).1 rfl).1.trans
      (by decide),
    (uart_update_when_connected false (callback_arg 0xE3 253) (by decide)).2 rfl⟩

/-! ## C15, C16, C17: the serial decoder -/

/-- The scan of `uart_frames` at one byte: an opcode byte with at least two
bytes after it gives a call and the scan goes on after them; any other byte
is passed over. -/
theorem uart_frames_cons (cmd : Nat) (rest : List Nat) :
    uart_frames (cmd :: rest) =
      if (0xE0 ≤ cmd ∧ cmd ≤ 0xE3) ∧ 2 ≤ rest.length then
        (((((rest.getD 0 0 <<< 8) ||| rest.getD 1 0) % 65536) <<< 16) ||| cmd) % 4294967296 ::
          uart_frames (rest.drop 2)
      else uart_frames rest := by
  match rest with
  | [] => simp [uart_frames]
  | [hi] => simp [uart_frames]
  | hi :: lo :: tail =>
    by_cases h : 0xE0 ≤ cmd ∧ cmd ≤ 0xE3
    · simp [uart_frames, h]
    · simp [uart_frames, h]

/-- The loop of `uart_event_task`, given more tests than bytes left, returns,
and its calls are the frames of the bytes from index `i` on. -/
theorem uart_decode_loop_eq (data : List Nat) :
    ∀ (fuel i : Nat), data.length - i < fuel →
      uart_decode_loop data fuel i = some (uart_frames (data.drop i)) := by
  intro fuel
  induction fuel with
  | zero => intro i h; omega
  | succ n ih =>
    intro i h
    unfold uart_decode_loop
    by_cases hi : i < data.length
    · rw [if_pos hi]
      have hdrop : data.drop i = data.getD i 0 :: data.drop (i + 1) := by
        rw [List.getD_eq_getElem _ _ hi]
        exact List.drop_eq_getElem_cons hi
      rw [hdrop, uart_frames_cons]
      have hlen : (data.drop (i + 1)).length = data.length - (i + 1) := List.length_drop _ _
      by_cases hc : 0xE0 ≤ data.getD i 0 ∧ data.getD i 0 ≤ 0xE3
      · by_cases h2 : i + 2 < data.length
        · have hge : 2 ≤ (data.drop (i + 1)).length := by omega
          have hd1 : (data.drop (i + 1)).getD 0 0 = data.getD (i + 1) 0 := by
            simp [List.getD_eq_getElem?_getD, List.getElem?_drop]
          have hd2 : (data.drop (i + 1)).getD 1 0 = data.getD (i + 2) 0 := by
            simp [List.getD_eq_getElem?_getD, List.getElem?_drop]
          have hdd : (data.drop (i + 1)).drop 2 = data.drop (i + 3) := by
            rw [List.drop_drop]
          simp only [if_pos hc, if_pos h2, if_pos (And.intro hc hge), hd1, hd2, hdd]
          rw [ih (i + 3) (by omega)]
          rfl
        · have hlt : ¬ 2 ≤ (data.drop (i + 1)).length := by omega
          simp only [if_pos hc, if_neg h2, if_neg (fun hh => hlt (And.right hh))]
          exact ih (i + 1) (by omega)
      · simp only [if_neg hc, if_neg (fun hh => hc (And.left hh))]
        exact ih (i + 1) (by omega)
    · rw [if_neg hi, List.drop_of_length_le (by omega)]
      rfl

/-- The display node's frame for an opcode in `0xE0..0xE3` and a 16-bit value:
the opcode, the high byte and the low byte of the value. -/
theorem send_command_bytes (c t : Nat) (hc : 0xE0 ≤ c ∧ c ≤ 0xE3) (ht : t < 65536) :
    Send_Command_To_ESP32_With_Temp c t = [c, t / 256, t % 256] := by
  unfold Send_Command_To_ESP32_With_Temp
  rw [and_255_eq_mod, shr8_eq_div]
  have h1 : c % 256 = c := by omega
  have h2 : t % 65536 / 256 % 256 = t / 256 := by omega
  have h3 : t % 65536 % 256 % 256 = t % 256 := by omega
  rw [h1, h2, h3]

/-- The word the decoder builds from the bytes of a frame is the callback
argument of the event. -/
theorem frame_word (c t : Nat) (hc : 0xE0 ≤ c ∧ c ≤ 0xE3) (ht : t < 65536) :
    ((((((t / 256) <<< 8) ||| (t % 256)) % 65536) <<< 16) ||| c) % 4294967296 =
      callback_arg c t := by
  rw [shl8_or_eq_add _ _ (Nat.mod_lt _ (by decide))]
  have h1 : (t / 256 * 256 + t % 256) % 65536 = t := by omega
  rw [h1, callback_arg, shl16_or_eq_add t c (by omega)]
  omega

/-- The callback argument of an event unpacks to the event. -/
theorem callback_arg_unpack (c t : Nat) (hc : 0xE0 ≤ c ∧ c ≤ 0xE3) :
    callback_arg c t &&& 0xFF = c ∧ callback_arg c t >>> 16 = t := by
  rw [callback_arg, shl16_or_eq_add t c (by omega), and_255_eq_mod, shr16_eq_div]
  omega

/-- The frames of a sequence of events decode to the callback arguments of the
events, one per event and in order. -/
theorem uart_frames_send_frames (events : List (Nat × Nat))
    (h : ∀ e ∈ events, (0xE0 ≤ e.1 ∧ e.1 ≤ 0xE3) ∧ e.2 < 65536) :
    uart_frames (send_frames events) = events.map (fun e => callback_arg e.1 e.2) := by
  induction events with
  | nil => rfl
  | cons e es ih =>
    have he := h e (List.mem_cons_self _ _)
    have hes := ih (fun x hx => h x (List.mem_cons_of_mem _ hx))
    rw [send_frames, send_command_bytes e.1 e.2 he.1 he.2]
    show uart_frames (e.1 :: e.2 / 256 :: e.2 % 256 :: send_frames es) = _
    simp only [uart_frames, if_pos he.1, List.map_cons, frame_word e.1 e.2 he.1 he.2, hes]

/-- C15: for every finite sequence of events `(c, t)` with `c` in `0xE0..0xE3`
and `t` a 16-bit value, when the concatenation of the 3-byte frames that
`Send_Command_To_ESP32_With_Temp` produces for them arrives as one buffer
while the ingress is not paused (and the callback is registered), the decoder
returns having made exactly one callback per frame, in order, and the
arguments unpack (low 8 bits, high 16 bits) to exactly the events; value
bytes that lie in `0xE0..0xE3` make no difference. -/
theorem uart_frame_round_trip (events : List (Nat × Nat))
    (h : ∀ e ∈ events, (0xE0 ≤ e.1 ∧ e.1 ≤ 0xE3) ∧ e.2 < 65536) :
    (send_frames events).length = 3 * events.length ∧
    ∃ calls, uart_event_data true false (send_frames events) = some calls ∧
      calls.length = events.length ∧
      calls.map (fun arg => (arg &&& 0xFF, arg >>> 16)) = events := by
  have hlen : (send_frames events).length = 3 * events.length := by
    induction events with
    | nil => rfl
    | cons e es ih =>
      have he := h e (List.mem_cons_self _ _)
      have hes := ih (fun x hx => h x (List.mem_cons_of_mem _ hx))
      rw [send_frames, send_command_bytes e.1 e.2 he.1 he.2]
      simp only [List.cons_append, List.nil_append, List.length_cons, hes]
      omega
  refine ⟨hlen, events.map (fun e => callback_arg e.1 e.2), ?_, by simp, ?_⟩
  · unfold uart_event_data
    by_cases hpos : (send_frames events).length > 0
    · simp only [Bool.false_eq_true, if_false, hpos, true_and, if_true]
      rw [uart_decode_loop_eq _ _ 0 (by omega), List.drop_zero, uart_frames_send_frames events h]
    · have hnil : events = [] := by
        cases events with
        | nil => rfl
        | cons e es => simp only [List.length_cons] at hlen; omega
      subst hnil
      rfl
  · rw [List.map_map]
    have hid : ∀ e ∈ events,
        ((fun arg => (arg &&& 0xFF, arg >>> 16)) ∘ (fun e : Nat × Nat => callback_arg e.1 e.2)) e
          = id e := by
      intro e he
      have hu := callback_arg_unpack e.1 e.2 (h e he).1
      simp only [Function.comp, hu.1, hu.2, id]
    rw [List.map_congr_left hid, List.map_id]

/-- C15 on three events whose value bytes are opcode bytes. -/
theorem uart_frame_round_trip_witness :
    (∀ e ∈ sample_events, (0xE0 ≤ e.1 ∧ e.1 ≤ 0xE3) ∧ e.2 < 65536) ∧
    send_frames sample_events = [0xE0, 0x00, 0xFD, 0xE1, 0xE1, 0xE2, 0xE3, 0xE3, 0xE0] ∧
    ∃ calls, uart_event_data true false (send_frames sample_events) = some calls ∧
      calls.length = sample_events.length ∧
      calls.map (fun arg => (arg &&& 0xFF, arg >>> 16)) = sample_events :=
  ⟨by decide, by decide, (uart_frame_round_trip sample_events (by decide)).2⟩

/-- An entry of a buffer of bytes, or the default 0, is a byte. -/
theorem getD_byte (data : List Nat) (hb : ∀ b ∈ data, b < 256) (j : Nat) :
    data.getD j 0 < 256 := by
  by_cases hj : j < data.length
  · rw [List.getD_eq_getElem _ _ hj]
    exact hb _ (List.getElem_mem hj)
  · rw [List.getD_eq_default _ _ (by omega)]
    decide

/-- The word built by the decoder from three bytes unpacks to them. -/
theorem decoded_word (c d1 d2 : Nat) (hc : c < 256) (h1 : d1 < 256) (h2 : d2 < 256) :
    ((((((d1 <<< 8) ||| d2) % 65536) <<< 16) ||| c) % 4294967296) &&& 0xFF = c ∧
    ((((((d1 <<< 8) ||| d2) % 65536) <<< 16) ||| c) % 4294967296) >>> 16 =
      (d1 <<< 8) ||| d2 := by
  rw [shl8_or_eq_add d1 d2 h2, shl16_or_eq_add _ c (by omega), and_255_eq_mod, shr16_eq_div]
  omega

/-- Every call the loop of `uart_event_task` makes from index `i` on comes from
an opcode byte at an index `j` with two more bytes in the buffer, and carries
that opcode and the value of the two bytes; there are at most a third as many
calls as bytes left; and there is none if no byte is an opcode. -/
theorem uart_decode_loop_sound (data : List Nat) (hb : ∀ b ∈ data, b < 256) :
    ∀ (fuel i : Nat) (calls : List Nat), uart_decode_loop data fuel i = some calls →
      (∀ arg ∈ calls, ∃ j, i ≤ j ∧ j + 2 < data.length ∧
        (0xE0 ≤ data.getD j 0 ∧ data.getD j 0 ≤ 0xE3) ∧
        arg &&& 0xFF = data.getD j 0 ∧
        arg >>> 16 = (data.getD (j + 1) 0 <<< 8) ||| data.getD (j + 2) 0) ∧
      3 * calls.length ≤ data.length - i ∧
      ((∀ b ∈ data, ¬ (0xE0 ≤ b ∧ b ≤ 0xE3)) → calls = []) := by
  intro fuel
  induction fuel with
  | zero => intro i calls h; simp [uart_decode_loop] at h
  | succ n ih =>
    intro i calls h
    unfold uart_decode_loop at h
    by_cases hi : i < data.length
    · rw [if_pos hi] at h
      by_cases hc : 0xE0 ≤ data.getD i 0 ∧ data.getD i 0 ≤ 0xE3
      · by_cases h2 : i + 2 < data.length
        · simp only [if_pos hc, if_pos h2] at h
          cases hrest : uart_decode_loop data n (i + 3) with
          | none => rw [hrest] at h; simp at h
          | some rest =>
            rw [hrest] at h
            simp only [Option.map_some', Option.some.injEq] at h
            obtain ⟨ih1, ih2, _⟩ := ih (i + 3) rest hrest
            subst h
            refine ⟨?_, ?_, ?_⟩
            · intro arg harg
              rcases List.mem_cons.mp harg with harg | harg
              · subst harg
                have hw := decoded_word (data.getD i 0) (data.getD (i + 1) 0)
                  (data.getD (i + 2) 0) (getD_byte data hb _) (getD_byte data hb _)
                  (getD_byte data hb _)
                exact ⟨i, le_refl _, h2, hc, hw.1, hw.2⟩
              · obtain ⟨j, hj1, hj2, hj3⟩ := ih1 arg harg
                exact ⟨j, by omega, hj2, hj3⟩
            · simp only [List.length_cons]; omega
            · intro hno
              exfalso
              apply hno (data.getD i 0) _ hc
              rw [List.getD_eq_getElem _ _ hi]
              exact List.getElem_mem hi
        · simp only [if_pos hc, if_neg h2] at h
          obtain ⟨ih1, ih2, ih3⟩ := ih (i + 1) calls h
          refine ⟨?_, by omega, ih3⟩
          intro arg harg
          obtain ⟨j, hj1, hj2⟩ := ih1 arg harg
          exact ⟨j, by omega, hj2⟩
      · simp only [if_neg hc] at h
        obtain ⟨ih1, ih2, ih3⟩ := ih (i + 1) calls h
        refine ⟨?_, by omega, ih3⟩
        intro arg harg
        obtain ⟨j, hj1, hj2⟩ := ih1 arg harg
        exact ⟨j, by omega, hj2⟩
    · rw [if_neg hi] at h
      simp only [Option.some.injEq] at h
      subst h
      simp

/-- C16: for every buffer `data` of bytes handled while the ingress is not
paused, the decoder returns, and every callback it makes corresponds to an
index `i` with `data[i]` in `0xE0..0xE3` and `i + 2 < len`, carrying the
opcode `data[i]` and the value `(data[i+1] << 8) | data[i+2]`.  Hence an
opcode byte with fewer than 2 bytes after it gives no callback (a buffer of
fewer than 3 bytes gives none at all), a buffer with no byte in `0xE0..0xE3`
gives none, and there are at most `len / 3` callbacks. -/
theorem uart_decoder_sound (g_callback_set : Bool) (data : List Nat)
    (hb : ∀ b ∈ data, b < 256) :
    ∃ calls, uart_event_data g_callback_set false data = some calls ∧
      (∀ arg ∈ calls, ∃ i, i + 2 < data.length ∧
        (0xE0 ≤ data.getD i 0 ∧ data.getD i 0 ≤ 0xE3) ∧
        arg &&& 0xFF = data.getD i 0 ∧
        arg >>> 16 = (data.getD (i + 1) 0 <<< 8) ||| data.getD (i + 2) 0) ∧
      (data.length < 3 → calls = []) ∧
      ((∀ b ∈ data, ¬ (0xE0 ≤ b ∧ b ≤ 0xE3)) → calls = []) ∧
      calls.length ≤ data.length / 3 := by
  by_cases hrun : data.length > 0 ∧ g_callback_set = true
  · have hloop := uart_decode_loop_eq data (data.length + 1) 0 (by omega)
    have hev : uart_event_data g_callback_set false data =
        some (uart_frames (data.drop 0)) := by
      unfold uart_event_data
      simp only [Bool.false_eq_true, if_false, if_pos hrun]
      exact hloop
    obtain ⟨h1, h2, h3⟩ := uart_decode_loop_sound data hb _ _ _ hloop
    refine ⟨_, hev, ?_, ?_, h3, ?_⟩
    · intro arg harg
      obtain ⟨j, _, hj⟩ := h1 arg harg
      exact ⟨j, hj⟩
    · intro hlt
      have : (uart_frames (data.drop 0)).length = 0 := by omega
      exact List.length_eq_zero.mp this
    · omega
  · have hev : uart_event_data g_callback_set false data = some [] := by
      unfold uart_event_data
      simp only [Bool.false_eq_true, if_false, if_neg hrun]
    exact ⟨[], hev, by simp, fun _ => rfl, fun _ => rfl, by simp⟩

/-- C16 on a concrete buffer: a stray byte, a whole frame, a stray byte and an
opcode byte with only one byte after it give one callback, for the frame. -/
theorem uart_decoder_sound_witness :
    (∀ b ∈ sample_buffer, b < 256) ∧
    uart_event_data true false sample_buffer = some [callback_arg 0xE0 253] ∧
    ∃ calls, uart_event_data true false sample_buffer = some calls ∧
      (∀ arg ∈ calls, ∃ i, i + 2 < sample_buffer.length ∧
        (0xE0 ≤ sample_buffer.getD i 0 ∧ sample_buffer.getD i 0 ≤ 0xE3) ∧
        arg &&& 0xFF = sample_buffer.getD i 0 ∧
        arg >>> 16 = (sample_buffer.getD (i + 1) 0 <<< 8) ||| sample_buffer.getD (i + 2) 0) ∧
      calls.length ≤ sample_buffer.length / 3 :=
  ⟨by decide, by decide,
    (uart_decoder_sound true sample_buffer (by decide)).imp
      (fun _ hc => ⟨hc.1, hc.2.1, hc.2.2.2.2⟩)⟩

/-- The handling of the bytes of a data event always returns. -/
theorem uart_event_data_returns (g_callback_set paused : Bool) (data : List Nat) :
    ∃ calls, uart_event_data g_callback_set paused data = some calls := by
  unfold uart_event_data
  by_cases hp : paused = true
  · exact ⟨[], by simp only [if_pos hp]⟩
  · by_cases hrun : data.length > 0 ∧ g_callback_set = true
    · refine ⟨uart_frames (data.drop 0), ?_⟩
      simp only [if_neg hp, if_pos hrun]
      exact uart_decode_loop_eq _ _ 0 (by omega)
    · exact ⟨[], by simp only [if_neg hp, if_neg hrun]⟩

/-- Every turn of `uart_event_task` returns and leaves `uart_paused` as it was. -/
theorem uart_event_task_flag (g_callback_set : Bool) (v : UartHandler) :
    ∃ w calls, uart_event_task g_callback_set v = some (w, calls) ∧
      w.uart_paused = v.uart_paused := by
  cases hv : v.uart_queue with
  | none => exact ⟨v, [], by simp [uart_event_task, hv], rfl⟩
  | some q =>
    cases q with
    | nil => exact ⟨v, [], by simp [uart_event_task, hv, xQueueReceive], rfl⟩
    | cons event tail =>
      obtain ⟨calls, hcalls⟩ :=
        uart_event_data_returns g_callback_set v.uart_paused (v.rx_buffer.take event.size)
      cases ht : event.type with
      | UART_DATA =>
        exact ⟨{ uart_paused := v.uart_paused, rx_buffer := v.rx_buffer.drop event.size,
                 uart_queue := some tail }, calls,
          by simp [uart_event_task, hv, xQueueReceive, ht, hcalls], rfl⟩
      | UART_FIFO_OVF =>
        exact ⟨{ uart_paused := v.uart_paused, rx_buffer := [],
                 uart_queue := some (xQueueReset tail) }, [],
          by simp [uart_event_task, hv, xQueueReceive, ht], rfl⟩
      | UART_BUFFER_FULL =>
        exact ⟨{ uart_paused := v.uart_paused, rx_buffer := [],
                 uart_queue := some (xQueueReset tail) }, [],
          by simp [uart_event_task, hv, xQueueReceive, ht], rfl⟩
      | UART_EVENT_OTHER =>
        exact ⟨{ uart_paused := v.uart_paused, rx_buffer := v.rx_buffer,
                 uart_queue := some tail }, [],
          by simp [uart_event_task, hv, xQueueReceive, ht], rfl⟩

/-- C17: while `uart_paused` is set, the turn of `uart_event_task` for a UART
data event of any size, whatever bytes wait in the driver, returns having
read the bytes from the driver (they leave its input buffer) and makes no
callback; the flag stays set.  No turn of the event task, in any state,
changes `uart_paused`; `uart_handler_pause` leaves it set and
`uart_handler_resume` leaves it cleared, whatever it was. -/
theorem uart_paused_no_callback (g_callback_set : Bool) (u : UartHandler) (size : Nat)
    (rest : List uart_event_t) (v : UartHandler)
    (hp : u.uart_paused = true)
    (hq : u.uart_queue = some ({ type := uart_event_type_t.UART_DATA, size := size } :: rest)) :
    uart_event_task g_callback_set u =
      some ({ uart_paused := true, rx_buffer := u.rx_buffer.drop size,
              uart_queue := some rest }, []) ∧
    (∀ data, uart_event_data g_callback_set true data = some []) ∧
    (∃ w calls, uart_event_task g_callback_set v = some (w, calls) ∧
      w.uart_paused = v.uart_paused) ∧
    (uart_handler_pause v).uart_paused = true ∧
    (uart_handler_resume v).uart_paused = false := by
  refine ⟨?_, fun data => by simp [uart_event_data], uart_event_task_flag g_callback_set v,
    uart_handler_pause_paused v, uart_handler_resume_paused v⟩
  simp [uart_event_task, hq, xQueueReceive, uart_event_data, hp]

/-- C17 at a concrete input: a whole frame waits in the driver while the
ingress is paused. -/
theorem uart_paused_no_callback_witness :
    (paused_ingress.uart_paused = true ∧
      paused_ingress.uart_queue =
        some ({ type := uart_event_type_t.UART_DATA, size := 3 } :: []) ∧
      paused_ingress.rx_buffer = [0xE1, 0x01, 0x19, 0x55]) ∧
    uart_event_task true paused_ingress =
      some ({ uart_paused := true, rx_buffer := [0x55], uart_queue := some [] }, []) ∧
    uart_event_task true { paused_ingress with uart_paused := false } =
      some ({ uart_paused := false, rx_buffer := [0x55], uart_queue := some [] },
        [callback_arg 0xE1 281]) :=
  ⟨⟨rfl, rfl, rfl⟩,
    (uart_paused_no_callback true paused_ingress 3 [] paused_ingress rfl rfl).1,
    by decide⟩

/-! ## C18, C20: stream start and play once -/

/-- C18: a stream-start request (opcode `0xA3`) makes `tcp_data_callback`
return with exactly one call of `tcp_server_send`, of one byte, to the socket
of the requesting connection: `RESP_AUDIO_ACK` (`0xD5`) when
`audio_stream_start` succeeds, and then `current_state` is
`AUDIO_STATE_RECEIVING`; `RESP_ERROR` (`0xDF`) when it fails, and then the
gateway state is as before. -/
theorem tcp_stream_start_reply (env : CallEnv) (rest : List Nat) (socket : Int) (g : Gateway) :
    ((audio_stream_start g.engine).2 = ESP_OK →
      ∃ g1, tcp_data_callback env (0xA3 :: rest) socket g =
          some (g1, [{ data := [0xD5], socket := socket }]) ∧
        g1.engine = (audio_stream_start g.engine).1 ∧
        g1.engine.audio.current_state = AUDIO_STATE_RECEIVING ∧
        g1.station = g.station) ∧
    ((audio_stream_start g.engine).2 ≠ ESP_OK →
      tcp_data_callback env (0xA3 :: rest) socket g =
        some (g, [{ data := [0xDF], socket := socket }])) ∧
    ((audio_stream_start g.engine).2 = ESP_OK ↔ g.engine.audio.audio_initialized = true) := by
  have hcb : tcp_data_callback env (0xA3 :: rest) socket g =
      if (audio_stream_start g.engine).2 = ESP_OK then
        some ({ g with engine := (audio_stream_start g.engine).1 },
          [{ data := [0xD5], socket := socket }])
      else
        some ({ g with engine := (audio_stream_start g.engine).1 },
          [{ data := [0xDF], socket := socket }]) := by
    simp [tcp_data_callback, CMD_PLAY_AUDIO, CMD_AUDIO_STREAM_START, RESP_AUDIO_ACK, RESP_ERROR]
  cases hi : g.engine.audio.audio_initialized with
  | true =>
    have hstart := audio_stream_start_init g.engine hi
    have hok : (audio_stream_start g.engine).2 = ESP_OK := by rw [hstart]
    have hrecv : (audio_stream_start g.engine).1.audio.current_state =
        AUDIO_STATE_RECEIVING := by rw [hstart]
    rw [hcb, if_pos hok]
    exact ⟨fun _ => ⟨{ g with engine := (audio_stream_start g.engine).1 }, rfl, rfl, hrecv, rfl⟩,
      fun h => absurd hok h, ⟨fun _ => rfl, fun _ => hok⟩⟩
  | false =>
    have hstart : audio_stream_start g.engine = (g.engine, ESP_FAIL) := by
      simp [audio_stream_start, hi]
    rw [hcb, hstart]
    refine ⟨fun h => absurd h (fun e => ESP_OK_ne_ESP_FAIL e.symm), fun _ => ?_, ?_⟩
    · simp [ESP_OK_ne_ESP_FAIL.symm]
    · simp [ESP_OK_ne_ESP_FAIL.symm]

/-- C18 at concrete inputs: a stream start on the initialised gateway and one
on the gateway at boot, both from socket 4. -/
theorem tcp_stream_start_reply_witness :
    ((audio_stream_start gateway_ready.engine).2 = ESP_OK ∧
      (audio_stream_start gateway_boot.engine).2 ≠ ESP_OK) ∧
    (∃ g1, tcp_data_callback calm [0xA3] 4 gateway_ready =
        some (g1, [{ data := [0xD5], socket := 4 }]) ∧
      g1.engine = (audio_stream_start gateway_ready.engine).1 ∧
      g1.engine.audio.current_state = AUDIO_STATE_RECEIVING ∧
      g1.station = gateway_ready.station) ∧
    tcp_data_callback calm [0xA3] 4 gateway_boot =
      some (gateway_boot, [{ data := [0xDF], socket := 4 }]) :=
  ⟨⟨by decide, by decide⟩,
    (tcp_stream_start_reply calm [] 4 gateway_ready).1 (by decide),
    (tcp_stream_start_reply calm [] 4 gateway_boot).2.1 (by decide)⟩

/-- C20: for every play-once-audio request (opcode `0xA1`) with a non-empty
payload, in every gateway state, `tcp_data_callback` returns having called
`audio_stream_feed` once on the payload, the `len - 1` bytes after the opcode
byte (so the engine is left as that one feed leaves it: one packet more,
the copy of the payload, if the feed was accepted, unchanged otherwise), and
having made exactly one call of `tcp_server_send`, the byte `RESP_AUDIO_ACK`
(`0xD5`) to the socket of the requesting connection. -/
theorem tcp_play_audio_reply (env : CallEnv) (payload : List Nat) (socket : Int) (g : Gateway)
    (h : payload ≠ []) :
    tcp_data_callback env (0xA1 :: payload) socket g =
      some ({ engine := (audio_stream_feed (some payload) env.malloc_ok g.engine).1,
              station := g.station },
        [{ data := [0xD5], socket := socket }]) ∧
    payload.length = (0xA1 :: payload).length - 1 ∧
    ((audio_stream_feed (some payload) env.malloc_ok g.engine).2 = ESP_OK →
      (audio_stream_feed (some payload) env.malloc_ok g.engine).1.audio.audio_queue =
        g.engine.audio.audio_queue ++ [{ data := payload, len := payload.length }]) ∧
    ((audio_stream_feed (some payload) env.malloc_ok g.engine).2 ≠ ESP_OK →
      (audio_stream_feed (some payload) env.malloc_ok g.engine).1 = g.engine) := by
  have hlen : 0 < payload.length := List.length_pos.mpr h
  refine ⟨?_, by simp, ?_, ?_⟩
  · simp [tcp_data_callback, CMD_PLAY_AUDIO, RESP_AUDIO_ACK, hlen]
  · intro hok
    rcases audio_stream_feed_cases (some payload) env.malloc_ok g.engine with
      hf | ⟨bytes, hd, _, _, _, _, hf⟩
    · rw [hf] at hok; exact absurd hok (fun e => ESP_OK_ne_ESP_FAIL e.symm)
    · cases hd
      rw [hf]
      rfl
  · intro hfail
    rcases audio_stream_feed_cases (some payload) env.malloc_ok g.engine with
      hf | ⟨bytes, hd, _, _, _, _, hf⟩
    · rw [hf]
    · rw [hf] at hfail; exact absurd rfl hfail

/-- C20 at concrete inputs: a play-once request of two bytes from socket 5, on
a receiving engine (the payload is queued) and on an idle engine (the feed is
refused); both are acknowledged. -/
theorem tcp_play_audio_reply_witness :
    ([0x10, 0x20] : List Nat) ≠ [] ∧
    tcp_data_callback calm [0xA1, 0x10, 0x20] 5 gateway_receiving =
      some ({ engine := (audio_stream_feed (some [0x10, 0x20]) true receiving).1,
              station := gateway_receiving.station },
        [{ data := [0xD5], socket := 5 }]) ∧
    (audio_stream_feed (some [0x10, 0x20]) true receiving).1.audio.audio_queue =
      [{ data := [0x10, 0x20], len := 2 }] ∧
    tcp_data_callback calm [0xA1, 0x10, 0x20] 5 gateway_ready =
      some (gateway_ready, [{ data := [0xD5], socket := 5 }]) :=
  ⟨by decide, (tcp_play_audio_reply calm [0x10, 0x20] 5 gateway_receiving (by decide)).1,
    by decide,
    (tcp_play_audio_reply calm [0x10, 0x20] 5 gateway_ready (by decide)).1.trans (by decide)⟩

/-! ## C19: coalesced acknowledgement of stream data -/

/-- One stream-data request met with the counter at `c < 10`: the callback
returns; if the payload was fed with success the counter goes to `c + 1`, or
to 0 with one acknowledgement to the requesting socket when `c + 1` is 10;
otherwise the counter stays and nothing is sent. -/
theorem stream_data_step (malloc_ok : Bool) (payload : List Nat) (socket : Int) (g : Gateway)
    (c : Nat) (hc : c < 10) (hpc : g.station.packet_count = (c : Int)) :
    (payload.length > 0 ∧ (audio_stream_feed (some payload) malloc_ok g.engine).2 = ESP_OK →
      ∃ g1, tcp_data_callback { malloc_ok := malloc_ok, others := stalled }
          (CMD_AUDIO_STREAM_DATA :: payload) socket g =
          some (g1, if c = 9 then [{ data := [0xD5], socket := socket }] else []) ∧
        g1.station.packet_count = (((c + 1) % 10 : Nat) : Int)) ∧
    (¬ (payload.length > 0 ∧ (audio_stream_feed (some payload) malloc_ok g.engine).2 = ESP_OK) →
      ∃ g1, tcp_data_callback { malloc_ok := malloc_ok, others := stalled }
          (CMD_AUDIO_STREAM_DATA :: payload) socket g = some (g1, []) ∧
        g1.station.packet_count = (c : Int)) := by
  have hcb : tcp_data_callback { malloc_ok := malloc_ok, others := stalled }
      (CMD_AUDIO_STREAM_DATA :: payload) socket g =
      if payload.length > 0 then
        if (audio_stream_feed (some payload) malloc_ok g.engine).2 = ESP_OK then
          if g.station.packet_count + 1 ≥ 10 then
            some ({ engine := (audio_stream_feed (some payload) malloc_ok g.engine).1,
                    station := { g.station with packet_count := 0 } },
              [{ data := [0xD5], socket := socket }])
          else
            some ({ engine := (audio_stream_feed (some payload) malloc_ok g.engine).1,
                    station := { g.station with packet_count := g.station.packet_count + 1 } },
              [])
        else
          some ({ g with engine := (audio_stream_feed (some payload) malloc_ok g.engine).1 }, [])
      else some (g, []) := by
    simp [tcp_data_callback, CMD_PLAY_AUDIO, CMD_AUDIO_STREAM_START, CMD_AUDIO_STREAM_DATA,
      RESP_AUDIO_ACK]
  rw [hcb, hpc]
  constructor
  · rintro ⟨hlen, hok⟩
    rw [if_pos hlen, if_pos hok]
    by_cases h9 : c = 9
    · have hge : (c : Int) + 1 ≥ 10 := by omega
      rw [if_pos hge, if_pos h9]
      refine ⟨_, rfl, ?_⟩
      show (0 : Int) = (((c + 1) % 10 : Nat) : Int)
      omega
    · have hlt : ¬ ((c : Int) + 1 ≥ 10) := by omega
      rw [if_neg hlt, if_neg h9]
      refine ⟨_, rfl, ?_⟩
      show (c : Int) + 1 = (((c + 1) % 10 : Nat) : Int)
      omega
  · intro hnot
    by_cases hlen : payload.length > 0
    · have hfail : ¬ (audio_stream_feed (some payload) malloc_ok g.engine).2 = ESP_OK :=
        fun hok => hnot ⟨hlen, hok⟩
      rw [if_pos hlen, if_neg hfail]
      exact ⟨_, rfl, hpc⟩
    · rw [if_neg hlen]
      exact ⟨_, rfl, hpc⟩

/-- The part of the stream-data branch before `tcp_server_send`, case by case:
a payload fed with success increments the counter and an acknowledgement is
due when the counter has reached 10; otherwise the counter stays and nothing
is sent. -/
theorem stream_data_begin_eq (malloc_ok : Bool) (payload : List Nat) (socket : Int)
    (g : Gateway) :
    stream_data_begin malloc_ok (CMD_AUDIO_STREAM_DATA :: payload) socket g =
      if payload.length > 0 ∧ (audio_stream_feed (some payload) malloc_ok g.engine).2 = ESP_OK then
        { gateway := { engine := (audio_stream_feed (some payload) malloc_ok g.engine).1,
                       station := { g.station with
                                    packet_count := g.station.packet_count + 1 } },
          fed := true,
          sent := if g.station.packet_count + 1 ≥ 10 then [{ data := [0xD5], socket := socket }]
                  else [] }
      else
        { gateway := { g with engine := if payload.length > 0 then
                         (audio_stream_feed (some payload) malloc_ok g.engine).1 else g.engine },
          fed := false, sent := [] } := by
  by_cases hlen : payload.length > 0
  · by_cases hok : (audio_stream_feed (some payload) malloc_ok g.engine).2 = ESP_OK
    · by_cases hge : g.station.packet_count + 1 ≥ 10
      · simp [stream_data_begin, hlen, hok, hge, RESP_AUDIO_ACK]
      · simp [stream_data_begin, hlen, hok, hge, RESP_AUDIO_ACK]
    · simp [stream_data_begin, hlen, hok, RESP_AUDIO_ACK]
  · simp [stream_data_begin, hlen, RESP_AUDIO_ACK]

/-- The stream-data branch of `tcp_data_callback`, taken as one step, is its
part before `tcp_server_send` followed, when an acknowledgement is sent, by
the reset of the counter. -/
theorem tcp_data_callback_stream_data (env : CallEnv) (payload : List Nat) (socket : Int)
    (g : Gateway) :
    tcp_data_callback env (CMD_AUDIO_STREAM_DATA :: payload) socket g =
      some (if (stream_data_begin env.malloc_ok (CMD_AUDIO_STREAM_DATA :: payload) socket
                g).sent.isEmpty
            then (stream_data_begin env.malloc_ok (CMD_AUDIO_STREAM_DATA :: payload) socket
                g).gateway
            else stream_data_finish (stream_data_begin env.malloc_ok
                (CMD_AUDIO_STREAM_DATA :: payload) socket g).gateway,
        (stream_data_begin env.malloc_ok (CMD_AUDIO_STREAM_DATA :: payload) socket g).sent) := by
  have hcb : tcp_data_callback env (CMD_AUDIO_STREAM_DATA :: payload) socket g =
      if payload.length > 0 then
        if (audio_stream_feed (some payload) env.malloc_ok g.engine).2 = ESP_OK then
          if g.station.packet_count + 1 ≥ 10 then
            some ({ engine := (audio_stream_feed (some payload) env.malloc_ok g.engine).1,
                    station := { g.station with packet_count := 0 } },
              [{ data := [0xD5], socket := socket }])
          else
            some ({ engine := (audio_stream_feed (some payload) env.malloc_ok g.engine).1,
                    station := { g.station with packet_count := g.station.packet_count + 1 } },
              [])
        else
          some ({ g with engine := (audio_stream_feed (some payload) env.malloc_ok g.engine).1 },
            [])
      else some (g, []) := by
    simp [tcp_data_callback, CMD_PLAY_AUDIO, CMD_AUDIO_STREAM_START, CMD_AUDIO_STREAM_DATA,
      RESP_AUDIO_ACK]
  rw [hcb, stream_data_begin_eq]
  by_cases hlen : payload.length > 0
  · by_cases hok : (audio_stream_feed (some payload) env.malloc_ok g.engine).2 = ESP_OK
    · by_cases hge : g.station.packet_count + 1 ≥ 10
      · simp [hlen, hok, hge, stream_data_finish]
      · simp [hlen, hok, hge]
    · simp [hlen, hok]
  · simp [hlen]

/-- One request handled to the end with no send in progress and the counter
at `c < 10`: afterwards no send is in progress; if the payload was fed with
success the counter is `c + 1`, or 0 after one acknowledgement to the
requesting socket when `c + 1` is 10; otherwise the counter stays and nothing
is sent. -/
theorem stream_pair_step (r : DataRequest) (v : Serving) (c : Nat) (hc : c < 10)
    (hs : v.sending = []) (hpc : v.gateway.station.packet_count = (c : Int)) :
    ∃ (v1 : Serving) (fed : Bool), v1.sending = [] ∧
      v1.gateway.station.packet_count = (((if fed = true then (c + 1) % 10 else c : Nat)) : Int) ∧
      ∀ es, stream_data_run (StreamEvent.request r :: StreamEvent.sent r.socket :: es) v =
        ((stream_data_run es v1).1,
          { fed := fed, socket := r.socket,
            sent := if fed = true ∧ c = 9 then [{ data := [0xD5], socket := r.socket }] else [] }
          :: (stream_data_run es v1).2) := by
  have hmem : ¬ r.socket ∈ v.sending := by rw [hs]; exact List.not_mem_nil _
  by_cases hfed : r.payload.length > 0 ∧
      (audio_stream_feed (some r.payload) r.malloc_ok (r.others v.gateway.engine)).2 = ESP_OK
  · by_cases h9 : c = 9
    · refine ⟨{ gateway := stream_data_finish
                  { engine := (audio_stream_feed (some r.payload) r.malloc_ok
                      (r.others v.gateway.engine)).1,
                    station := { v.gateway.station with
                                 packet_count := v.gateway.station.packet_count + 1 } },
                sending := [] }, true, rfl, ?_, ?_⟩
      · subst h9
        simp [stream_data_finish]
      · intro es
        have hge : v.gateway.station.packet_count + 1 ≥ 10 := by rw [hpc]; omega
        simp [stream_data_run, stream_event_step, hmem, stream_data_begin_eq, hfed, hge, hs, h9]
    · refine ⟨{ gateway :=
                  { engine := (audio_stream_feed (some r.payload) r.malloc_ok
                      (r.others v.gateway.engine)).1,
                    station := { v.gateway.station with
                                 packet_count := v.gateway.station.packet_count + 1 } },
                sending := [] }, true, rfl, ?_, ?_⟩
      · simp only [if_true, hpc]
        have : (c + 1) % 10 = c + 1 := by omega
        rw [this]
        push_cast
        rfl
      · intro es
        have hge : ¬ v.gateway.station.packet_count + 1 ≥ 10 := by rw [hpc]; omega
        simp [stream_data_run, stream_event_step, hmem, stream_data_begin_eq, hfed, hge, hs, h9]
  · refine ⟨{ gateway :=
                { engine := (if r.payload.length > 0 then
                    (audio_stream_feed (some r.payload) r.malloc_ok (r.others v.gateway.engine)).1
                    else (r.others v.gateway.engine)),
                  station := v.gateway.station },
              sending := [] }, false, rfl, ?_, ?_⟩
    · simpa using hpc
    · intro es
      simp [stream_data_run, stream_event_step, hmem, stream_data_begin_eq, hfed, hs]

/-- Requests handled one at a time, starting with no send in progress and the
counter at `c < 10`: there is one outcome per request; a request is
acknowledged exactly when it was fed with success and `c` plus the number of
successful feeds up to and including it is a multiple of 10. -/
theorem stream_data_run_from (reqs : List DataRequest) :
    ∀ (v : Serving) (c : Nat), c < 10 → v.sending = [] →
      v.gateway.station.packet_count = (c : Int) →
      ((stream_data_run (one_at_a_time reqs) v).2.map DataOutcome.socket =
          reqs.map DataRequest.socket) ∧
        (∀ pre out post, (stream_data_run (one_at_a_time reqs) v).2 = pre ++ out :: post →
          out.sent = if out.fed = true ∧ (c + pre.countP DataOutcome.fed + 1) % 10 = 0 then
            [{ data := [0xD5], socket := out.socket }] else []) ∧
        ((stream_data_run (one_at_a_time reqs) v).2.map (fun o => o.sent.length)).sum =
          (c + (stream_data_run (one_at_a_time reqs) v).2.countP DataOutcome.fed) / 10 ∧
        (stream_data_run (one_at_a_time reqs) v).1.sending = [] := by
  induction reqs with
  | nil =>
    intro v c hc hs hpc
    refine ⟨rfl, ?_, ?_, hs⟩
    · intro pre out post h
      exact absurd h (by simp [one_at_a_time, stream_data_run])
    · simp [one_at_a_time, stream_data_run]; omega
  | cons r rs ih =>
    intro v c hc hs hpc
    obtain ⟨v1, fed, hs1, hpc1, hrun⟩ := stream_pair_step r v c hc hs hpc
    have hrun1 := hrun (one_at_a_time rs)
    cases fed with
    | true =>
      simp only [if_true] at hpc1
      obtain ⟨hsock, hsplit, hsum, hfin⟩ :=
        ih v1 ((c + 1) % 10) (Nat.mod_lt _ (by decide)) hs1 hpc1
      simp only [one_at_a_time]
      rw [hrun1]
      refine ⟨?_, ?_, ?_, hfin⟩
      · simp only [List.map_cons, hsock]
      · intro pre out post h
        cases pre with
        | nil =>
          simp only [List.nil_append, List.cons.injEq] at h
          rw [← h.1]
          by_cases h9 : c = 9
          · subst h9; simp
          · have : ¬ ((c + 0 + 1) % 10 = 0) := by omega
            simp [h9, this]
        | cons p pre1 =>
          simp only [List.cons_append, List.cons.injEq] at h
          rw [hsplit pre1 out post h.2, ← h.1]
          have hiff : ((c + 1) % 10 + pre1.countP DataOutcome.fed + 1) % 10 = 0 ↔
              (c + (pre1.countP DataOutcome.fed + 1) + 1) % 10 = 0 := by omega
          simp only [List.countP_cons, if_true, hiff]
      · simp only [List.map_cons, List.sum_cons, hsum, List.countP_cons, if_true]
        by_cases h9 : c = 9
        · subst h9; simp; omega
        · simp [h9]; omega
    | false =>
      simp only [Bool.false_eq_true, if_false] at hpc1
      obtain ⟨hsock, hsplit, hsum, hfin⟩ := ih v1 c hc hs1 hpc1
      simp only [one_at_a_time]
      rw [hrun1]
      refine ⟨?_, ?_, ?_, hfin⟩
      · simp only [List.map_cons, hsock]
      · intro pre out post h
        cases pre with
        | nil =>
          simp only [List.nil_append, List.cons.injEq] at h
          rw [← h.1]
          simp
        | cons p pre1 =>
          simp only [List.cons_append, List.cons.injEq] at h
          rw [hsplit pre1 out post h.2, ← h.1]
          simp
      · simp [hsum]

/-- In every order of the events, a stream-data request is answered by nothing
or by the one byte `0xD5` to the socket it came from, and by nothing when its
payload was not fed with success. -/
theorem stream_data_run_sent (events : List StreamEvent) :
    ∀ (v : Serving) (out : DataOutcome), out ∈ (stream_data_run events v).2 →
      (out.sent = [] ∨ out.sent = [{ data := [0xD5], socket := out.socket }]) ∧
      (out.fed = false → out.sent = []) := by
  induction events with
  | nil =>
    intro v out h
    exact absurd h (by simp [stream_data_run])
  | cons e es ih =>
    intro v out h
    simp only [stream_data_run, List.mem_append] at h
    rcases h with h | h
    · cases e with
      | request r =>
        simp only [stream_event_step] at h
        by_cases hmem : r.socket ∈ v.sending
        · rw [if_pos hmem] at h
          exact absurd h (List.not_mem_nil _)
        · rw [if_neg hmem] at h
          simp only [List.mem_singleton] at h
          subst h
          simp only [stream_data_begin_eq]
          split_ifs <;> simp
      | sent socket =>
        simp only [stream_event_step] at h
        split_ifs at h <;> exact absurd h (List.not_mem_nil _)
    · exact ih _ out h

/-- C19, as claimed, fails: ten packets from socket 1 fed with success, and an
eleventh from socket 2 handled while the task of socket 1 is still inside the
`tcp_server_send` of its acknowledgement (`packet_count` is 10 then, and
becomes 11): the eleventh packet is acknowledged too, so 11 successful feeds
produce 2 acknowledgements. -/
theorem stream_data_ack_overlap_counterexample :
    gateway_receiving.station.packet_count = 0 ∧
    (stream_data_run overlapped_requests
        { gateway := gateway_receiving, sending := [] }).2.map (fun o => (o.fed, o.sent)) =
      [(true, []), (true, []), (true, []), (true, []), (true, []), (true, []),
        (true, []), (true, []), (true, []), (true, [{ data := [0xD5], socket := 1 }]),
        (true, [{ data := [0xD5], socket := 2 }])] ∧
    ((stream_data_run overlapped_requests
        { gateway := gateway_receiving, sending := [] }).2.map (fun o => o.sent.length)).sum = 2 ∧
    (stream_data_run overlapped_requests
        { gateway := gateway_receiving, sending := [] }).2.countP DataOutcome.fed / 10 = 1 := by
  refine ⟨rfl, by decide, by decide, by decide⟩

/-- C19, amended: starting from a zero counter with no send in progress, over
every sequence of stream-data requests (opcode `0xA4`; any payloads, sockets
and allocation outcomes, the other tasks changing the engine in between as
they like) that are handled one at a time, each to the end before the next,
a request gets a response exactly when its payload was fed with success and
it is the 10th, 20th, 30th, ... such request: then the one byte
`RESP_AUDIO_ACK` (`0xD5`) goes to the socket it came from; every other
request, also one whose feed failed, gets no response; so `n` successful
feeds produce `n / 10` acknowledgements.  In every order of the events, also
when requests of several connections overlap a send, a response is one byte
`0xD5` to the requesting socket, and none is sent for a request whose feed
failed. -/
theorem stream_data_ack_every_tenth (reqs : List DataRequest) (events : List StreamEvent)
    (g : Gateway) (v : Serving) (h0 : g.station.packet_count = 0) :
    (stream_data_run (one_at_a_time reqs) { gateway := g, sending := [] }).2.map
        DataOutcome.socket = reqs.map DataRequest.socket ∧
    (∀ pre out post,
      (stream_data_run (one_at_a_time reqs) { gateway := g, sending := [] }).2 =
        pre ++ out :: post →
      out.sent = if out.fed = true ∧ (pre.countP DataOutcome.fed + 1) % 10 = 0 then
        [{ data := [0xD5], socket := out.socket }] else []) ∧
    ((stream_data_run (one_at_a_time reqs) { gateway := g, sending := [] }).2.map
        (fun o => o.sent.length)).sum =
      (stream_data_run (one_at_a_time reqs) { gateway := g, sending := [] }).2.countP
        DataOutcome.fed / 10 ∧
    (∀ out ∈ (stream_data_run events v).2,
      (out.sent = [] ∨ out.sent = [{ data := [0xD5], socket := out.socket }]) ∧
      (out.fed = false → out.sent = [])) := by
  obtain ⟨hsock, hsplit, hsum, _⟩ :=
    stream_data_run_from reqs { gateway := g, sending := [] } 0 (by decide) rfl
      (by simpa using h0)
  refine ⟨hsock, ?_, by simpa using hsum, stream_data_run_sent events v⟩
  intro pre out post h
  simpa using hsplit pre out post h

/-- C19, amended, on twelve requests from socket 3 handled one at a time, each
fed with success (the consumer takes a packet before each): only the tenth is
acknowledged. -/
theorem stream_data_ack_every_tenth_witness :
    gateway_receiving.station.packet_count = 0 ∧
    (stream_data_run (one_at_a_time twelve_requests)
        { gateway := gateway_receiving, sending := [] }).2.map (fun o => (o.fed, o.sent)) =
      [(true, []), (true, []), (true, []), (true, []), (true, []), (true, []),
        (true, []), (true, []), (true, []), (true, [{ data := [0xD5], socket := 3 }]),
        (true, []), (true, [])] ∧
    ((stream_data_run (one_at_a_time twelve_requests)
        { gateway := gateway_receiving, sending := [] }).2.map (fun o => o.sent.length)).sum =
      (stream_data_run (one_at_a_time twelve_requests)
        { gateway := gateway_receiving, sending := [] }).2.countP DataOutcome.fed / 10 :=
  ⟨rfl, by decide,
    (stream_data_ack_every_tenth twelve_requests overlapped_requests gateway_receiving
      { gateway := gateway_receiving, sending := [] } rfl).2.2.1⟩

/-! ## C21, C30: status query and requests without payload -/

/-- C21: a query-status request (opcode `0xA2`) makes `tcp_data_callback`
return with exactly one call of `tcp_server_send`, to the socket of the
requesting connection, of the 3 bytes `[0xD4, n, a]`, where `n` is 1 if
`wifi_connected` and 0 otherwise, and `a` is 1 if `current_state` is
`AUDIO_STATE_RECEIVING` or `AUDIO_STATE_PLAYING` (`audio_is_playing`) and 0
otherwise; the whole gateway state is left as it was. -/
theorem tcp_query_status_reply (env : CallEnv) (rest : List Nat) (socket : Int) (g : Gateway) :
    tcp_data_callback env (0xA2 :: rest) socket g =
      some (g, [{ data := [0xD4, if g.station.wifi_connected = true then 1 else 0,
                           if g.engine.audio.current_state = AUDIO_STATE_RECEIVING ∨
                              g.engine.audio.current_state = AUDIO_STATE_PLAYING then 1 else 0],
                  socket := socket }]) ∧
    (audio_is_playing g.engine = true ↔
      (g.engine.audio.current_state = AUDIO_STATE_RECEIVING ∨
        g.engine.audio.current_state = AUDIO_STATE_PLAYING)) := by
  have hplay : audio_is_playing g.engine = true ↔
      (g.engine.audio.current_state = AUDIO_STATE_RECEIVING ∨
        g.engine.audio.current_state = AUDIO_STATE_PLAYING) := by
    unfold audio_is_playing
    cases g.engine.audio.current_state <;> simp
  refine ⟨?_, hplay⟩
  by_cases hp : g.engine.audio.current_state = AUDIO_STATE_RECEIVING ∨
      g.engine.audio.current_state = AUDIO_STATE_PLAYING
  · simp [tcp_data_callback, CMD_PLAY_AUDIO, CMD_AUDIO_STREAM_START, CMD_AUDIO_STREAM_DATA,
      CMD_AUDIO_STREAM_END, CMD_STOP_AUDIO, CMD_QUERY_STATUS, RESP_STATUS_OK, hplay.mpr hp, hp]
  · have hnp : audio_is_playing g.engine = false := by
      cases h : audio_is_playing g.engine with
      | false => rfl
      | true => exact absurd (hplay.mp h) hp
    simp [tcp_data_callback, CMD_PLAY_AUDIO, CMD_AUDIO_STREAM_START, CMD_AUDIO_STREAM_DATA,
      CMD_AUDIO_STREAM_END, CMD_STOP_AUDIO, CMD_QUERY_STATUS, RESP_STATUS_OK, hnp, hp]

/-- C30: a request of length 1 whose opcode is play-once-audio (`0xA1`) or
stream-data (`0xA4`), and a request of length 0, make `tcp_data_callback`
return with no call of `tcp_server_send` and the whole gateway state as it
was: `current_state`, the audio queue and `packet_count` are unchanged. -/
theorem tcp_empty_payload_ignored (env : CallEnv) (socket : Int) (g : Gateway) :
    tcp_data_callback env [0xA1] socket g = some (g, []) ∧
    tcp_data_callback env [0xA4] socket g = some (g, []) ∧
    tcp_data_callback env [] socket g = some (g, []) := by
  refine ⟨?_, ?_, ?_⟩ <;>
    simp [tcp_data_callback, CMD_PLAY_AUDIO, CMD_AUDIO_STREAM_START, CMD_AUDIO_STREAM_DATA]

/-! ## C29: the acknowledgement counter -/

/-- With the fuel it is given, `audio_stream_end` returns in every state and
whatever the other tasks do. -/
theorem audio_stream_end_returns (env : Nat → State → State) (s : State) :
    ∃ r, audio_stream_end env END_FUEL s = some r := by
  cases hi : s.audio.audio_initialized with
  | false => exact ⟨_, audio_stream_end_uninit env END_FUEL s hi⟩
  | true =>
    obtain ⟨w, hw, _⟩ :=
      audio_stream_end_wait_spec env (fun _ => True) (fun _ _ _ => trivial)
        END_FUEL s 0 0 (by decide) (by decide) trivial
    exact ⟨_, audio_stream_end_init env END_FUEL s w hi hw⟩

/-- A stream-data request is handled in the same way whatever the other tasks
would do during a delay: the call has no delay. -/
theorem stream_data_env (env : CallEnv) (payload : List Nat) (socket : Int) (g : Gateway) :
    tcp_data_callback env (CMD_AUDIO_STREAM_DATA :: payload) socket g =
      tcp_data_callback { malloc_ok := env.malloc_ok, others := stalled }
        (CMD_AUDIO_STREAM_DATA :: payload) socket g := by
  simp [tcp_data_callback, CMD_PLAY_AUDIO, CMD_AUDIO_STREAM_START, CMD_AUDIO_STREAM_DATA]

/-- Every request that is not a stream-data request with a payload is handled
to the end and leaves the router's statics, so `packet_count`, as they were. -/
theorem tcp_data_callback_other (env : CallEnv) (data : List Nat) (socket : Int) (g : Gateway)
    (h : ¬ (data.getD 0 0 = CMD_AUDIO_STREAM_DATA ∧ data.length > 1)) :
    ∃ g1 sent, tcp_data_callback env data socket g = some (g1, sent) ∧
      g1.station = g.station := by
  cases data with
  | nil => exact ⟨g, [], by simp [tcp_data_callback], rfl⟩
  | cons cmd rest =>
    simp only [List.getD_cons_zero, List.length_cons] at h
    by_cases h1 : cmd = CMD_PLAY_AUDIO
    · by_cases hl : rest.length > 0
      · exact ⟨{ g with engine := (audio_stream_feed (some rest) env.malloc_ok g.engine).1 },
          [{ data := [RESP_AUDIO_ACK], socket := socket }],
          by simp [tcp_data_callback, h1, hl], rfl⟩
      · exact ⟨g, [], by simp [tcp_data_callback, h1, hl], rfl⟩
    by_cases h3 : cmd = CMD_AUDIO_STREAM_START
    · by_cases hok : (audio_stream_start g.engine).2 = ESP_OK
      · exact ⟨{ g with engine := (audio_stream_start g.engine).1 },
          [{ data := [RESP_AUDIO_ACK], socket := socket }],
          by simp [tcp_data_callback, h3, hok, CMD_PLAY_AUDIO, CMD_AUDIO_STREAM_START], rfl⟩
      · exact ⟨{ g with engine := (audio_stream_start g.engine).1 },
          [{ data := [RESP_ERROR], socket := socket }],
          by simp [tcp_data_callback, h3, hok, CMD_PLAY_AUDIO, CMD_AUDIO_STREAM_START], rfl⟩
    by_cases h4 : cmd = CMD_AUDIO_STREAM_DATA
    · have hl : ¬ rest.length > 0 := fun hl => h ⟨h4, by omega⟩
      exact ⟨g, [], by simp [tcp_data_callback, h4, hl, CMD_PLAY_AUDIO, CMD_AUDIO_STREAM_START,
        CMD_AUDIO_STREAM_DATA], rfl⟩
    by_cases h5 : cmd = CMD_AUDIO_STREAM_END
    · obtain ⟨r, hr⟩ := audio_stream_end_returns env.others g.engine
      exact ⟨{ g with engine := r.state }, [{ data := [RESP_AUDIO_ACK], socket := socket }],
        by simp [tcp_data_callback, h5, hr, CMD_PLAY_AUDIO, CMD_AUDIO_STREAM_START,
          CMD_AUDIO_STREAM_DATA, CMD_AUDIO_STREAM_END], rfl⟩
    by_cases h0 : cmd = CMD_STOP_AUDIO
    · exact ⟨{ g with engine := (audio_stop (env.others 0) g.engine).1 },
        [{ data := [RESP_AUDIO_ACK], socket := socket }],
        by simp [tcp_data_callback, h0, CMD_PLAY_AUDIO, CMD_AUDIO_STREAM_START,
          CMD_AUDIO_STREAM_DATA, CMD_AUDIO_STREAM_END, CMD_STOP_AUDIO], rfl⟩
    by_cases h2 : cmd = CMD_QUERY_STATUS
    · exact ⟨g, [{ data := [RESP_STATUS_OK, if g.station.wifi_connected then 1 else 0,
                            if audio_is_playing g.engine then 1 else 0],
                   socket := socket }],
        by simp [tcp_data_callback, h2, CMD_PLAY_AUDIO, CMD_AUDIO_STREAM_START,
          CMD_AUDIO_STREAM_DATA, CMD_AUDIO_STREAM_END, CMD_STOP_AUDIO, CMD_QUERY_STATUS], rfl⟩
    by_cases h6 : cmd = CMD_DEVICE_DISCOVERY
    · exact ⟨g, [{ data := RESP_DEVICE_INFO :: device_name.take
                     (if device_name.length > 60 then 60 else device_name.length),
                   socket := socket }],
        by simp [tcp_data_callback, h6, CMD_PLAY_AUDIO, CMD_AUDIO_STREAM_START,
          CMD_AUDIO_STREAM_DATA, CMD_AUDIO_STREAM_END, CMD_STOP_AUDIO, CMD_QUERY_STATUS,
          CMD_DEVICE_DISCOVERY], rfl⟩
    exact ⟨g, [{ data := [RESP_ERROR], socket := socket }],
      by simp [tcp_data_callback, h1, h3, h4, h5, h0, h2, h6], rfl⟩

/-- One request of any kind met with the counter at `c < 10`: the callback
returns; a stream-data request whose payload is fed with success moves the
counter to `c + 1`, or to 0 with one acknowledgement to its own socket when
`c + 1` is 10; every other request leaves the counter at `c`. -/
theorem tcp_step_counter (env : CallEnv) (data : List Nat) (socket : Int) (g : Gateway)
    (c : Nat) (hc : c < 10) (hpc : g.station.packet_count = (c : Int)) :
    ∃ g1 sent, tcp_data_callback env data socket g = some (g1, sent) ∧
      (stream_data_fed env data g.engine = true →
        sent = (if c = 9 then [{ data := [0xD5], socket := socket }] else []) ∧
        g1.station.packet_count = (((c + 1) % 10 : Nat) : Int)) ∧
      (stream_data_fed env data g.engine = false → g1.station.packet_count = (c : Int)) := by
  by_cases hd : data.getD 0 0 = CMD_AUDIO_STREAM_DATA ∧ data.length > 1
  · cases data with
    | nil => simp at hd
    | cons cmd payload =>
      simp only [List.getD_cons_zero, List.length_cons] at hd
      obtain ⟨hcmd, hlen⟩ := hd
      subst hcmd
      have hpos : payload.length > 0 := by omega
      have hstep := stream_data_step env.malloc_ok payload socket g c hc hpc
      rw [stream_data_env]
      by_cases hok : (audio_stream_feed (some payload) env.malloc_ok g.engine).2 = ESP_OK
      · obtain ⟨g1, hg1, hpc1⟩ := hstep.1 ⟨hpos, hok⟩
        refine ⟨g1, _, hg1, fun _ => ⟨rfl, hpc1⟩, fun hf => ?_⟩
        simp [stream_data_fed, hok, hlen] at hf
      · obtain ⟨g1, hg1, hpc1⟩ := hstep.2 (fun h => hok h.2)
        refine ⟨g1, _, hg1, fun hf => ?_, fun _ => hpc1⟩
        simp [stream_data_fed, hok] at hf
  · obtain ⟨g1, sent, hg1, hst⟩ := tcp_data_callback_other env data socket g hd
    refine ⟨g1, sent, hg1, fun hf => ?_, fun _ => by rw [hst]; exact hpc⟩
    simp only [stream_data_fed, decide_eq_true_eq] at hf
    exact absurd ⟨hf.1, hf.2.1⟩ hd

/-- A run of requests of any kind that starts with the counter at `c < 10`: it
returns, with one outcome per request; before and after each request the
counter is `c` plus the number of successful stream-data feeds so far,
modulo 10; and a successful stream-data feed is acknowledged exactly when
that number reaches a multiple of 10. -/
theorem tcp_run_from (reqs : List Request) :
    ∀ (g : Gateway) (c : Nat), c < 10 → g.station.packet_count = (c : Int) →
      ∃ g1 outs, tcp_run reqs g = some (g1, outs) ∧
        outs.map Outcome.socket = reqs.map Request.socket ∧
        (∀ pre out post, outs = pre ++ out :: post →
          out.count_before = (((c + pre.countP Outcome.fed) % 10 : Nat) : Int) ∧
          out.count_after =
            (((c + pre.countP Outcome.fed + (if out.fed = true then 1 else 0)) % 10 : Nat) : Int) ∧
          (out.fed = true → out.sent =
            if (c + pre.countP Outcome.fed + 1) % 10 = 0 then
              [{ data := [0xD5], socket := out.socket }] else [])) := by
  induction reqs with
  | nil =>
    intro g c hc hpc
    refine ⟨g, [], rfl, rfl, ?_⟩
    intro pre out post h
    exact absurd h (by simp)
  | cons r rs ih =>
    intro g c hc hpc
    obtain ⟨g1, sent, hg1, hfed, hnot⟩ := tcp_step_counter r.env r.data r.socket
      { g with engine := r.others g.engine } c hc hpc
    cases hf : stream_data_fed r.env r.data (r.others g.engine) with
    | true =>
      obtain ⟨hsent, hpc1⟩ := hfed hf
      obtain ⟨g2, outs, hrun, hsock, hsplit⟩ :=
        ih g1 ((c + 1) % 10) (Nat.mod_lt _ (by decide)) hpc1
      refine ⟨g2, { fed := true, socket := r.socket, sent := sent,
                    count_before := g.station.packet_count,
                    count_after := g1.station.packet_count } :: outs, ?_, ?_, ?_⟩
      · simp only [tcp_run, hg1, hrun, hf]
      · simp only [List.map_cons, hsock]
      · intro pre out post h
        cases pre with
        | nil =>
          simp only [List.nil_append, List.cons.injEq] at h
          rw [← h.1]
          refine ⟨?_, ?_, fun _ => ?_⟩
          · simp only [List.countP_nil, Nat.add_zero, Nat.mod_eq_of_lt hc]; exact hpc
          · simp only [List.countP_nil, Nat.add_zero, if_true]; exact hpc1
          · rw [hsent]
            by_cases h9 : c = 9
            · subst h9; simp
            · have : ¬ ((c + 0 + 1) % 10 = 0) := by omega
              simp [h9, this]
        | cons p pre1 =>
          simp only [List.cons_append, List.cons.injEq] at h
          obtain ⟨h1, h2, h3⟩ := hsplit pre1 out post h.2
          rw [← h.1]
          simp only [List.countP_cons, if_true]
          refine ⟨?_, ?_, fun hfo => ?_⟩
          · rw [h1]; congr 1; omega
          · rw [h2]; congr 1; omega
          · rw [h3 hfo]
            have hiff : ((c + 1) % 10 + pre1.countP Outcome.fed + 1) % 10 = 0 ↔
                (c + (pre1.countP Outcome.fed + 1) + 1) % 10 = 0 := by omega
            simp only [hiff]
    | false =>
      have hpc1 := hnot hf
      obtain ⟨g2, outs, hrun, hsock, hsplit⟩ := ih g1 c hc hpc1
      refine ⟨g2, { fed := false, socket := r.socket, sent := sent,
                    count_before := g.station.packet_count,
                    count_after := g1.station.packet_count } :: outs, ?_, ?_, ?_⟩
      · simp only [tcp_run, hg1, hrun, hf]
      · simp only [List.map_cons, hsock]
      · intro pre out post h
        cases pre with
        | nil =>
          simp only [List.nil_append, List.cons.injEq] at h
          rw [← h.1]
          refine ⟨?_, ?_, fun hfo => ?_⟩
          · simp only [List.countP_nil, Nat.add_zero, Nat.mod_eq_of_lt hc]; exact hpc
          · simp only [List.countP_nil, Nat.add_zero, Bool.false_eq_true, if_false,
              Nat.mod_eq_of_lt hc]
            exact hpc1
          · simp at hfo
        | cons p pre1 =>
          simp only [List.cons_append, List.cons.injEq] at h
          obtain ⟨h1, h2, h3⟩ := hsplit pre1 out post h.2
          rw [← h.1]
          simp only [List.countP_cons, Bool.false_eq_true, if_false, Nat.add_zero]
          exact ⟨h1, h2, h3⟩

/-- C29: `packet_count` is one counter for the whole gateway, changed only by
stream-data requests whose payload is fed with success.  In every state, a
request of any other kind (stream-start, stream-end, stop-audio, play-once,
query, discovery, unknown, or stream-data without payload) is handled to the
end and leaves it unchanged.  Over every sequence of requests from any
connections, starting from a zero counter, the counter after each request is
the number of successful stream-data feeds so far modulo 10, whatever
sockets they came from and whatever other requests came in between, and the
acknowledgement for the 10th, 20th, ... such feed goes to the socket that
delivered that packet. -/
theorem ack_counter_process_wide (reqs : List Request) (g : Gateway)
    (h0 : g.station.packet_count = 0) :
    (∀ (env : CallEnv) (data : List Nat) (socket : Int) (g2 : Gateway),
      ¬ (data.getD 0 0 = 0xA4 ∧ data.length > 1) →
      ∃ g3 sent, tcp_data_callback env data socket g2 = some (g3, sent) ∧
        g3.station.packet_count = g2.station.packet_count) ∧
    ∃ g1 outs, tcp_run reqs g = some (g1, outs) ∧
      outs.map Outcome.socket = reqs.map Request.socket ∧
      (∀ pre out post, outs = pre ++ out :: post →
        out.count_after =
          (((pre.countP Outcome.fed + (if out.fed = true then 1 else 0)) % 10 : Nat) : Int) ∧
        (out.fed = false → out.count_after = out.count_before) ∧
        (out.fed = true → out.sent =
          if (pre.countP Outcome.fed + 1) % 10 = 0 then
            [{ data := [0xD5], socket := out.socket }] else [])) := by
  constructor
  · intro env data socket g2 hd
    obtain ⟨g3, sent, hg3, hst⟩ := tcp_data_callback_other env data socket g2 hd
    exact ⟨g3, sent, hg3, by rw [hst]⟩
  · obtain ⟨g1, outs, hrun, hsock, hsplit⟩ :=
      tcp_run_from reqs g 0 (by decide) (by simpa using h0)
    refine ⟨g1, outs, hrun, hsock, ?_⟩
    intro pre out post h
    obtain ⟨h1, h2, h3⟩ := hsplit pre out post h
    simp only [Nat.zero_add] at h1 h2 h3
    refine ⟨h2, fun hf => ?_, h3⟩
    rw [h1, h2, hf]
    simp

/-- C29 on the example: five packets, stop and start, then five more, the last
one from another connection; the only acknowledgement of a packet is for
that last one and goes to its socket 2. -/
theorem ack_counter_process_wide_witness :
    gateway_ready.station.packet_count = 0 ∧
    (tcp_run two_sessions gateway_ready).map
        (fun r => r.2.map (fun o => (o.fed, o.count_after, o.sent))) =
      some [(false, 0, [{ data := [0xD5], socket := 1 }]),
        (true, 1, []), (true, 2, []), (true, 3, []), (true, 4, []), (true, 5, []),
        (false, 5, [{ data := [0xD5], socket := 1 }]),
        (false, 5, [{ data := [0xD5], socket := 1 }]),
        (true, 6, []), (true, 7, []), (true, 8, []), (true, 9, []),
        (true, 0, [{ data := [0xD5], socket := 2 }])] ∧
    ∃ g1 outs, tcp_run two_sessions gateway_ready = some (g1, outs) ∧
      outs.map Outcome.socket = two_sessions.map Request.socket :=
  ⟨rfl, by decide,
    (ack_counter_process_wide two_sessions gateway_ready rfl).2.imp
      (fun _ h1 => h1.imp (fun _ h2 => ⟨h2.1, h2.2.1⟩))⟩

/-! ## C22: accepting a connection -/

/-- Writing slot `k` leaves every other entry of the array as it was. -/
theorem client_at_set_ne (clients : List client_info_t) (k i : Nat) (x : client_info_t)
    (h : i ≠ k) : client_at (clients.set k x) i = client_at clients i := by
  simp [client_at, List.getElem?_set_ne (Ne.symm h)]

/-- Writing slot `k` of the array puts the value there. -/
theorem client_at_set_self (clients : List client_info_t) (k : Nat) (x : client_info_t)
    (h : k < clients.length) : client_at (clients.set k x) k = x := by
  simp [client_at, List.getElem?_set, h]

/-- The search loop of `find_free_client_slot` over the indices `i` to
`i + n - 1`: it returns `-1` and all these slots are active, or it returns
the lowest of these indices whose slot is not active. -/
theorem find_free_client_slot_from_spec (clients : List client_info_t) :
    ∀ (n i : Nat),
      (find_free_client_slot_from clients n i = -1 ∧
        ∀ j, i ≤ j → j < i + n → (client_at clients j).active = true) ∨
      (∃ k, i ≤ k ∧ k < i + n ∧ find_free_client_slot_from clients n i = (k : Int) ∧
        (client_at clients k).active = false ∧
        ∀ j, i ≤ j → j < k → (client_at clients j).active = true) := by
  intro n
  induction n with
  | zero =>
    intro i
    exact Or.inl ⟨rfl, fun j h1 h2 => by omega⟩
  | succ n ih =>
    intro i
    unfold find_free_client_slot_from
    cases hact : (client_at clients i).active with
    | false =>
      exact Or.inr ⟨i, le_refl _, by omega, by simp, hact, fun j h1 h2 => by omega⟩
    | true =>
      simp only [Bool.not_true, Bool.false_eq_true, if_false]
      rcases ih (i + 1) with ⟨h1, h2⟩ | ⟨k, hk1, hk2, hk3, hk4, hk5⟩
      · refine Or.inl ⟨h1, fun j hj1 hj2 => ?_⟩
        by_cases hji : j = i
        · rw [hji]; exact hact
        · exact h2 j (by omega) (by omega)
      · refine Or.inr ⟨k, by omega, by omega, hk3, hk4, fun j hj1 hj2 => ?_⟩
        by_cases hji : j = i
        · rw [hji]; exact hact
        · exact hk5 j (by omega) hj2

/-- C22: for a newly accepted socket and an array `clients` of
`MAX_CONNECTIONS` = 5 slots.  When all 5 slots are active,
`find_free_client_slot` returns `-1` and the accept step only closes the new
socket: the array, so the (socket, active, address) content of each of the 5
slots, is unchanged.  When some slot is inactive, `find_free_client_slot`
returns the lowest index `k` of an inactive slot, the new connection is
stored in slot `k`, and every other slot, in particular every active slot,
is as before; the connection stays in slot `k` when its handler task is
created, and if the task cannot be created the new socket is closed and slot
`k` is inactive again. -/
theorem tcp_accept_frame (task_ok : Bool) (client_sock : Int) (client_addr : Nat)
    (clients : List client_info_t)
    (hsock : 0 ≤ client_sock) (hlen : clients.length = MAX_CONNECTIONS) :
    MAX_CONNECTIONS = 5 ∧
    ((∀ i, i < 5 → (client_at clients i).active = true) →
      find_free_client_slot clients = -1 ∧
      tcp_server_accept task_ok client_sock client_addr clients =
        { clients := clients, stored := none, closed := [client_sock], task := none }) ∧
    (∀ j, j < 5 → (client_at clients j).active = false →
      ∃ k, k ≤ j ∧ find_free_client_slot clients = (k : Int) ∧
        (client_at clients k).active = false ∧
        (∀ i, i < k → (client_at clients i).active = true) ∧
        (tcp_server_accept task_ok client_sock client_addr clients).stored =
          some (k, { socket := client_sock, active := true, addr := client_addr }) ∧
        (∀ i, i ≠ k →
          client_at (tcp_server_accept task_ok client_sock client_addr clients).clients i =
            client_at clients i) ∧
        (∀ i, (client_at clients i).active = true →
          client_at (tcp_server_accept task_ok client_sock client_addr clients).clients i =
            client_at clients i) ∧
        (task_ok = true →
          client_at (tcp_server_accept task_ok client_sock client_addr clients).clients k =
            { socket := client_sock, active := true, addr := client_addr } ∧
          (tcp_server_accept task_ok client_sock client_addr clients).closed = [] ∧
          (tcp_server_accept task_ok client_sock client_addr clients).task = some k) ∧
        (task_ok = false →
          client_at (tcp_server_accept task_ok client_sock client_addr clients).clients k =
            { socket := -1, active := false, addr := client_addr } ∧
          (tcp_server_accept task_ok client_sock client_addr clients).closed = [client_sock] ∧
          (tcp_server_accept task_ok client_sock client_addr clients).task = none)) := by
  have hns : ¬ client_sock < 0 := by omega
  have h5 : clients.length = 5 := hlen
  refine ⟨rfl, ?_, ?_⟩
  · intro hall
    have hfind : find_free_client_slot clients = -1 := by
      rcases find_free_client_slot_from_spec clients MAX_CONNECTIONS 0 with
        ⟨h1, _⟩ | ⟨k, _, hk2, _, hk4, _⟩
      · exact h1
      · have := hall k (by simpa [MAX_CONNECTIONS] using hk2)
        rw [this] at hk4; cases hk4
    refine ⟨hfind, ?_⟩
    simp [tcp_server_accept, hns, hfind]
  · intro j hj hinact
    rcases find_free_client_slot_from_spec clients MAX_CONNECTIONS 0 with
      ⟨_, h2⟩ | ⟨k, _, hk2, hk3, hk4, hk5⟩
    · have := h2 j (by omega) (by simpa [MAX_CONNECTIONS] using hj)
      rw [this] at hinact; cases hinact
    · have hk5' : ∀ i, i < k → (client_at clients i).active = true :=
        fun i hi => hk5 i (by omega) hi
      have hkj : k ≤ j := by
        by_contra hcon
        have := hk5' j (by omega)
        rw [this] at hinact; cases hinact
      have hfind : find_free_client_slot clients = (k : Int) := hk3
      have hklen : k < clients.length := by
        rw [h5]; simpa [MAX_CONNECTIONS] using hk2
      have hnneg : ¬ ((k : Int) < 0) := by omega
      refine ⟨k, hkj, hfind, hk4, hk5', ?_, ?_, ?_, ?_, ?_⟩
      · cases task_ok <;> simp [tcp_server_accept, hns, hfind, hnneg]
      · intro i hik
        cases task_ok <;>
          simp [tcp_server_accept, hns, hfind, hnneg, client_at_set_ne _ _ _ _ hik]
      · intro i hact
        have hik : i ≠ k := by
          intro e; rw [e, hk4] at hact; cases hact
        cases task_ok <;>
          simp [tcp_server_accept, hns, hfind, hnneg, client_at_set_ne _ _ _ _ hik]
      · intro ht
        subst ht
        simp [tcp_server_accept, hns, hfind, hnneg, client_at_set_self _ _ _ hklen]
      · intro ht
        subst ht
        have hklen2 : ∀ x : client_info_t, k < (clients.set k x).length := by
          intro x; rw [List.length_set]; exact hklen
        simp [tcp_server_accept, hns, hfind, hnneg, client_at_set_self _ _ _ hklen,
          client_at_set_self _ _ _ (hklen2 _)]

/-- C22 at concrete inputs: a sixth connection on a full table, and a fourth
connection on a table whose slots 1 and 3 are free. -/
theorem tcp_accept_frame_witness :
    ((0 : Int) ≤ 60 ∧ full_table.length = MAX_CONNECTIONS ∧
      partial_table.length = MAX_CONNECTIONS ∧
      (∀ i, i < 5 → (client_at full_table i).active = true) ∧
      (client_at partial_table 3).active = false) ∧
    tcp_server_accept true 60 200 full_table =
      { clients := full_table, stored := none, closed := [60], task := none } ∧
    find_free_client_slot partial_table = 1 ∧
    (tcp_server_accept true 60 200 partial_table).clients =
      [{ socket := 54, active := true, addr := 101 }, { socket := 60, active := true, addr := 200 },
       { socket := 56, active := true, addr := 103 }, { socket := -1, active := false, addr := 0 },
       { socket := 58, active := true, addr := 105 }] ∧
    ∃ k : Nat, k ≤ 3 ∧ find_free_client_slot partial_table = (k : Int) ∧
      (tcp_server_accept true 60 200 partial_table).stored =
        some (k, { socket := 60, active := true, addr := 200 }) :=
  ⟨⟨by decide, rfl, rfl, by decide, rfl⟩,
    ((tcp_accept_frame true 60 200 full_table (by decide) rfl).2.1 (by decide)).2,
    by decide, by decide,
    ((tcp_accept_frame true 60 200 partial_table (by decide) rfl).2.2 3 (by decide) rfl).imp
      (fun _ h => ⟨h.1, h.2.1, h.2.2.2.2.1⟩)⟩

/-! ## C23: broadcast send -/

/-- In an array in which every active entry has a socket that is not
negative, the same holds of every slot read with `client_at`. -/
theorem client_at_socket (clients : List client_info_t)
    (hinv : ∀ c ∈ clients, c.active = true → 0 ≤ c.socket) (i : Nat)
    (h : (client_at clients i).active = true) : 0 ≤ (client_at clients i).socket := by
  unfold client_at at h ⊢
  by_cases hi : i < clients.length
  · rw [List.getD_eq_getElem _ _ hi] at h ⊢
    exact hinv _ (List.getElem_mem hi) h
  · rw [List.getD_eq_default _ _ (by omega)] at h
    cases h

/-- The broadcast loop over the slots `i` to `i + n - 1`: one call of `send`
for each active slot, in index order, whatever the earlier calls returned,
and the positive results added to `total_sent`. -/
theorem tcp_server_send_loop_spec (send : Nat → Int) (clients : List client_info_t)
    (data : List Nat) (hinv : ∀ c ∈ clients, c.active = true → 0 ≤ c.socket) :
    ∀ (n i : Nat) (total_sent : Int),
      tcp_server_send_loop send clients data n i total_sent =
        (((List.range' i n).filter (fun j => (client_at clients j).active)).map
            (fun j => ((client_at clients j).socket, data)),
          total_sent +
            (((List.range' i n).filter (fun j => (client_at clients j).active)).map
              (fun j => if send j > 0 then send j else 0)).sum) := by
  intro n
  induction n with
  | zero => intro i total_sent; simp [tcp_server_send_loop]
  | succ n ih =>
    intro i total_sent
    rw [tcp_server_send_loop, List.range'_succ]
    cases hact : (client_at clients i).active with
    | true =>
      have hs : (client_at clients i).socket ≥ 0 := client_at_socket clients hinv i hact
      simp only [hs, and_self, if_true, ih, List.filter_cons, hact, List.map_cons,
        List.sum_cons]
      by_cases hpos : send i > 0
      · simp only [hpos, if_true, Int.add_assoc]
      · simp only [hpos, if_false, Int.zero_add]
    | false =>
      simp only [Bool.false_eq_true, false_and, if_false, ih, List.filter_cons, hact]

/-- C23: `tcp_server_send` with a negative target, on an array in which every
active slot holds an accepted (non-negative) socket, makes exactly one call
of `send`, with the data, for every active slot, in index order and whatever
the calls for the other slots return, and none for an inactive slot; it
returns the sum of the positive results of these calls, or `-1` when that
sum is 0 (no active slot, or no call returned a positive value). -/
theorem tcp_server_send_broadcast (send : Nat → Int) (send_one : Int)
    (clients : List client_info_t) (data : List Nat) (target : Int)
    (ht : target < 0) (hinv : ∀ c ∈ clients, c.active = true → 0 ≤ c.socket) :
    (tcp_server_send send send_one clients data target).1 =
      ((List.range MAX_CONNECTIONS).filter (fun i => (client_at clients i).active)).map
        (fun i => ((client_at clients i).socket, data)) ∧
    (tcp_server_send send send_one clients data target).2 =
      (if (((List.range MAX_CONNECTIONS).filter (fun i => (client_at clients i).active)).map
          (fun i => if send i > 0 then send i else 0)).sum = 0 then -1
       else (((List.range MAX_CONNECTIONS).filter (fun i => (client_at clients i).active)).map
          (fun i => if send i > 0 then send i else 0)).sum) := by
  have hloop := tcp_server_send_loop_spec send clients data hinv MAX_CONNECTIONS 0 0
  rw [← List.range_eq_range', Int.zero_add] at hloop
  unfold tcp_server_send
  rw [if_pos ht, hloop]
  by_cases hsum : (((List.range MAX_CONNECTIONS).filter
      (fun i => (client_at clients i).active)).map
      (fun i => if send i > 0 then send i else 0)).sum = 0
  · simp only [hsum, if_true, and_self]
  · simp only [hsum, if_false, and_self]

/-- C23 at concrete inputs: a broadcast of three bytes to five clients, the
send to slot 2 failing, reaches the other four and returns 12; to three
clients with every send failing, it tries all three and returns `-1`. -/
theorem tcp_server_send_broadcast_witness :
    ((-1 : Int) < 0 ∧ (∀ c ∈ full_table, c.active = true → 0 ≤ c.socket) ∧
      (∀ c ∈ partial_table, c.active = true → 0 ≤ c.socket)) ∧
    tcp_server_send one_send_fails 0 full_table [1, 2, 3] (-1) =
      ([(54, [1, 2, 3]), (55, [1, 2, 3]), (56, [1, 2, 3]), (57, [1, 2, 3]), (58, [1, 2, 3])],
        12) ∧
    tcp_server_send (fun _ => -1) 0 partial_table [1, 2, 3] (-1) =
      ([(54, [1, 2, 3]), (56, [1, 2, 3]), (58, [1, 2, 3])], -1) ∧
    (tcp_server_send one_send_fails 0 full_table [1, 2, 3] (-1)).1 =
      ((List.range MAX_CONNECTIONS).filter (fun i => (client_at full_table i).active)).map
        (fun i => ((client_at full_table i).socket, [1, 2, 3])) :=
  ⟨⟨by decide, by decide, by decide⟩, by decide, by decide,
    (tcp_server_send_broadcast one_send_fails 0 full_table [1, 2, 3] (-1) (by decide)
      (by decide)).1⟩

/-! ## C24, C27: the display node -/

/-- The two bytes read for a word give the word back. -/
theorem read_word (w : Nat) :
    (((read_dgus_vp w).getD 0 0 <<< 8) ||| (read_dgus_vp w).getD 1 0) % 65536 = w % 65536 := by
  have h : (read_dgus_vp w).getD 0 0 = (w / 256) % 256 ∧
      (read_dgus_vp w).getD 1 0 = w % 256 := by
    simp [read_dgus_vp]
  rw [h.1, h.2, shl8_or_eq_add _ _ (Nat.mod_lt _ (by decide))]
  omega

/-- The value `temp_total` of a call is `temp_int * 10 + temp_dec` in 16 bits. -/
theorem read_temp_total_eq (a b : Nat) : read_temp_total a b = temp_total_of a b := by
  unfold read_temp_total temp_total_of
  simp only [read_word]

/-- The fan section sets `fan_status` from `temp_total` and leaves the other
status variables and the counter alone. -/
theorem control_fan_spec (tt : Nat) (d : DisplayNode) :
    (control_fan tt d).fan_status = (if tt ≥ 280 then 1 else 0) ∧
    (control_fan tt d).buzzer_status = d.buzzer_status ∧
    (control_fan tt d).esp32_status = d.esp32_status ∧
    (control_fan tt d).temp_update_counter = d.temp_update_counter := by
  unfold control_fan Control_Fan_Direct
  simp only [TEMP_FAN_THRESHOLD]
  split_ifs <;> simp_all

/-- The buzzer section sets `buzzer_status` from `temp_total` and leaves the
other status variables and the counter alone. -/
theorem control_buzzer_spec (tt : Nat) (d : DisplayNode) :
    (control_buzzer tt d).1.buzzer_status = (if tt ≥ 350 then 1 else 0) ∧
    (control_buzzer tt d).1.fan_status = d.fan_status ∧
    (control_buzzer tt d).1.esp32_status = d.esp32_status ∧
    (control_buzzer tt d).1.temp_update_counter = d.temp_update_counter := by
  unfold control_buzzer
  simp only [TEMP_BUZZER_THRESHOLD]
  split_ifs <;> simp_all

/-- The notification section sets `esp32_status` from `temp_total` and leaves
the fan and buzzer status alone. -/
theorem notify_esp32_spec (tt : Nat) (d : DisplayNode) :
    (notify_esp32 tt d).1.esp32_status = esp32_status_of tt ∧
    (notify_esp32 tt d).1.fan_status = d.fan_status ∧
    (notify_esp32 tt d).1.buzzer_status = d.buzzer_status := by
  unfold notify_esp32 esp32_status_of
  simp only [TEMP_ESP32_THRESHOLD1, TEMP_ESP32_THRESHOLD2]
  split_ifs <;> simp_all

/-- The notification section when the status changes: one transition frame
with the opcode of the new status, and the counter back at 0. -/
theorem notify_esp32_changed (tt : Nat) (d : DisplayNode)
    (h : esp32_status_of tt ≠ d.esp32_status) :
    (notify_esp32 tt d).2 =
      Send_Command_To_ESP32_With_Temp
        (if esp32_status_of tt = 2 then 0xE2 else if esp32_status_of tt = 1 then 0xE1 else 0xE0)
        tt ∧
    (notify_esp32 tt d).1.temp_update_counter = 0 := by
  unfold esp32_status_of at h
  unfold notify_esp32 esp32_status_of
  simp only [TEMP_ESP32_THRESHOLD1, TEMP_ESP32_THRESHOLD2, CMD_TEMP_THRESHOLD1,
    CMD_TEMP_THRESHOLD2, CMD_TEMP_NORMAL]
  rw [if_pos h]
  split_ifs <;> simp_all

/-- The notification section when the status does not change and the counter
is below 10: the counter goes up by one, and on reaching 10 a periodic-update
frame is sent and the counter goes back to 0. -/
theorem notify_esp32_same (tt : Nat) (d : DisplayNode) (c : Nat)
    (h : esp32_status_of tt = d.esp32_status) (hc : d.temp_update_counter = c) (hlt : c < 10) :
    (notify_esp32 tt d).2 =
      (if c = 9 then Send_Command_To_ESP32_With_Temp 0xE3 tt else []) ∧
    (notify_esp32 tt d).1.temp_update_counter = (c + 1) % 10 ∧
    (notify_esp32 tt d).1.esp32_status = d.esp32_status := by
  unfold esp32_status_of at h
  unfold notify_esp32
  simp only [TEMP_ESP32_THRESHOLD1, TEMP_ESP32_THRESHOLD2, CMD_TEMP_UPDATE]
  rw [if_neg (not_not.mpr h), hc]
  have hmod : (c + 1) % 65536 = c + 1 := by omega
  rw [hmod]
  by_cases h9 : c = 9
  · subst h9; simp
  · have hlt2 : ¬ (c + 1 ≥ 10) := by omega
    rw [if_neg hlt2, if_neg h9]
    refine ⟨rfl, ?_, rfl⟩
    show c + 1 = (c + 1) % 10
    omega

/-- C24: after every call of `Check_Temperature_And_Control_Devices`, with
`temp_total = temp_int * 10 + temp_dec` computed in 16 bits from the two
words read, `fan_status` is 1 if `temp_total >= 280` and 0 otherwise,
`buzzer_status` is 1 if `temp_total >= 350` and 0 otherwise, and
`esp32_status` is 2 if `temp_total >= 350`, 1 if `280 <= temp_total < 350`
and 0 if `temp_total < 280`, whatever the variables were before. -/
theorem display_threshold_classification (temp_int temp_dec : Nat) (d : DisplayNode)
    (hi : temp_int < 65536) (hd : temp_dec < 65536) :
    ((Check_Temperature_And_Control_Devices temp_int temp_dec d).node.fan_status = 1 ↔
      (temp_int * 10 + temp_dec) % 65536 ≥ 280) ∧
    ((Check_Temperature_And_Control_Devices temp_int temp_dec d).node.fan_status = 0 ↔
      (temp_int * 10 + temp_dec) % 65536 < 280) ∧
    ((Check_Temperature_And_Control_Devices temp_int temp_dec d).node.buzzer_status = 1 ↔
      (temp_int * 10 + temp_dec) % 65536 ≥ 350) ∧
    ((Check_Temperature_And_Control_Devices temp_int temp_dec d).node.buzzer_status = 0 ↔
      (temp_int * 10 + temp_dec) % 65536 < 350) ∧
    ((temp_int * 10 + temp_dec) % 65536 ≥ 350 →
      (Check_Temperature_And_Control_Devices temp_int temp_dec d).node.esp32_status = 2) ∧
    (280 ≤ (temp_int * 10 + temp_dec) % 65536 ∧ (temp_int * 10 + temp_dec) % 65536 < 350 →
      (Check_Temperature_And_Control_Devices temp_int temp_dec d).node.esp32_status = 1) ∧
    ((temp_int * 10 + temp_dec) % 65536 < 280 →
      (Check_Temperature_And_Control_Devices temp_int temp_dec d).node.esp32_status = 0) := by
  have htt : temp_total_of temp_int temp_dec = (temp_int * 10 + temp_dec) % 65536 := by
    unfold temp_total_of
    rw [Nat.mod_eq_of_lt hi, Nat.mod_eq_of_lt hd]
  have hfan : (Check_Temperature_And_Control_Devices temp_int temp_dec d).node.fan_status =
      (if (temp_int * 10 + temp_dec) % 65536 ≥ 280 then 1 else 0) := by
    unfold Check_Temperature_And_Control_Devices
    simp only [read_temp_total_eq]
    rw [(notify_esp32_spec _ _).2.1, (control_buzzer_spec _ _).2.1, (control_fan_spec _ _).1, htt]
  have hbuz : (Check_Temperature_And_Control_Devices temp_int temp_dec d).node.buzzer_status =
      (if (temp_int * 10 + temp_dec) % 65536 ≥ 350 then 1 else 0) := by
    unfold Check_Temperature_And_Control_Devices
    simp only [read_temp_total_eq]
    rw [(notify_esp32_spec _ _).2.2, (control_buzzer_spec _ _).1, htt]
  have hesp : (Check_Temperature_And_Control_Devices temp_int temp_dec d).node.esp32_status =
      esp32_status_of ((temp_int * 10 + temp_dec) % 65536) := by
    unfold Check_Temperature_And_Control_Devices
    simp only [read_temp_total_eq]
    rw [(notify_esp32_spec _ _).1, htt]
  rw [hfan, hbuz, hesp]
  unfold esp32_status_of
  generalize (temp_int * 10 + temp_dec) % 65536 = tt
  refine ⟨?_, ?_, ?_, ?_, ?_, ?_, ?_⟩
  · by_cases h : tt ≥ 280 <;> simp [h]
  · by_cases h : tt ≥ 280
    · simp [h]
    · simp [h]; omega
  · by_cases h : tt ≥ 350 <;> simp [h]
  · by_cases h : tt ≥ 350
    · simp [h]
    · simp [h]; omega
  · intro h; simp [h]
  · intro h
    have h1 : ¬ tt ≥ 350 := by omega
    simp [h1, h.1]
  · intro h
    have h1 : ¬ tt ≥ 350 := by omega
    have h2 : ¬ tt ≥ 280 := by omega
    simp [h1, h2]

/-- C24 at concrete inputs: 27.9, 28.0, 34.9 and 35.0 degrees, from a display
whose fan and buzzer are on. -/
theorem display_threshold_classification_witness :
    ((27 : Nat) < 65536 ∧ (9 : Nat) < 65536) ∧
    ((Check_Temperature_And_Control_Devices 27 9
        { fan_status := 1, buzzer_status := 1, esp32_status := 2, temp_update_counter := 3,
          FAN := 0 }).node.fan_status = 0 ↔ (27 * 10 + 9) % 65536 < 280) ∧
    (Check_Temperature_And_Control_Devices 28 0 display_boot).node =
      { fan_status := 1, buzzer_status := 0, esp32_status := 1, temp_update_counter := 0,
        FAN := 0 } ∧
    (Check_Temperature_And_Control_Devices 34 9 display_boot).node.esp32_status = 1 ∧
    (Check_Temperature_And_Control_Devices 35 0 display_boot).node =
      { fan_status := 1, buzzer_status := 1, esp32_status := 2, temp_update_counter := 0,
        FAN := 0 } :=
  ⟨⟨by decide, by decide⟩,
    (display_threshold_classification 27 9 _ (by decide) (by decide)).2.1,
    by decide, by decide, by decide⟩

/-- The notification section sends nothing or one frame. -/
theorem notify_esp32_frame (tt : Nat) (d : DisplayNode) :
    (notify_esp32 tt d).2 = [] ∨
    ∃ op, (notify_esp32 tt d).2 = Send_Command_To_ESP32_With_Temp op tt := by
  by_cases h : esp32_status_of tt = d.esp32_status
  · unfold esp32_status_of at h
    unfold notify_esp32
    simp only [TEMP_ESP32_THRESHOLD1, TEMP_ESP32_THRESHOLD2]
    rw [if_neg (not_not.mpr h)]
    by_cases hc : (d.temp_update_counter + 1) % 65536 ≥ 10
    · rw [if_pos hc]; exact Or.inr ⟨_, rfl⟩
    · rw [if_neg hc]; exact Or.inl rfl
  · exact Or.inr ⟨_, (notify_esp32_changed tt d h).1⟩

/-- What a call sends to the gateway is what its notification section sends,
and that section meets the status and the counter as they were before the
call. -/
theorem check_to_esp32 (a b : Nat) (d : DisplayNode) :
    ∃ d2 : DisplayNode, d2.esp32_status = d.esp32_status ∧
      d2.temp_update_counter = d.temp_update_counter ∧
      (Check_Temperature_And_Control_Devices a b d).to_esp32 =
        (notify_esp32 (temp_total_of a b) d2).2 ∧
      (Check_Temperature_And_Control_Devices a b d).node =
        (notify_esp32 (temp_total_of a b) d2).1 := by
  refine ⟨(control_buzzer (temp_total_of a b) (control_fan (temp_total_of a b) d)).1, ?_, ?_,
    ?_, ?_⟩
  · rw [(control_buzzer_spec _ _).2.2.1, (control_fan_spec _ _).2.2.1]
  · rw [(control_buzzer_spec _ _).2.2.2, (control_fan_spec _ _).2.2.2]
  · unfold Check_Temperature_And_Control_Devices
    simp only [read_temp_total_eq]
  · unfold Check_Temperature_And_Control_Devices
    simp only [read_temp_total_eq]

/-- Calls on readings that all give the status the display already has, from a
counter `c < 10`: call number `k + 1` sends the periodic-update frame of its
reading when `c + k + 1` is a multiple of 10, and nothing otherwise. -/
theorem check_run_same (readings : List (Nat × Nat)) :
    ∀ (d : DisplayNode) (c k : Nat),
      (∀ r ∈ readings, esp32_status_of (temp_total_of r.1 r.2) = d.esp32_status) →
      d.temp_update_counter = c → c < 10 →
      (check_run readings d).2[k]? =
        (readings[k]?).map (fun r =>
          if (c + k + 1) % 10 = 0 then
            Send_Command_To_ESP32_With_Temp 0xE3 (temp_total_of r.1 r.2)
          else []) := by
  induction readings with
  | nil => intro d c k _ _ _; simp [check_run]
  | cons r rs ih =>
    intro d c k hst hc hlt
    obtain ⟨d2, h1, h2, h3, h4⟩ := check_to_esp32 r.1 r.2 d
    have hsame := notify_esp32_same (temp_total_of r.1 r.2) d2 c
      (by rw [h1]; exact hst r (List.mem_cons_self _ _)) (by rw [h2]; exact hc) hlt
    cases k with
    | zero =>
      simp only [check_run, List.getElem?_cons_zero, Option.map_some', h3, hsame.1]
      by_cases h9 : c = 9
      · subst h9; simp
      · have : ¬ ((c + 0 + 1) % 10 = 0) := by omega
        simp [h9, this]
    | succ k =>
      simp only [check_run, List.getElem?_cons_succ]
      rw [ih (Check_Temperature_And_Control_Devices r.1 r.2 d).node ((c + 1) % 10) k
        (by
          intro x hx
          rw [h4, hsame.2.2, h1]
          exact hst x (List.mem_cons_of_mem _ hx))
        (by rw [h4]; exact hsame.2.1) (Nat.mod_lt _ (by decide))]
      have hiff : ((c + 1) % 10 + k + 1) % 10 = 0 ↔ (c + (k + 1) + 1) % 10 = 0 := by omega
      simp only [hiff]

/-- C27: every call of `Check_Temperature_And_Control_Devices` sends nothing
or exactly one 3-byte frame to the gateway.  A call in which the status
changes sends exactly the transition frame `[op, high, low]` of `temp_total`
with `op` the opcode of the new status (`0xE0` for 0, `0xE1` for 1, `0xE2`
for 2), and leaves the update counter at 0.  Over consecutive calls in which
the status does not change, starting with the counter at `c < 10` (it is 0
after every sent frame), call number `k + 1` sends the periodic-update frame
`0xE3` of its reading exactly when `c + k + 1` is a multiple of 10, so with
`c = 0` on every 10th call, and no other call sends anything. -/
theorem display_notification_cadence (temp_int temp_dec : Nat) (d : DisplayNode)
    (readings : List (Nat × Nat)) (e : DisplayNode) (c : Nat)
    (hst : ∀ r ∈ readings, esp32_status_of (temp_total_of r.1 r.2) = e.esp32_status)
    (hc : e.temp_update_counter = c) (hlt : c < 10) :
    ((Check_Temperature_And_Control_Devices temp_int temp_dec d).to_esp32 = [] ∨
      (Check_Temperature_And_Control_Devices temp_int temp_dec d).to_esp32.length = 3) ∧
    (esp32_status_of (temp_total_of temp_int temp_dec) ≠ d.esp32_status →
      (Check_Temperature_And_Control_Devices temp_int temp_dec d).to_esp32 =
        [if esp32_status_of (temp_total_of temp_int temp_dec) = 2 then 0xE2
          else if esp32_status_of (temp_total_of temp_int temp_dec) = 1 then 0xE1 else 0xE0,
         temp_total_of temp_int temp_dec / 256, temp_total_of temp_int temp_dec % 256] ∧
      (Check_Temperature_And_Control_Devices temp_int temp_dec d).node.esp32_status =
        esp32_status_of (temp_total_of temp_int temp_dec) ∧
      (Check_Temperature_And_Control_Devices temp_int temp_dec d).node.temp_update_counter = 0) ∧
    (∀ k, (check_run readings e).2[k]? =
      (readings[k]?).map (fun r =>
        if (c + k + 1) % 10 = 0 then
          [0xE3, temp_total_of r.1 r.2 / 256, temp_total_of r.1 r.2 % 256]
        else [])) := by
  have hlt16 : ∀ a b, temp_total_of a b < 65536 := fun a b => Nat.mod_lt _ (by decide)
  obtain ⟨d2, h1, h2, h3, h4⟩ := check_to_esp32 temp_int temp_dec d
  refine ⟨?_, ?_, ?_⟩
  · rw [h3]
    rcases notify_esp32_frame (temp_total_of temp_int temp_dec) d2 with h | ⟨op, h⟩
    · exact Or.inl h
    · exact Or.inr (by rw [h]; rfl)
  · intro hne
    have hch := notify_esp32_changed (temp_total_of temp_int temp_dec) d2 (by rw [h1]; exact hne)
    refine ⟨?_, ?_, ?_⟩
    · rw [h3, hch.1]
      apply send_command_bytes _ _ _ (hlt16 _ _)
      split_ifs <;> decide
    · rw [h4]; exact (notify_esp32_spec _ _).1
    · rw [h4]; exact hch.2
  · intro k
    rw [check_run_same readings e c k hst hc hlt]
    congr 1
    funext r
    rw [send_command_bytes 0xE3 _ (by decide) (hlt16 _ _)]

/-- C27 at concrete inputs: from boot at 25.3 degrees the tenth call sends the
first periodic update; a reading of 28.0 degrees then sends a transition
frame at once and the count starts again. -/
theorem display_notification_cadence_witness :
    ((∀ r ∈ ten_readings, esp32_status_of (temp_total_of r.1 r.2) = display_boot.esp32_status) ∧
      display_boot.temp_update_counter = 0 ∧ (0 : Nat) < 10 ∧
      esp32_status_of (temp_total_of 28 0) ≠ display_boot.esp32_status) ∧
    (check_run ten_readings display_boot).2 =
      [[], [], [], [], [], [], [], [], [], [0xE3, 0, 253]] ∧
    (Check_Temperature_And_Control_Devices 28 0 display_boot).to_esp32 = [0xE1, 1, 24] ∧
    (check_run ten_readings display_boot).2[9]? =
      (ten_readings[9]?).map (fun r =>
        if (0 + 9 + 1) % 10 = 0 then
          [0xE3, temp_total_of r.1 r.2 / 256, temp_total_of r.1 r.2 % 256]
        else []) :=
  ⟨⟨by decide, rfl, by decide, by decide⟩, by decide,
    ((display_notification_cadence 28 0 display_boot ten_readings display_boot 0 (by decide) rfl
      (by decide)).2.1 (by decide)).1.trans (by decide),
    (display_notification_cadence 28 0 display_boot ten_readings display_boot 0 (by decide) rfl
      (by decide)).2.2 9⟩

/-! ## Packet buffers: who owns them -/

/-- The tracked `audio_stream_start` is `audio_stream_start` on the statics. -/
theorem owned_start_erase (o : Owned) (s : State) (h : s.audio = o.erase) :
    (audio_stream_start s).1.audio = (owned_start o).1.erase ∧
    (audio_stream_start s).2 = (owned_start o).2 := by
  obtain ⟨a, u⟩ := s
  obtain ⟨cs, q, ini, hd, al, fr⟩ := o
  simp only [Owned.erase] at h
  subst h
  cases ini
  · simp [audio_stream_start, owned_start, Owned.erase]
  · simp [audio_stream_start, owned_start, Owned.erase, xQueueReset]

/-- The tracked `audio_stop` is `audio_stop` on the statics, when no other task
runs during the call. -/
theorem owned_stop_erase (o : Owned) (s : State) (h : s.audio = o.erase) :
    (audio_stop (fun t => t) s).1.audio = (owned_stop o).1.erase ∧
    (audio_stop (fun t => t) s).2 = (owned_stop o).2 := by
  obtain ⟨a, u⟩ := s
  obtain ⟨cs, q, ini, hd, al, fr⟩ := o
  simp only [Owned.erase] at h
  subst h
  cases ini
  · simp [audio_stop, owned_stop, Owned.erase]
  · simp [audio_stop, owned_stop, Owned.erase, xQueueReset]

/-- The tracked `audio_stream_feed` is `audio_stream_feed` on the statics. -/
theorem owned_feed_erase (data : Option (List Nat)) (malloc_ok : Bool) (o : Owned) (s : State)
    (h : s.audio = o.erase) :
    (audio_stream_feed data malloc_ok s).1.audio = (owned_feed data malloc_ok o).1.erase ∧
    (audio_stream_feed data malloc_ok s).2 = (owned_feed data malloc_ok o).2 := by
  obtain ⟨a, u⟩ := s
  obtain ⟨cs, q, ini, hd, al, fr⟩ := o
  simp only [Owned.erase] at h
  subst h
  cases ini
  · simp [audio_stream_feed, owned_feed, Owned.erase]
  · cases data with
    | none => cases cs <;> simp [audio_stream_feed, owned_feed, Owned.erase]
    | some bytes =>
      by_cases hlen : bytes.length = 0
      · cases cs <;> simp [audio_stream_feed, owned_feed, Owned.erase, hlen]
      · cases malloc_ok
        · cases cs <;> simp [audio_stream_feed, owned_feed, Owned.erase, hlen]
        · by_cases hfull : q.length < AUDIO_QUEUE_LENGTH
          · cases cs <;>
              simp [audio_stream_feed, owned_feed, Owned.erase, hlen, xQueueSend, hfull]
          · cases cs <;>
              simp [audio_stream_feed, owned_feed, Owned.erase, hlen, xQueueSend, hfull]

/-- Stopping with a packet in the queue whose buffer is live leaves that
buffer allocated, not freed, not queued and not held. -/
theorem owned_stop_leaks (o : Owned) (p : OwnedPacket) (hi : o.audio_initialized = true)
    (_hp : p ∈ o.audio_queue) (ha : p.buffer < o.allocated) (hf : p.buffer ∉ o.freed)
    (hh : o.held.map OwnedPacket.buffer ≠ some p.buffer) :
    p.buffer ∈ leaked (owned_stop o).1 := by
  have hheld : ∀ x : OwnedPacket, o.held = some x → ¬x.buffer = p.buffer := by
    intro x hx hb
    apply hh
    rw [hx, Option.map_some', hb]
  simp [owned_stop, hi, leaked, xQueueReset, List.mem_filter, List.mem_range, ha, hf]
  exact hheld

/-- C25, code: the buffer of a packet that is still queued when `audio_stop`
or `audio_stream_start` resets the queue is never passed to `free`.  After
start, one accepted feed and stop, buffer 0 is allocated, not freed, not in
the queue and not held by the consumer task; the same after start, two feeds
and a second start, for buffers 0 and 1.  The other paths do release: a packet
dropped on a full queue is freed at once, and packets taken by the consumer
task are freed after playing. -/
theorem queue_reset_leaks_buffers :
    owned_run [OwnedOp.start, OwnedOp.feed (some [1, 2]) true, OwnedOp.stop] owned_ready =
      { current_state := AUDIO_STATE_IDLE, audio_queue := [], audio_initialized := true,
        held := none, allocated := 1, freed := [] } ∧
    leaked (owned_run [OwnedOp.start, OwnedOp.feed (some [1, 2]) true, OwnedOp.stop]
      owned_ready) = [0] ∧
    leaked (owned_run [OwnedOp.start, OwnedOp.feed (some [1, 2]) true,
      OwnedOp.feed (some [3]) true, OwnedOp.start] owned_ready) = [0, 1] ∧
    leaked (owned_run [OwnedOp.start, OwnedOp.feed (some [1, 2]) true,
      OwnedOp.feed (some [3]) true, OwnedOp.receive, OwnedOp.release, OwnedOp.receive,
      OwnedOp.stream_end, OwnedOp.release] owned_ready) = [] ∧
    (owned_run (OwnedOp.start :: (List.range 11).map (fun i => OwnedOp.feed (some [i]) true))
      owned_ready).freed = [10] ∧
    leaked (owned_run (OwnedOp.start :: (List.range 11).map
      (fun i => OwnedOp.feed (some [i]) true)) owned_ready) = [] := by
  refine ⟨by decide, by decide, by decide, by decide, by decide, by decide⟩

/-! ## Sub-zero readings -/

/-- The word the display node reads back from a frame of `Send_DWIN_Int16` is
the value sent, as an unsigned 16-bit word. -/
theorem dwin_frame_word_send (vp value : Nat) :
    dwin_frame_word (Send_DWIN_Int16 vp value) = value % 65536 := by
  have h6 : (Send_DWIN_Int16 vp value).getD 6 0 = ((value % 65536) >>> 8) &&& 0xFF := by
    simp [Send_DWIN_Int16]
  have h7 : (Send_DWIN_Int16 vp value).getD 7 0 = (value % 65536) &&& 0xFF := by
    simp [Send_DWIN_Int16]
  rw [dwin_frame_word, h6, h7, and_255_eq_mod, and_255_eq_mod, shr8_eq_div]
  omega

/-- For a sub-zero 16-bit reading the display node computes the reading plus
65536 as `temp_total`. -/
theorem subzero_total (v : Int) (h1 : -32768 ≤ v) (h2 : v < 0) :
    ((temp_total_of (dwin_frame_word (sensor_frames v).1)
      (dwin_frame_word (sensor_frames v).2) : Nat) : Int) = v + 65536 := by
  unfold sensor_frames
  simp only [dwin_frame_word_send]
  unfold temp_total_of int_to_u16
  have hq := Int.tmod_add_tdiv v 10
  generalize v.tdiv 10 = q at hq
  generalize v.tmod 10 = r at hq
  omega

/-- For a reading from 0 up the display node computes the reading itself. -/
theorem nonneg_total (v : Int) (h1 : 0 ≤ v) (h2 : v < 32768) :
    ((temp_total_of (dwin_frame_word (sensor_frames v).1)
      (dwin_frame_word (sensor_frames v).2) : Nat) : Int) = v := by
  unfold sensor_frames
  simp only [dwin_frame_word_send]
  unfold temp_total_of int_to_u16
  have hq := Int.tmod_add_tdiv v 10
  have hr := Int.tmod_nonneg 10 h1
  have hr2 : v.tmod 10 < 10 := Int.tmod_lt_of_pos v (by norm_num)
  generalize v.tdiv 10 = q at hq
  generalize v.tmod 10 = r at hq hr hr2
  omega

/-- Every sub-zero 16-bit reading switches the fan and the buzzer on and sets
the ESP32 status to 2, whatever the display node's state was. -/
theorem subzero_reading_all (v : Int) (h1 : -32768 ≤ v) (h2 : v < 0) (d : DisplayNode) :
    (check_reading v d).node.fan_status = 1 ∧
    (check_reading v d).node.buzzer_status = 1 ∧
    (check_reading v d).node.esp32_status = 2 := by
  have ht := subzero_total v h1 h2
  have hge : 350 ≤ temp_total_of (dwin_frame_word (sensor_frames v).1)
      (dwin_frame_word (sensor_frames v).2) := by omega
  unfold check_reading Check_Temperature_And_Control_Devices
  simp only [read_temp_total_eq]
  generalize temp_total_of (dwin_frame_word (sensor_frames v).1)
      (dwin_frame_word (sensor_frames v).2) = tt at hge
  have hf := control_fan_spec tt d
  have hb := control_buzzer_spec tt (control_fan tt d)
  have hn := notify_esp32_spec tt (control_buzzer tt (control_fan tt d)).1
  have h280 : tt ≥ 280 := by omega
  refine ⟨?_, ?_, ?_⟩
  · show (notify_esp32 tt (control_buzzer tt (control_fan tt d)).1).1.fan_status = 1
    rw [hn.2.1, hb.2.1, hf.1, if_pos h280]
  · show (notify_esp32 tt (control_buzzer tt (control_fan tt d)).1).1.buzzer_status = 1
    rw [hn.2.2, hb.1, if_pos hge]
  · show (notify_esp32 tt (control_buzzer tt (control_fan tt d)).1).1.esp32_status = 2
    rw [hn.1]
    unfold esp32_status_of
    rw [if_pos hge]

/-- C26, code: a sub-zero reading raises the alarm.  For the reading -0.5 C
(`temp_value = -5`) the sensor node sends the words 0 and 0xFFFB, the display
node computes `temp_total = 65531`, and from the state after boot it switches
the fan on (pin low), tells the sensor node to sound the buzzer (0xB1) and
sends the threshold-2 frame `E2 FF FB` to the ESP32; the same for -1.5 C. -/
theorem subzero_reading_alarm :
    sensor_frames (-5) =
      ([0x5A, 0xA5, 0x05, 0x82, 0x50, 0x00, 0x00, 0x00],
       [0x5A, 0xA5, 0x05, 0x82, 0x50, 0x01, 0xFF, 0xFB]) ∧
    check_reading (-5) display_boot =
      { node := { fan_status := 1, buzzer_status := 1, esp32_status := 2,
                  temp_update_counter := 0, FAN := 0 },
        to_c51 := [0xB1], to_esp32 := [0xE2, 0xFF, 0xFB] } ∧
    (check_reading (-15) display_boot).node.fan_status = 1 ∧
    (check_reading (-15) display_boot).node.buzzer_status = 1 ∧
    (check_reading (-15) display_boot).node.esp32_status = 2 ∧
    (check_reading (-15) display_boot).to_esp32 = [0xE2, 0xFF, 0xF1] := by
  refine ⟨by decide, by decide, by decide, by decide, by decide, by decide⟩

/-! ## The call at startup -/

/-- C28, code: the call at startup sends nothing for a reading below 28.0 C.
From the state after boot (status 0, counter 0) the reading 25.3 C leaves the
status unchanged, so no frame goes to the ESP32 and the counter becomes 1; the
first frame is the periodic update `E3 00 FD` of the tenth call.  Only a
reading from 28.0 C up is reported by the first call. -/
theorem startup_call_sends_nothing :
    (Check_Temperature_And_Control_Devices 25 3 display_boot).to_esp32 = [] ∧
    (Check_Temperature_And_Control_Devices 25 3 display_boot).node.temp_update_counter = 1 ∧
    (Check_Temperature_And_Control_Devices 0 0 display_boot).to_esp32 = [] ∧
    (check_run ten_readings display_boot).2 =
      [[], [], [], [], [], [], [], [], [], [0xE3, 0x00, 0xFD]] ∧
    (Check_Temperature_And_Control_Devices 28 0 display_boot).to_esp32 = [0xE1, 0x01, 0x18] := by
  refine ⟨by decide, by decide, by decide, by decide, by decide⟩

/-- The first call after boot sends a frame exactly when the reading is 28.0 C
or more: below that the status stays 0 and nothing is sent. -/
theorem startup_call_frame (a b : Nat) :
    (Check_Temperature_And_Control_Devices a b display_boot).to_esp32 =
      (if temp_total_of a b < 280 then []
       else Send_Command_To_ESP32_With_Temp
         (if esp32_status_of (temp_total_of a b) = 2 then 0xE2 else 0xE1) (temp_total_of a b)) := by
  obtain ⟨d2, hs, hc, hout, _⟩ := check_to_esp32 a b display_boot
  have hs0 : d2.esp32_status = 0 := hs
  have hc0 : d2.temp_update_counter = 0 := hc
  rw [hout]
  generalize temp_total_of a b = tt
  by_cases hlt : tt < 280
  · have hst : esp32_status_of tt = d2.esp32_status := by
      rw [hs0]
      unfold esp32_status_of
      rw [if_neg (by omega), if_neg (by omega)]
    rw [(notify_esp32_same tt d2 0 hst hc0 (by norm_num)).1, if_pos hlt]
    rfl
  · have hst : esp32_status_of tt ≠ d2.esp32_status := by
      rw [hs0]
      unfold esp32_status_of
      split_ifs
      · norm_num
      · norm_num
      · omega
    rw [(notify_esp32_changed tt d2 hst).1, if_neg hlt]
    have h12 : esp32_status_of tt = 2 ∨ esp32_status_of tt = 1 := by
      unfold esp32_status_of
      split_ifs
      · exact Or.inl rfl
      · exact Or.inr rfl
      · omega
    rcases h12 with h2 | h1
    · rw [if_pos h2, if_pos h2]
    · rw [if_neg (by omega), if_pos h1, if_neg (by omega)]

end SmartWard
